import Mathlib

/-!
# XR vessels: door sounds, warning queue, coolant model and XR5 door failure

Shallow embedding of the per-timestep callbacks of
`DeltaGliderXR1/XR1Lib/XR1PostSteps.cpp` and of the damage code of
`XR5Vanguard/XR5Vanguard/XR5Vanguard_DMG.cpp`, together with the utilities they
rest on: `Validate` (`DeltaGliderXR1.h`), `TextLineGroup` (`TextBox.cpp`),
`CountOneBits` (`Vessel3Ext.h`) and the step registration of the XR2
(`XR2StartupCallbacks.cpp`).

Conventions of the embedding:

* A C++ `double` is an exact rational (`ℚ`); rounding, infinities and NaN are
  outside the model, except in `Validate`, whose `double` operands may be NaN
  (`Double`).
* Each callback is a pure function from the fields it reads (and the values the
  host returns to its queries in that step) to the fields it writes, together
  with the ordered list of calls it makes to the host or to methods whose
  bodies live in other translation units (`Call`).
-/

namespace XRVessels

/-- Door state enum used by every animated subsystem (`DoorStatus`). -/
inductive DoorStatus where
  | NOT_SET
  | DOOR_FAILED
  | DOOR_CLOSED
  | DOOR_OPEN
  | DOOR_CLOSING
  | DOOR_OPENING
  deriving DecidableEq, Repr

/-- Sound slots of `DeltaGliderXR1::Sound` that the embedded code refers to. -/
inductive Sound where
  | dAirlockLadder
  | dNosecone
  | dOuterDoor
  | dInnerDoor
  | dAirbrake
  | dCabinHatch
  | dRadiator
  | dRetroDoors
  | dHoverDoors
  | dScramDoors
  | Chamber
  | Warning
  deriving DecidableEq, Repr

/-- Values of `DeltaGliderXR1::SoundType` that the embedded code refers to. -/
inductive SoundType where
  | ST_None
  | ST_Other
  | ST_WarningCallout
  | ST_InformationCallout
  | ST_AudioStatusGreeting
  deriving DecidableEq, Repr

/-- Values of `XRSound::PlaybackType` that the embedded code refers to. -/
inductive PlaybackType where
  | Radio
  | InternalOnly
  deriving DecidableEq, Repr

/-- Optional third argument of `PlaySound`: omitted, or the value passed. -/
inductive PlayArg where
  | omitted
  | soundType (t : SoundType)
  deriving DecidableEq, Repr

/-- One call made by the embedded code to the host or to a vessel method whose
body is in another translation unit, with its arguments.  A `const char *`
argument that may be `nullptr` is an `Option String`. -/
inductive Call where
  | LoadXR1Sound (id : Sound) (file : String) (pt : PlaybackType)
  | PlaySound (id : Sound) (st : SoundType) (arg : PlayArg)
  | StopSound (id : Sound)
  | ShowInfo (wav : Option String) (st : SoundType) (msg : String)
  | ShowWarning (wav : Option String) (st : SoundType) (msg : String) (force : Bool)
  | MarkAPUActive
  | FailDoor_crewElevator
  deriving DecidableEq, Repr

/-! ## DoorSoundsPostStep -/

/-- The `DoorSound` structure.  The pointer `pDoorStatus` is not stored: the
status it points to is passed to each step as the door's current status. -/
structure DoorSound where
  prevDoorStatus : DoorStatus
  soundID : Sound
  processAPUTransitionState : Bool
  pLabel : String
  deriving DecidableEq, Repr

/-- What `INIT_DOORSOUND` stores for a door in the constructor. -/
def INIT_DOORSOUND (xr1SoundID : Sound) (label : String) : DoorSound :=
  { prevDoorStatus := DoorStatus.NOT_SET
    soundID := xr1SoundID
    processAPUTransitionState := false
    pLabel := label }

/-- `DoorSoundsPostStep::ShowDoorInfoMsg`: the info message for a door's change
in status; no message for `DOOR_FAILED` (or `NOT_SET`). -/
def DoorSoundsPostStep.ShowDoorInfoMsg (ds : DoorStatus) (doorSound : DoorSound) : List Call :=
  let pActionStr : Option String :=
    if ds = DoorStatus.DOOR_OPENING then some "opening"
    else if ds = DoorStatus.DOOR_CLOSING then some "closing"
    else if ds = DoorStatus.DOOR_OPEN then some "open"
    else if ds = DoorStatus.DOOR_CLOSED then some "closed"
    else none
  match pActionStr with
  | some action =>
      [Call.ShowInfo none SoundType.ST_None (doorSound.pLabel ++ " " ++ action ++ ".")]
  | none => []

/-- `DoorSoundsPostStep::PlayDoorSound` for one door in one step.
`ds` is `*doorSound.pDoorStatus`, `apuOnline` is what
`CheckHydraulicPressure(false, false)` returns and `isPlaying` is what
`IsPlaying(soundID)` returns in this step.  Returns the updated `DoorSound` and
the calls made, in order. -/
def DoorSoundsPostStep.PlayDoorSound (ds : DoorStatus) (apuOnline isPlaying : Bool)
    (doorSound : DoorSound) : DoorSound × List Call :=
  let soundID := doorSound.soundID
  let inMotion : Bool := ds = DoorStatus.DOOR_OPENING ∨ ds = DoorStatus.DOOR_CLOSING
  let r : DoorSound × List Call :=
    if doorSound.prevDoorStatus ≠ DoorStatus.NOT_SET then
      -- handle APU transition states
      let r1 : DoorSound × List Call :=
        if !apuOnline then
          if inMotion && doorSound.processAPUTransitionState then
            ({ doorSound with processAPUTransitionState := false },
             [Call.LoadXR1Sound soundID "Door Opened Thump.wav" PlaybackType.InternalOnly,
              Call.PlaySound soundID SoundType.ST_Other PlayArg.omitted])
          else (doorSound, [])
        else
          if inMotion then
            ({ doorSound with processAPUTransitionState := true },
             [Call.MarkAPUActive] ++
             (if isPlaying = false then
                [Call.LoadXR1Sound soundID "Hydraulics1.wav" PlaybackType.InternalOnly,
                 Call.PlaySound soundID SoundType.ST_Other PlayArg.omitted]
              else []))
          else (doorSound, [])
      let log2 : List Call :=
        if apuOnline && decide (ds ≠ doorSound.prevDoorStatus) then
          if inMotion then
            [Call.LoadXR1Sound soundID "Hydraulics1.wav" PlaybackType.InternalOnly,
             Call.PlaySound soundID SoundType.ST_Other PlayArg.omitted] ++
            DoorSoundsPostStep.ShowDoorInfoMsg ds doorSound
          else
            [Call.StopSound soundID] ++
            (if ds ≠ DoorStatus.DOOR_FAILED then
               [Call.LoadXR1Sound soundID "Door Opened Thump.wav" PlaybackType.InternalOnly,
                Call.PlaySound soundID SoundType.ST_Other PlayArg.omitted]
             else []) ++
            DoorSoundsPostStep.ShowDoorInfoMsg ds doorSound
        else []
      (r1.1, r1.2 ++ log2)
    else (doorSound, [])
  ({ r.1 with prevDoorStatus := ds }, r.2)

/-- Inputs of one `PlayDoorSound` step for a door. -/
structure DoorStep where
  ds : DoorStatus
  apuOnline : Bool
  isPlaying : Bool
  deriving DecidableEq, Repr

/-- `PlayDoorSound` called for one door in consecutive steps: the list of the
calls made in each step, in step order. -/
def DoorSoundsPostStep.run (doorSound : DoorSound) : List DoorStep → List (List Call)
  | [] => []
  | i :: rest =>
      let r := DoorSoundsPostStep.PlayDoorSound i.ds i.apuOnline i.isPlaying doorSound
      r.2 :: DoorSoundsPostStep.run r.1 rest

/-- Number of times the completion thump is loaded on the door's sound slot. -/
def thumpCount (doorSound : DoorSound) (log : List Call) : Nat :=
  log.count (Call.LoadXR1Sound doorSound.soundID "Door Opened Thump.wav" PlaybackType.InternalOnly)

/-- Number of `<label> open.` / `<label> closed.` info messages in a log. -/
def doneMsgCount (doorSound : DoorSound) (log : List Call) : Nat :=
  log.count (Call.ShowInfo none SoundType.ST_None (doorSound.pLabel ++ " open.")) +
  log.count (Call.ShowInfo none SoundType.ST_None (doorSound.pLabel ++ " closed."))


/-! ## XR5Vanguard::CheckDoorFailure -/

/-- The door that the `doorStatus` pointer of `CheckDoorFailure` designates:
`&crewElevator_status`, `&bay_status`, or the status of one of the doors that
the XR5 leaves to its base class. -/
inductive DoorRef where
  | crewElevator
  | bay
  | baseDoor
  deriving DecidableEq, Repr

/-- The `XR5Vanguard` fields that `CheckDoorFailure` reads or writes, and the
calls it has made so far (`log`, oldest first). -/
structure XR5Vanguard where
  crewElevator_status : DoorStatus
  bay_status : DoorStatus
  baseDoor_status : DoorStatus
  wl5Elev : Bool
  wl5Bay : Bool
  crewElevator_proc : ℚ
  bay_proc : ℚ
  m_noseconeTemp : ℚ
  m_topHullTemp : ℚ
  log : List Call
  deriving DecidableEq, Repr

/-- Dereference of the `doorStatus` pointer. -/
def XR5Vanguard.deref (s : XR5Vanguard) : DoorRef → DoorStatus
  | DoorRef.crewElevator => s.crewElevator_status
  | DoorRef.bay => s.bay_status
  | DoorRef.baseDoor => s.baseDoor_status

/-- Assignment through the `doorStatus` pointer. -/
def XR5Vanguard.assign (s : XR5Vanguard) (d : DoorRef) (v : DoorStatus) : XR5Vanguard :=
  match d with
  | DoorRef.crewElevator => { s with crewElevator_status := v }
  | DoorRef.bay => { s with bay_status := v }
  | DoorRef.baseDoor => { s with baseDoor_status := v }

/-- What `CheckDoorFailure` uses but the sources do not define: the macros
`IS_DOOR_FAILURE(temp, limit)` and `IS_DOOR_WARNING(temp, limit)` of
`XRCommon_DMG.h` (they also read the local `doorProc`; dynamic pressure and
configuration are fixed during a call, so each is a function of the two
arguments and `doorProc`), the limits `ELEVATOR_LIMIT` and `BAY_LIMIT`, the new
value `FailDoor` leaves in the door proc it is given by reference, and the
base-class method `DeltaGliderXR1::CheckDoorFailure`. -/
structure XR5Env where
  IS_DOOR_FAILURE : ℚ → ℚ → ℚ → Bool
  IS_DOOR_WARNING : ℚ → ℚ → ℚ → Bool
  ELEVATOR_LIMIT : ℚ
  BAY_LIMIT : ℚ
  FailDoor : ℚ → ℚ
  baseCheckDoorFailure : DoorRef → XR5Vanguard → Bool × XR5Vanguard

/-- Modelled from the spec: the macro `IS_DOOR_FAILED()` of `XRCommon_DMG.h`
is not among the sources.  It tests the pointed-to status for `DOOR_FAILED`
(the spec's `Failed` state), as the comments at its uses say: "door is closed;
reset the warning light" where it is false, "door is failed; notify our
superclass" where it is true. -/
def IS_DOOR_FAILED (status : DoorStatus) : Bool :=
  status = DoorStatus.DOOR_FAILED

/-- `XR5Vanguard::CheckDoorFailure(doorStatus)`: returns the flag and the
vessel afterwards. -/
def XR5Vanguard.CheckDoorFailure (env : XR5Env) (doorStatus : DoorRef) (s : XR5Vanguard) :
    Bool × XR5Vanguard :=
  let doorOpen : Bool :=
    s.deref doorStatus ≠ DoorStatus.DOOR_CLOSED ∧ s.deref doorStatus ≠ DoorStatus.DOOR_FAILED
  if doorOpen then
    match doorStatus with
    | DoorRef.crewElevator =>
        let doorProc := s.crewElevator_proc
        if env.IS_DOOR_FAILURE s.m_noseconeTemp env.ELEVATOR_LIMIT doorProc then
          let s1 := { s with log := s.log ++ [Call.ShowWarning (some "Warning Elevator Failure.wav")
            SoundType.ST_WarningCallout
            "Elevator FAILED due to excessive&heat and/or dynamic pressure!" true] }
          let s2 := s1.assign doorStatus DoorStatus.DOOR_FAILED
          let s3 := { s2 with wl5Elev := true }
          let s4 := { s3 with crewElevator_proc := env.FailDoor s3.crewElevator_proc,
                              log := s3.log ++ [Call.FailDoor_crewElevator] }
          (true, s4)
        else if env.IS_DOOR_WARNING s.m_noseconeTemp env.ELEVATOR_LIMIT doorProc then
          (false, { s with wl5Elev := true,
                           log := s.log ++ [Call.ShowWarning (some "Warning Elevator Deployed.wav")
                             SoundType.ST_WarningCallout
                             "Elevator is deployed:&retract it or reduce speed!" false] })
        else if IS_DOOR_FAILED (s.deref doorStatus) = false then
          (false, { s with wl5Elev := false })
        else (false, s)
    | DoorRef.bay =>
        let doorProc := s.bay_proc
        if env.IS_DOOR_FAILURE s.m_topHullTemp env.BAY_LIMIT doorProc then
          let s1 := { s with log := s.log ++ [Call.ShowWarning (some "Warning Bay Door Failure.wav")
            SoundType.ST_WarningCallout
            "Bay doors FAILED due to excessive&heat and/or dynamic pressure!" true] }
          let s2 := s1.assign doorStatus DoorStatus.DOOR_FAILED
          (true, { s2 with wl5Bay := true })
        else if env.IS_DOOR_WARNING s.m_topHullTemp env.BAY_LIMIT doorProc then
          (false, { s with wl5Bay := true,
                           log := s.log ++ [Call.ShowWarning (some "Warning Bay Doors Open.wav")
                             SoundType.ST_WarningCallout
                             "Bay doors are open:&close them or reduce speed!" false] })
        else if IS_DOOR_FAILED (s.deref doorStatus) = false then
          (false, { s with wl5Bay := false })
        else (false, s)
    | DoorRef.baseDoor => env.baseCheckDoorFailure doorStatus s
  else
    if IS_DOOR_FAILED (s.deref doorStatus) = false then
      match doorStatus with
      | DoorRef.crewElevator => (false, { s with wl5Elev := false })
      | DoorRef.bay => (false, { s with wl5Bay := false })
      | DoorRef.baseDoor => env.baseCheckDoorFailure doorStatus s
    else env.baseCheckDoorFailure doorStatus s

/-- The XR5 warning light that belongs to a door (`wl5Elev` for the crew
elevator, `wl5Bay` for the bay doors; the base-class doors have none here). -/
def XR5Vanguard.warningLight (s : XR5Vanguard) : DoorRef → Bool
  | DoorRef.crewElevator => s.wl5Elev
  | DoorRef.bay => s.wl5Bay
  | DoorRef.baseDoor => false

/-- The value of `IS_DOOR_FAILURE` as `CheckDoorFailure` evaluates it for a
door: nosecone temperature and `ELEVATOR_LIMIT` for the crew elevator, top hull
temperature and `BAY_LIMIT` for the bay doors. -/
def XR5Env.failureExceeded (env : XR5Env) (s : XR5Vanguard) : DoorRef → Bool
  | DoorRef.crewElevator =>
      env.IS_DOOR_FAILURE s.m_noseconeTemp env.ELEVATOR_LIMIT s.crewElevator_proc
  | DoorRef.bay => env.IS_DOOR_FAILURE s.m_topHullTemp env.BAY_LIMIT s.bay_proc
  | DoorRef.baseDoor => false

/-- The value of `IS_DOOR_WARNING` as `CheckDoorFailure` evaluates it for a
door. -/
def XR5Env.warningExceeded (env : XR5Env) (s : XR5Vanguard) : DoorRef → Bool
  | DoorRef.crewElevator =>
      env.IS_DOOR_WARNING s.m_noseconeTemp env.ELEVATOR_LIMIT s.crewElevator_proc
  | DoorRef.bay => env.IS_DOOR_WARNING s.m_topHullTemp env.BAY_LIMIT s.bay_proc
  | DoorRef.baseDoor => false

/-! ## ShowWarningPostStep -/

/-- The fields that `ShowWarningPostStep::clbkPrePostStep` reads or writes: the
vessel's warning request (`m_warningWavFilename`, empty when nothing is
queued, `m_warningWaveSoundType`, `m_forceWarning`), `m_isCrashed`,
`m_MWSActive`, and the members of the PostStep itself. -/
structure WarningState where
  m_isCrashed : Bool
  m_warningWavFilename : String
  m_warningWaveSoundType : SoundType
  m_forceWarning : Bool
  m_MWSActive : Bool
  m_lastWarningWavFilename : String
  m_minimumRepeatSimt : ℚ
  m_warningSoundPlayingPreviousStep : Bool
  m_performedStartupCheck : Bool
  deriving DecidableEq, Repr

/-- Answers of the vessel to the queries of the startup check, and the four
string constants it uses that the sources do not define. -/
structure StartupQueries where
  crewIsDead : Bool
  GetCrewMembersCount : Int
  IsCrewIncapacitated : Bool
  IsPilotOnBoard : Bool
  IsDamagePresent : Bool
  IsWarningPresent : Bool
  ParseFailed : Bool
  IsLanded : Bool
  IsDocked : Bool
  m_parkingBrakesEngaged : Bool
  WELCOME_ABOARD_ALL_SYSTEMS_NOMINAL_WAV : String
  WELCOME_MSG : String
  ALL_SYSTEMS_NOMINAL_WAV : String
  ALL_SYSTEMS_NOMINAL_MSG : String
  deriving DecidableEq, Repr

/-- The members as the `ShowWarningPostStep` constructor leaves them, on a
vessel with no warning queued. -/
def ShowWarningPostStep.init : WarningState :=
  { m_isCrashed := false
    m_warningWavFilename := ""
    m_warningWaveSoundType := SoundType.ST_Other
    m_forceWarning := false
    m_MWSActive := false
    m_lastWarningWavFilename := ""
    m_minimumRepeatSimt := 0
    m_warningSoundPlayingPreviousStep := false
    m_performedStartupCheck := false }

/-- The warning part of `ShowWarningPostStep::clbkPrePostStep`, from the
`IsPlaying` query to the save of the play status.  `warningWavPlayingNow` is
what `IsPlaying(Warning)` returns in this step. -/
def ShowWarningPostStep.warningBlock (simt : ℚ) (warningWavPlayingNow : Bool)
    (s : WarningState) : WarningState × List Call :=
  -- check whether the warning wav just STOPPED playing
  let minimumRepeatSimt : ℚ :=
    if s.m_warningSoundPlayingPreviousStep = true ∧ warningWavPlayingNow = false then
      if s.m_warningWavFilename ≠ "" then
        if s.m_warningWavFilename = s.m_lastWarningWavFilename then simt + 3
        else s.m_minimumRepeatSimt
      else s.m_minimumRepeatSimt
    else s.m_minimumRepeatSimt
  let s1 : WarningState := { s with m_minimumRepeatSimt := minimumRepeatSimt }
  let r2 : WarningState × List Call :=
    if s.m_warningWavFilename ≠ "" then
      let isRepeat : Bool := s.m_warningWavFilename = s.m_lastWarningWavFilename
      let r3 : WarningState × List Call :=
        if s.m_forceWarning = true ∨ warningWavPlayingNow = false then
          if s.m_forceWarning = true ∨ isRepeat = false ∨ simt > minimumRepeatSimt then
            ({ s1 with m_lastWarningWavFilename := s.m_warningWavFilename,
                       m_warningWavFilename := "",
                       m_warningWaveSoundType := SoundType.ST_Other },
             [Call.LoadXR1Sound Sound.Warning s.m_warningWavFilename PlaybackType.Radio,
              Call.PlaySound Sound.Warning SoundType.ST_WarningCallout
                (PlayArg.soundType s.m_warningWaveSoundType)])
          else (s1, [])
        else (s1, [])
      let s4 : WarningState :=
        if isRepeat then
          { r3.1 with m_warningWavFilename := "", m_warningWaveSoundType := SoundType.ST_Other }
        else r3.1
      ({ s4 with m_forceWarning := false }, r3.2)
    else (s1, [])
  ({ r2.1 with m_warningSoundPlayingPreviousStep := warningWavPlayingNow }, r2.2)

/-- The startup check at the end of `ShowWarningPostStep::clbkPrePostStep`.
The requests it files through `ShowWarning` / `ShowInfo` are returned as calls. -/
def ShowWarningPostStep.startupCheck (simt : ℚ) (q : StartupQueries) (s : WarningState) :
    WarningState × List Call :=
  if simt > 1 ∧ s.m_performedStartupCheck = false then
    let s1 := { s with m_performedStartupCheck := true }
    if q.crewIsDead then
      (s1, [Call.ShowWarning none SoundType.ST_None "CREW IS DEAD!" false])
    else if q.GetCrewMembersCount = 0 then
      (s1, [Call.ShowWarning none SoundType.ST_None "NO CREW ON BOARD!" false])
    else if q.IsCrewIncapacitated then
      (s1, [Call.ShowWarning none SoundType.ST_None "CREW IS UNCONSCIOUS!" false])
    else if !q.IsPilotOnBoard then
      (s1, [Call.ShowWarning none SoundType.ST_None "NO PILOT ON BOARD!" false])
    else if q.IsDamagePresent then
      ({ s1 with m_MWSActive := true },
       [Call.ShowWarning (some "Warning Ship Damage Detected.wav") SoundType.ST_WarningCallout
          "Ship damage detected!&Check MDA status screens." false])
    else if q.IsWarningPresent then
      ({ s1 with m_MWSActive := true },
       [Call.ShowWarning (some "Warning Conditions Detected.wav") SoundType.ST_WarningCallout
          "Warning condition(s) detected!&Check MWS lights." false])
    else
      if !q.ParseFailed then
        let showWelcome : Bool := q.IsLanded || q.IsDocked || q.m_parkingBrakesEngaged
        if showWelcome then
          (s1, [Call.ShowInfo (some q.WELCOME_ABOARD_ALL_SYSTEMS_NOMINAL_WAV)
                  SoundType.ST_AudioStatusGreeting q.WELCOME_MSG])
        else
          (s1, [Call.ShowInfo (some q.ALL_SYSTEMS_NOMINAL_WAV)
                  SoundType.ST_AudioStatusGreeting q.ALL_SYSTEMS_NOMINAL_MSG])
      else (s1, [])
  else (s, [])

/-- `ShowWarningPostStep::clbkPrePostStep(simt, simdt, mjd)`.  The state
returned holds the fields as the statements of the function itself leave them;
the requests filed by the startup check are in the list of calls. -/
def ShowWarningPostStep.clbkPrePostStep (simt : ℚ) (warningWavPlayingNow : Bool)
    (q : StartupQueries) (s : WarningState) : WarningState × List Call :=
  if s.m_isCrashed then (s, [])
  else
    let r := ShowWarningPostStep.warningBlock simt warningWavPlayingNow s
    let r2 := ShowWarningPostStep.startupCheck simt q r.1
    (r2.1, r.2 ++ r2.2)

/-- The calls of a log that load or play a sound in the `Warning` slot. -/
def warningSoundCalls (log : List Call) : List Call :=
  log.filter fun c =>
    match c with
    | Call.LoadXR1Sound Sound.Warning _ _ => true
    | Call.PlaySound Sound.Warning _ _ => true
    | _ => false

/-- A warning request as other code files it between two steps through the
three fields that "the warning PostStep polls". -/
structure WarningRequest where
  wav : String
  soundType : SoundType
  force : Bool
  deriving DecidableEq, Repr

/-- Inputs of one step of the warning PostStep: the request filed since the
previous step (if any), the sim time, and the answers of the host. -/
structure WarningStep where
  request : Option WarningRequest
  simt : ℚ
  warningWavPlayingNow : Bool
  startup : StartupQueries
  deriving DecidableEq, Repr

/-- Writes a request into the three polled fields. -/
def WarningState.file (s : WarningState) : Option WarningRequest → WarningState
  | none => s
  | some r => { s with m_warningWavFilename := r.wav,
                       m_warningWaveSoundType := r.soundType,
                       m_forceWarning := r.force }

/-- Consecutive steps of `ShowWarningPostStep::clbkPrePostStep`, a request
possibly being filed before each: the `Warning`-slot sound calls of each step. -/
def ShowWarningPostStep.run (s : WarningState) : List WarningStep → List (List Call)
  | [] => []
  | i :: rest =>
      let r := ShowWarningPostStep.clbkPrePostStep i.simt i.warningWavPlayingNow i.startup
        (s.file i.request)
      warningSoundCalls r.2 :: ShowWarningPostStep.run r.1 rest

/-! ## UpdateCoolantTempPostStep -/

/-- Constants of the coolant model that the sources use but do not define. -/
structure CoolantConsts where
  COOLANT_HEATING_RATE : Int → ℚ
  MAX_COOLANT_TEMP : ℚ
  NOMINAL_COOLANT_TEMP : ℚ
  WARN_COOLANT_TEMP : ℚ
  CRITICAL_COOLANT_TEMP : ℚ
  COOLANT_COOLING_RATE_FRAC : ℚ
  COOLANT_COOLING_RATE_MIN : ℚ

/-- The fields that `UpdateCoolantTempPostStep::clbkPrePostStep` reads or
writes (`wlCool` is `m_warningLights[wlCool]`, `CoolantHeatingRate` the
configured index into `COOLANT_HEATING_RATE`). -/
structure CoolantState where
  m_isCrashed : Bool
  m_coolantTemp : ℚ
  CoolantHeatingRate : Int
  apu_status : DoorStatus
  radiator_status : DoorStatus
  m_isExternalCoolantFlowing : Bool
  m_internalSystemsFailure : Bool
  m_MWSActive : Bool
  wlCool : Bool
  m_prevCoolantTemp : ℚ
  deriving DecidableEq, Repr

/-- The coolant temperature computed by `UpdateCoolantTempPostStep::clbkPrePostStep`
before the warning and failure checks: heat added, capped at the maximum,
cooled by radiator and external coolant, floored at nominal. -/
def UpdateCoolantTempPostStep.newCoolantTemp (k : CoolantConsts) (simdt : ℚ)
    (s : CoolantState) : ℚ :=
  let coolantTemp0 := s.m_coolantTemp
  let heatingModifier : ℚ :=
    if s.apu_status = DoorStatus.DOOR_OPEN ∨ s.apu_status = DoorStatus.DOOR_OPENING
    then 1 + 5 / 100 else 1
  let coolantTemp1 := coolantTemp0 + k.COOLANT_HEATING_RATE s.CoolantHeatingRate * simdt * heatingModifier
  let coolantTemp2 := if coolantTemp1 > k.MAX_COOLANT_TEMP then k.MAX_COOLANT_TEMP else coolantTemp1
  let coolantTemp3 :=
    if s.radiator_status = DoorStatus.DOOR_OPEN then
      coolantTemp2 - max (k.COOLANT_COOLING_RATE_FRAC * coolantTemp2) k.COOLANT_COOLING_RATE_MIN * simdt
    else coolantTemp2
  let coolantTemp4 :=
    if s.m_isExternalCoolantFlowing then
      coolantTemp3 -
        max ((k.COOLANT_COOLING_RATE_FRAC * (127 / 100)) * coolantTemp3) k.COOLANT_COOLING_RATE_MIN * simdt
    else coolantTemp3
  if coolantTemp4 < k.NOMINAL_COOLANT_TEMP then k.NOMINAL_COOLANT_TEMP else coolantTemp4

/-- `UpdateCoolantTempPostStep::clbkPrePostStep(simt, simdt, mjd)`.  `dt` is
what `oapiGetSimStep()` returns and `rand` what `oapiRand()` returns in this
step. -/
def UpdateCoolantTempPostStep.clbkPrePostStep (k : CoolantConsts) (simdt dt rand : ℚ)
    (s : CoolantState) : CoolantState × List Call :=
  if s.m_isCrashed then (s, [])
  else
    let coolantTemp := UpdateCoolantTempPostStep.newCoolantTemp k simdt s
    -- check for warnings or failure
    let r : CoolantState × List Call :=
      if coolantTemp ≥ k.CRITICAL_COOLANT_TEMP then
        if s.m_internalSystemsFailure then
          ({ s with m_MWSActive := true, wlCool := true }, [])
        else
          let log1 := [Call.ShowWarning (some "Warning Systems Overheating.wav")
            SoundType.ST_WarningCallout "WARNING: coolant temperature critical!" false]
          let exceededLimitMult : ℚ := (coolantTemp / k.CRITICAL_COOLANT_TEMP) ^ 2
          let failureTimeFrac : ℚ := dt / 20
          let failureProbability : ℚ := failureTimeFrac * exceededLimitMult
          let r1 : CoolantState × List Call :=
            if rand ≤ failureProbability then
              ({ s with m_internalSystemsFailure := true, m_MWSActive := true },
               log1 ++ [Call.ShowWarning (some "Warning Systems Failure Oxygen Flow Offline.wav")
                 SoundType.ST_WarningCallout
                 "WARNING: SYSTEMS FAILURE!&Environmental systems offline;&DEPLOY THE RADIATOR!"
                 true])
            else (s, log1)
          let s2 := { r1.1 with wlCool := true }
          let s3 := if s.m_prevCoolantTemp < k.CRITICAL_COOLANT_TEMP
                    then { s2 with m_MWSActive := true } else s2
          (s3, r1.2)
      else if coolantTemp ≥ k.WARN_COOLANT_TEMP then
        let s1 := { s with wlCool := true }
        let r1 : CoolantState × List Call :=
          if s.m_prevCoolantTemp < k.WARN_COOLANT_TEMP then
            ({ s1 with m_MWSActive := true },
             [Call.ShowWarning (some "Warning Coolant Temperature.wav")
               SoundType.ST_WarningCallout
               "WARNING: deploy radiator!&Check coolant temperature." false])
          else (s1, [])
        let log2 : List Call :=
          if s.m_prevCoolantTemp ≥ k.CRITICAL_COOLANT_TEMP then
            [Call.ShowInfo (some "Systems Rebooted Oxygen Flow Restored.wav")
              SoundType.ST_InformationCallout
              "Systems rebooted;&Environmental systems online."]
          else []
        (r1.1, r1.2 ++ log2)
      else ({ s with wlCool := false }, [])
    let s4 := if coolantTemp < k.CRITICAL_COOLANT_TEMP
              then { r.1 with m_internalSystemsFailure := false } else r.1
    ({ s4 with m_coolantTemp := coolantTemp, m_prevCoolantTemp := coolantTemp }, r.2)

/-- The heating modifier of the coolant model: 1.05 while the APU is running
(`apu_status` is `DOOR_OPEN` or `DOOR_OPENING`), 1.0 otherwise. -/
def heatingModifier (apu_status : DoorStatus) : ℚ :=
  if apu_status = DoorStatus.DOOR_OPEN ∨ apu_status = DoorStatus.DOOR_OPENING
  then 105 / 100 else 1

/-! ## AutoCenteringSimpleButtonAreasPostStep -/

/-- A `VECTOR3` of the host. -/
structure VECTOR3 where
  x : ℚ
  y : ℚ
  z : ℚ
  deriving DecidableEq, Repr

/-- Area ids of the three centering buttons. -/
inductive AreaID where
  | AID_HBALANCECENTER
  | AID_GIMBALSCRAMCENTER
  | AID_PGIMBALMAINCENTER
  deriving DecidableEq, Repr

/-- Calls made by the centering handlers to vessel methods whose bodies are in
other translation units. -/
inductive CenterCall where
  | CheckHydraulicPressure (playWarning playErrorBeep : Bool)
  | TriggerRedrawArea (areaID : AreaID)
  deriving DecidableEq, Repr

/-- What the centering handlers use but the sources do not define: the
constants of `XR1Globals`, and the C library functions `atan2`, `sin`, `cos`. -/
structure CenteringEnv where
  HOVER_BALANCE_SPEED : ℚ
  MAX_HOVER_IMBALANCE : ℚ
  MAX_HOVER_THRUST : Int → ℚ
  SCRAM_GIMBAL_SPEED : ℚ
  SCRAM_DEFAULT_DIR : ℚ
  MAIN_PGIMBAL_SPEED : ℚ
  atan2 : ℚ → ℚ → ℚ
  sin : ℚ → ℚ
  cos : ℚ → ℚ

/-- The vessel fields and the host thruster state that `DoHoverCenter`,
`DoScramCenter` and `DoMainPitchCenter` read or write: the three mode flags,
`m_hoverBalance`, the configured `HoverEngineThrust` index, the `max0` values of
`th_hover[0..1]` and the directions of `th_scram[0..1]` and `th_main[0..1]`. -/
structure CenteringState where
  m_hoverCenteringMode : Bool
  m_scramCenteringMode : Bool
  m_mainPitchCenteringMode : Bool
  m_hoverBalance : ℚ
  HoverEngineThrust : Int
  th_hover_max0_0 : ℚ
  th_hover_max0_1 : ℚ
  th_scram_dir_0 : VECTOR3
  th_scram_dir_1 : VECTOR3
  th_main_dir_0 : VECTOR3
  th_main_dir_1 : VECTOR3
  deriving DecidableEq, Repr

/-- Answers of the host and of the vessel to the queries of one centering
step: the result of `CheckHydraulicPressure`, of `oapiGetSimStep()`, and the
`fracIntegrity` of the fore and aft hover engines. -/
structure CenteringInput where
  hydraulicPressure : Bool
  simStep : ℚ
  fracIntegrityFore : ℚ
  fracIntegrityAft : ℚ
  deriving DecidableEq, Repr

/-- `AutoCenteringSimpleButtonAreasPostStep::DoHoverCenter`. -/
def AutoCenteringSimpleButtonAreasPostStep.DoHoverCenter (env : CenteringEnv)
    (i : CenteringInput) (s : CenteringState) : CenteringState × List CenterCall :=
  if s.m_hoverCenteringMode then
    -- can't move unless the APU is online
    if i.hydraulicPressure = false then
      ({ s with m_hoverCenteringMode := false },
       [CenterCall.CheckHydraulicPressure true true,
        CenterCall.TriggerRedrawArea AreaID.AID_HBALANCECENTER])
    else
      let shift := i.simStep * env.HOVER_BALANCE_SPEED
      let b1 : ℚ :=
        if s.m_hoverBalance > 0 then
          (if s.m_hoverBalance - shift < 0 then 0 else s.m_hoverBalance - shift)
        else if s.m_hoverBalance < 0 then
          (if s.m_hoverBalance + shift > 0 then 0 else s.m_hoverBalance + shift)
        else s.m_hoverBalance
      let b2 : ℚ :=
        if b1 > env.MAX_HOVER_IMBALANCE then env.MAX_HOVER_IMBALANCE
        else if b1 < -env.MAX_HOVER_IMBALANCE then -env.MAX_HOVER_IMBALANCE
        else b1
      let maxThrustFore := env.MAX_HOVER_THRUST s.HoverEngineThrust * i.fracIntegrityFore
      let maxThrustAft := env.MAX_HOVER_THRUST s.HoverEngineThrust * i.fracIntegrityAft
      let s1 : CenteringState :=
        { s with m_hoverBalance := b2,
                 th_hover_max0_0 := maxThrustFore * (1 + b2),
                 th_hover_max0_1 := maxThrustAft * (1 - b2) }
      if b2 = 0 then
        ({ s1 with m_hoverCenteringMode := false },
         [CenterCall.CheckHydraulicPressure true true,
          CenterCall.TriggerRedrawArea AreaID.AID_HBALANCECENTER])
      else (s1, [CenterCall.CheckHydraulicPressure true true])
  else (s, [])

/-- One iteration of the loop of `DoScramCenter`: the new angle `phi` of a
SCRAM thruster with direction `dir`. -/
def AutoCenteringSimpleButtonAreasPostStep.scramPhi (env : CenteringEnv) (dphi : ℚ)
    (dir : VECTOR3) : ℚ :=
  let phi := env.atan2 dir.y dir.z
  if phi ≥ env.SCRAM_DEFAULT_DIR then max env.SCRAM_DEFAULT_DIR (phi - dphi)
  else min env.SCRAM_DEFAULT_DIR (phi + dphi)

/-- `AutoCenteringSimpleButtonAreasPostStep::DoScramCenter`. -/
def AutoCenteringSimpleButtonAreasPostStep.DoScramCenter (env : CenteringEnv)
    (i : CenteringInput) (s : CenteringState) : CenteringState × List CenterCall :=
  if s.m_scramCenteringMode then
    if i.hydraulicPressure = false then
      ({ s with m_scramCenteringMode := false },
       [CenterCall.CheckHydraulicPressure true true,
        CenterCall.TriggerRedrawArea AreaID.AID_GIMBALSCRAMCENTER])
    else
      let dphi := i.simStep * env.SCRAM_GIMBAL_SPEED
      let phi0 := AutoCenteringSimpleButtonAreasPostStep.scramPhi env dphi s.th_scram_dir_0
      let phi1 := AutoCenteringSimpleButtonAreasPostStep.scramPhi env dphi s.th_scram_dir_1
      let keep_going : Bool := phi0 ≠ env.SCRAM_DEFAULT_DIR ∨ phi1 ≠ env.SCRAM_DEFAULT_DIR
      let s1 : CenteringState :=
        { s with th_scram_dir_0 := ⟨0, env.sin phi0, env.cos phi0⟩,
                 th_scram_dir_1 := ⟨0, env.sin phi1, env.cos phi1⟩ }
      if !keep_going then
        ({ s1 with m_scramCenteringMode := false },
         [CenterCall.CheckHydraulicPressure true true,
          CenterCall.TriggerRedrawArea AreaID.AID_GIMBALSCRAMCENTER])
      else (s1, [CenterCall.CheckHydraulicPressure true true])
  else (s, [])

/-- One iteration of the loop of `DoMainPitchCenter`: the new direction of a
main thruster with direction `dir`. -/
def AutoCenteringSimpleButtonAreasPostStep.mainPitchDir (dy : ℚ) (dir : VECTOR3) : VECTOR3 :=
  let d : VECTOR3 := ⟨dir.x / dir.z, dir.y / dir.z, dir.z / dir.z⟩
  if d.y ≥ 0 then { d with y := max 0 (d.y - dy) }
  else { d with y := min 0 (d.y + dy) }

/-- `AutoCenteringSimpleButtonAreasPostStep::DoMainPitchCenter`. -/
def AutoCenteringSimpleButtonAreasPostStep.DoMainPitchCenter (env : CenteringEnv)
    (i : CenteringInput) (s : CenteringState) : CenteringState × List CenterCall :=
  if s.m_mainPitchCenteringMode then
    if i.hydraulicPressure = false then
      ({ s with m_mainPitchCenteringMode := false },
       [CenterCall.CheckHydraulicPressure true true,
        CenterCall.TriggerRedrawArea AreaID.AID_PGIMBALMAINCENTER])
    else
      let dy := i.simStep * env.MAIN_PGIMBAL_SPEED
      let dir0 := AutoCenteringSimpleButtonAreasPostStep.mainPitchDir dy s.th_main_dir_0
      let dir1 := AutoCenteringSimpleButtonAreasPostStep.mainPitchDir dy s.th_main_dir_1
      let keep_going : Bool := dir0.y ≠ 0 ∨ dir1.y ≠ 0
      let s1 : CenteringState := { s with th_main_dir_0 := dir0, th_main_dir_1 := dir1 }
      if !keep_going then
        ({ s1 with m_mainPitchCenteringMode := false },
         [CenterCall.CheckHydraulicPressure true true,
          CenterCall.TriggerRedrawArea AreaID.AID_PGIMBALMAINCENTER])
      else (s1, [CenterCall.CheckHydraulicPressure true true])
  else (s, [])

/-! ## XR5Vanguard::CheckHullHeatingDamage -/

/-- Calls made by `XR5Vanguard::CheckHullHeatingDamage`, in order.  The text
passed to `DoCrash` is given by its `sprintf` pattern; the Mach number printed
into it is not part of the model. -/
inductive HullCall where
  | BaseCheckHullHeatingDamage (rcover_status : DoorStatus)
  | CheckTemperature (tempK limitK : ℚ) (doorOpen : Bool)
  | DoCrash (pattern : String) (touchdownVertSpeed : Int)
  deriving DecidableEq, Repr

/-- The fields read by `XR5Vanguard::CheckHullHeatingDamage`. -/
structure HullState where
  rcover_status : DoorStatus
  crewElevator_status : DoorStatus
  hatch_status : DoorStatus
  nose_status : DoorStatus
  m_noseconeTemp : ℚ
  m_cockpitTemp : ℚ
  m_topHullTemp : ℚ
  limit_noseCone : ℚ
  limit_cockpit : ℚ
  limit_topHull : ℚ
  deriving DecidableEq, Repr

/-- What one invocation of `CheckHullHeatingDamage` gets back from code that
is not in the sources: the flag returned by the base-class method, and the
value returned by each call of `CheckTemperature` (0 when there is no breach),
for the crew elevator and retro door checks of the nosecone, the cockpit and
the top hull; `IS_DOOR_OPEN` is the macro of `XRCommon_DMG.h`. -/
structure HullAnswers where
  IS_DOOR_OPEN : DoorStatus → Bool
  baseNewDamage : Bool
  noseconeElevator : Int
  noseconeRetro : Int
  cockpit : Int
  topHull : Int

/-- `XR5Vanguard::CheckHullHeatingDamage()`: the flag returned and the calls
made, in order.  `rcover_status` is set to `DOOR_CLOSED` around the base-class
call and restored after it. -/
def XR5Vanguard.CheckHullHeatingDamage (a : HullAnswers) (s : HullState) :
    Bool × List HullCall :=
  let newdamage := a.baseNewDamage
  let log0 : List HullCall := [HullCall.BaseCheckHullHeatingDamage DoorStatus.DOOR_CLOSED]
  -- nosecone max temp is tied to the retro doors and our crew elevator
  let log1 : List HullCall :=
    [HullCall.CheckTemperature s.m_noseconeTemp s.limit_noseCone
       (a.IS_DOOR_OPEN s.crewElevator_status)] ++
    (if a.noseconeElevator ≠ 0 then []
     else [HullCall.CheckTemperature s.m_noseconeTemp s.limit_noseCone
             (a.IS_DOOR_OPEN s.rcover_status)]) ++
    (if a.noseconeElevator ≠ 0 ∨ a.noseconeRetro ≠ 0
     then [HullCall.DoCrash "LOWER HULL BREACH at Mach %.1lf!" 0] else [])
  -- cockpit max temp is tied to the escape hatch
  let log2 : List HullCall :=
    [HullCall.CheckTemperature s.m_cockpitTemp s.limit_cockpit (a.IS_DOOR_OPEN s.hatch_status)] ++
    (if a.cockpit ≠ 0 then [HullCall.DoCrash "COCKPIT BREACH at Mach %.1lf!" 0] else [])
  -- top hull max temp: docking port
  let log3 : List HullCall :=
    [HullCall.CheckTemperature s.m_topHullTemp s.limit_topHull (a.IS_DOOR_OPEN s.nose_status)] ++
    (if a.topHull ≠ 0 then [HullCall.DoCrash "TOP HULL BREACH at Mach %.1lf!" 0] else [])
  (newdamage, log0 ++ log1 ++ log2 ++ log3)

/-- Number of `DoCrash` calls in a list of calls. -/
def doCrashCount (log : List HullCall) : Nat :=
  log.countP fun c =>
    match c with
    | HullCall.DoCrash _ _ => true
    | _ => false

/-! ## DeltaGliderXR1::Validate -/

/-- A C++ `double` handed to `Validate`: a number, or NaN.  (Infinities are
not represented.) -/
inductive Double where
  | NaN
  | num (x : ℚ)
  deriving DecidableEq, Repr

/-- The C++ `a < b` on doubles: false as soon as one operand is NaN. -/
def Double.lt : Double → Double → Bool
  | Double.num x, Double.num y => decide (x < y)
  | _, _ => false

/-- The C++ `a <= b` on doubles: false as soon as one operand is NaN. -/
def Double.le : Double → Double → Bool
  | Double.num x, Double.num y => decide (x ≤ y)
  | _, _ => false

instance : LT Double := ⟨fun a b => Double.lt a b = true⟩

instance : LE Double := ⟨fun a b => Double.le a b = true⟩

instance (a b : Double) : Decidable (a < b) :=
  inferInstanceAs (Decidable (Double.lt a b = true))

instance (a b : Double) : Decidable (a ≤ b) :=
  inferInstanceAs (Decidable (Double.le a b = true))

/-- The value of `static_cast<double>(0.0)`. -/
instance : Zero Double := ⟨Double.num 0⟩

/-- The value of `static_cast<double>(1.0)`. -/
instance : One Double := ⟨Double.num 1⟩

/-- `DeltaGliderXR1::Validate(val, low, high)` for a template parameter `T`
with the comparison `<` (`a > b` being `b < a`): the flag returned and the
value left in `val`. -/
def Validate {T : Type} [LT T] [∀ a b : T, Decidable (a < b)] (val low high : T) : Bool × T :=
  if val < low then (false, low)
  else if val > high then (false, high)
  else (true, val)

/-- `DeltaGliderXR1::ValidateFraction(frac)`. -/
def ValidateFraction {T : Type} [LT T] [∀ a b : T, Decidable (a < b)] [Zero T] [One T]
    (frac : T) : Bool × T :=
  Validate frac 0 1

/-! ## XR5Vanguard::GetDamageStatus / SetDamageStatus -/

/-- The values of `DamageItem` that the XR5 handles itself, and the others. -/
inductive DamageItem where
  | BayDoors
  | Elevator
  | baseItem
  deriving DecidableEq, Repr

/-- The `DamageStatus` structure. -/
structure DamageStatus where
  fracIntegrity : ℚ
  label : String
  shortLabel : String
  onlineOffline : Bool
  deriving DecidableEq, Repr

/-- The fields that `XR5Vanguard::SetDamageStatus` and `GetDamageStatus` read or
write. -/
structure XR5Damage where
  bay_status : DoorStatus
  bay_proc : ℚ
  crewElevator_status : DoorStatus
  crewElevator_proc : ℚ
  wl5Elev : Bool
  wl5Bay : Bool
  m_MWSActive : Bool
  deriving DecidableEq, Repr

/-- What `SetDamageStatus` and `GetDamageStatus` use but the sources do not
define: `UpdateDoorDamage` (given the door status, proc and integrity, the
status and proc it leaves), `IsDamagePresent`, `ApplyDamage`, and the
base-class `SetDamageStatus` and `GetDamageStatus` for the other items. -/
structure XR5DamageEnv where
  UpdateDoorDamage : DoorStatus → ℚ → ℚ → DoorStatus × ℚ
  IsDamagePresent : XR5Damage → Bool
  ApplyDamage : XR5Damage → XR5Damage
  baseSetDamageStatus : ℚ → XR5Damage → XR5Damage
  baseGetDamageStatus : XR5Damage → DamageStatus

/-- `XR5Vanguard::GetDamageStatus(item)`. -/
def XR5Vanguard.GetDamageStatus (env : XR5DamageEnv) (item : DamageItem) (s : XR5Damage) :
    DamageStatus :=
  match item with
  | DamageItem.BayDoors =>
      { fracIntegrity := if s.bay_status = DoorStatus.DOOR_FAILED then 0 else 1
        label := "Bay Doors"
        shortLabel := "BDor"
        onlineOffline := true }
  | DamageItem.Elevator =>
      { fracIntegrity := if s.crewElevator_status = DoorStatus.DOOR_FAILED then 0 else 1
        label := "Elevator"
        shortLabel := "Elev"
        onlineOffline := true }
  | DamageItem.baseItem => env.baseGetDamageStatus s

/-- `XR5Vanguard::SetDamageStatus(item, fracIntegrity)`. -/
def XR5Vanguard.SetDamageStatus (env : XR5DamageEnv) (item : DamageItem) (fracIntegrity : ℚ)
    (s : XR5Damage) : XR5Damage :=
  let finish (t : XR5Damage) : XR5Damage :=
    -- if any damage present, let's apply it
    if env.IsDamagePresent t then env.ApplyDamage { t with m_MWSActive := true } else t
  match item with
  | DamageItem.BayDoors =>
      let r := env.UpdateDoorDamage s.bay_status s.bay_proc fracIntegrity
      let s1 := { s with bay_status := r.1, bay_proc := r.2 }
      let s2 := { s1 with wl5Bay := s1.wl5Bay || decide (fracIntegrity < 1) }
      finish s2
  | DamageItem.Elevator =>
      let r := env.UpdateDoorDamage s.crewElevator_status s.crewElevator_proc fracIntegrity
      let s1 := { s with crewElevator_status := r.1, crewElevator_proc := r.2 }
      let s2 := if fracIntegrity < 1
                then { s1 with crewElevator_status := DoorStatus.DOOR_FAILED } else s1
      let s3 := { s2 with wl5Elev := s2.wl5Elev || decide (fracIntegrity < 1) }
      finish s3
  | DamageItem.baseItem => env.baseSetDamageStatus fracIntegrity s

/-! ## XR2Ravenstar::clbkPostCreation -/

/-- The PreStep classes registered by the XR2. -/
inductive PreStepClass where
  | DrainBayFuelTanksPreStep
  | RefreshSlotStatesPreStep
  | AttitudeHoldPreStep
  | DescentHoldPreStep
  | AirspeedHoldPreStep
  | ScramjetSoundPreStep
  | MmuPreStep
  | GearCalloutsPreStep
  | MachCalloutsPreStep
  | AltitudeCalloutsPreStep
  | DockingCalloutsPreStep
  | TakeoffAndLandingCalloutsAndCrashPreStep
  | NosewheelSteeringPreStep
  | UpdateVesselLightsPreStep
  | ParkingBrakePreStep
  | RotateWheelsPreStep
  | UpdatePreviousFieldsPreStep
  deriving DecidableEq, Repr

/-- The PostStep classes registered by the XR2. -/
inductive PostStepClass where
  | PreventAutoRefuelPostStep
  | ComputeAccPostStep
  | ShowWarningPostStep
  | SetHullTempsPostStep
  | SetSlopePostStep
  | FuelCalloutsPostStep
  | UpdateIntervalTimersPostStep
  | APUPostStep
  | UpdateMassPostStep
  | SwitchTwoDPanelPostStep
  | AnimationPostStep
  | XR2AnimationPostStep
  | XR2DoorSoundsPostStep
  | OneShotInitializationPostStep
  | DisableControlSurfForAPUPostStep
  | FuelDumpPostStep
  | XFeedPostStep
  | ResupplyPostStep
  | LOXConsumptionPostStep
  | UpdateCoolantTempPostStep
  | AirlockDecompressionPostStep
  | AutoCenteringSimpleButtonAreasPostStep
  | ResetAPUTimerForPolledSystemsPostStep
  | ManageMWSPostStep
  | BoilOffPostStep
  | TestXRVesselCtrlPostStep
  deriving DecidableEq, Repr

/-- The two step vectors of `VESSEL3_EXT`. -/
structure StepVectors where
  m_preStepVector : List PreStepClass
  m_postStepVector : List PostStepClass
  deriving DecidableEq, Repr

/-- Modelled from the spec: `VESSEL3_EXT::AddPreStep`, whose body is not in the
sources, appends the step to the ordered PreStep collection ("ordering
guarantees are by construction (explicit list order)"; "these are invoked in
order" in the caller). -/
def AddPreStep (p : PreStepClass) (v : StepVectors) : StepVectors :=
  { v with m_preStepVector := v.m_preStepVector ++ [p] }

/-- Modelled from the spec: `VESSEL3_EXT::AddPostStep`, whose body is not in
the sources, appends the step to the ordered PostStep collection. -/
def AddPostStep (p : PostStepClass) (v : StepVectors) : StepVectors :=
  { v with m_postStepVector := v.m_postStepVector ++ [p] }

/-- The step registrations of `XR2Ravenstar::clbkPostCreation`, in source
order.  `EnableBoilOffExhaustEffect` is the configuration flag and `debugBuild`
tells whether `_DEBUG` is defined. -/
def XR2Ravenstar.clbkPostCreation (EnableBoilOffExhaustEffect debugBuild : Bool)
    (v : StepVectors) : StepVectors :=
  let v := AddPreStep PreStepClass.DrainBayFuelTanksPreStep v
  let v := AddPreStep PreStepClass.RefreshSlotStatesPreStep v
  let v := AddPreStep PreStepClass.AttitudeHoldPreStep v
  let v := AddPreStep PreStepClass.DescentHoldPreStep v
  let v := AddPreStep PreStepClass.AirspeedHoldPreStep v
  let v := AddPreStep PreStepClass.ScramjetSoundPreStep v
  let v := AddPreStep PreStepClass.MmuPreStep v
  let v := AddPreStep PreStepClass.GearCalloutsPreStep v
  let v := AddPreStep PreStepClass.MachCalloutsPreStep v
  let v := AddPreStep PreStepClass.AltitudeCalloutsPreStep v
  let v := AddPreStep PreStepClass.DockingCalloutsPreStep v
  let v := AddPreStep PreStepClass.TakeoffAndLandingCalloutsAndCrashPreStep v
  let v := AddPreStep PreStepClass.NosewheelSteeringPreStep v
  let v := AddPreStep PreStepClass.UpdateVesselLightsPreStep v
  let v := AddPreStep PreStepClass.ParkingBrakePreStep v
  let v := AddPreStep PreStepClass.RotateWheelsPreStep v
  -- WARNING: this must be invoked LAST in the AddPreStep sequence
  let v := AddPreStep PreStepClass.UpdatePreviousFieldsPreStep v
  let v := AddPostStep PostStepClass.PreventAutoRefuelPostStep v
  let v := AddPostStep PostStepClass.ComputeAccPostStep v
  let v := AddPostStep PostStepClass.ShowWarningPostStep v
  let v := AddPostStep PostStepClass.SetHullTempsPostStep v
  let v := AddPostStep PostStepClass.SetSlopePostStep v
  let v := AddPostStep PostStepClass.FuelCalloutsPostStep v
  let v := AddPostStep PostStepClass.UpdateIntervalTimersPostStep v
  let v := AddPostStep PostStepClass.APUPostStep v
  let v := AddPostStep PostStepClass.UpdateMassPostStep v
  let v := AddPostStep PostStepClass.SwitchTwoDPanelPostStep v
  let v := AddPostStep PostStepClass.AnimationPostStep v
  let v := AddPostStep PostStepClass.XR2AnimationPostStep v
  let v := AddPostStep PostStepClass.XR2DoorSoundsPostStep v
  let v := AddPostStep PostStepClass.OneShotInitializationPostStep v
  let v := AddPostStep PostStepClass.DisableControlSurfForAPUPostStep v
  let v := AddPostStep PostStepClass.FuelDumpPostStep v
  let v := AddPostStep PostStepClass.XFeedPostStep v
  let v := AddPostStep PostStepClass.ResupplyPostStep v
  let v := AddPostStep PostStepClass.LOXConsumptionPostStep v
  let v := AddPostStep PostStepClass.UpdateCoolantTempPostStep v
  let v := AddPostStep PostStepClass.AirlockDecompressionPostStep v
  let v := AddPostStep PostStepClass.AutoCenteringSimpleButtonAreasPostStep v
  let v := AddPostStep PostStepClass.ResetAPUTimerForPolledSystemsPostStep v
  let v := AddPostStep PostStepClass.ManageMWSPostStep v
  let v := if EnableBoilOffExhaustEffect then AddPostStep PostStepClass.BoilOffPostStep v else v
  let v := if debugBuild then AddPostStep PostStepClass.TestXRVesselCtrlPostStep v else v
  v

/-! ## TextLineGroup -/

/-- Colour of a line (`TEXTCOLOR`). -/
inductive TEXTCOLOR where
  | Normal
  | Highlighted
  deriving DecidableEq, Repr

/-- A line of text to be added to the buffer (`TextLine`); the text is the
sequence of its characters. -/
structure TextLine where
  text : List Char
  color : TEXTCOLOR
  deriving DecidableEq, Repr

/-- The members of `TextLineGroup`; `m_lines` is stored oldest to newest.  The
two `int` members are integers: the increment of `m_addLinesCount` is modelled
without overflow, which the source leaves undefined. -/
structure TextLineGroup where
  m_maxLines : Int
  m_addLinesCount : Int
  m_lines : List TextLine
  deriving DecidableEq, Repr

/-- The constructor `TextLineGroup::TextLineGroup(maxLines)`. -/
def TextLineGroup.new (maxLines : Int) : TextLineGroup :=
  { m_maxLines := maxLines, m_addLinesCount := 0, m_lines := [] }

/-- `TextLineGroup::GetLineCount()`. -/
def TextLineGroup.GetLineCount (g : TextLineGroup) : Int :=
  g.m_lines.length

/-- `TextLineGroup::GetAddLinesCount()`. -/
def TextLineGroup.GetAddLinesCount (g : TextLineGroup) : Int :=
  g.m_addLinesCount

/-- `TextLineGroup::AddLine(textLine)`: push the line at the back, then erase
the front element if the count exceeds `m_maxLines`. -/
def TextLineGroup.AddLine (g : TextLineGroup) (textLine : TextLine) : TextLineGroup :=
  let g1 := { g with m_lines := g.m_lines ++ [textLine] }
  if g1.GetLineCount > g1.m_maxLines then { g1 with m_lines := g1.m_lines.tail }
  else g1

/-- The C library `strchr(p, c)` on the characters before the terminating NUL:
the offset of the first occurrence of `c`, or `none` for a null result. -/
def strchr : List Char → Char → Option Nat
  | [], _ => none
  | x :: xs, c => if x = c then some 0 else (strchr xs c).map (· + 1)

/-- The `while (cont)` loop of `TextLineGroup::AddLines`: the lines it passes
to `AddLine`, in order, starting with `pStart` at the given characters.  The
first argument bounds the number of iterations. -/
def TextLineGroup.AddLines.loop (color : TEXTCOLOR) : Nat → List Char → List TextLine
  | 0, _ => []
  | fuel + 1, pStart =>
      match strchr pStart '&' with
      | some k =>
          -- found a newline: terminate the line there and go on after it
          { text := pStart.take k, color := color } ::
            TextLineGroup.AddLines.loop color fuel (pStart.drop (k + 1))
      | none => [{ text := pStart, color := color }]

/-- The lines that `AddLines(pStr, highlighted)` passes to `AddLine`. -/
def TextLineGroup.AddLines.submitted (pStr : List Char) (highlighted : Bool) : List TextLine :=
  TextLineGroup.AddLines.loop (if highlighted then TEXTCOLOR.Highlighted else TEXTCOLOR.Normal)
    (pStr.length + 1) pStr

/-- `TextLineGroup::AddLines(pStr, highlighted)`.  `MAX_MESSAGE_LENGTH` is the
size of the working buffer (a constant the sources do not define); a string
that does not fit it with its terminating NUL overruns the buffer, for which
the result is `none`. -/
def TextLineGroup.AddLines (MAX_MESSAGE_LENGTH : Nat) (g : TextLineGroup) (pStr : List Char)
    (highlighted : Bool) : Option TextLineGroup :=
  if pStr.length + 1 ≤ MAX_MESSAGE_LENGTH then
    some ((TextLineGroup.AddLines.submitted pStr highlighted).foldl TextLineGroup.AddLine
      { g with m_addLinesCount := g.m_addLinesCount + 1 })
  else none

/-! ## VESSEL3_EXT::CountOneBits -/

/-- The `for` loop of `CountOneBits` with the given number of iterations left:
`oneBitsCount += (dwBitmask & 1); dwBitmask >>= 1`.  On a two's-complement
`int`, `dwBitmask & 1` is the remainder modulo 2 and `>>= 1` (arithmetic shift)
is the division by 2 rounded down. -/
def VESSEL3_EXT.CountOneBits.loop : Nat → Int → Int → Int
  | 0, _, oneBitsCount => oneBitsCount
  | n + 1, dwBitmask, oneBitsCount =>
      VESSEL3_EXT.CountOneBits.loop n (dwBitmask / 2) (oneBitsCount + dwBitmask % 2)

/-- `VESSEL3_EXT::CountOneBits(dwBitmask)`. -/
def VESSEL3_EXT.CountOneBits (dwBitmask : Int) : Int :=
  VESSEL3_EXT.CountOneBits.loop 32 dwBitmask 0

/-- The number of 1 bits in the 32-bit two's-complement representation of `v`,
that is in the binary representation of `v mod 2^32`. -/
def popCount32 (v : Int) : Nat :=
  (List.range 32).countP fun i => Nat.testBit (v % 2 ^ 32).toNat i

/-! ## AirlockDecompressionPostStep -/

/-- Calls made by `AirlockDecompressionPostStep::clbkPrePostStep`. -/
inductive AirlockCall where
  | GetDockHandle (n : Nat)
  | GetDockParams
  | AddParticleStream
  | DecompressCabin
  | DelExhaustStream (stream : Nat)
  deriving DecidableEq, Repr

/-- The fields that `AirlockDecompressionPostStep::clbkPrePostStep` reads or
writes; a null `m_decompressionStream` is `none`. -/
structure AirlockState where
  olock_proc : ℚ
  ilock_proc : ℚ
  m_cabinO2Level : ℚ
  m_decompressionStream : Option Nat
  m_ventTime : ℚ
  deriving DecidableEq, Repr

/-- Answers of the host in one step: `GetAtmPressure()`, `IsDocked()` and the
handle returned by `AddParticleStream` (null is `none`). -/
structure AirlockInput where
  simt : ℚ
  GetAtmPressure : ℚ
  IsDocked : Bool
  newStream : Option Nat
  deriving DecidableEq, Repr

/-- `AirlockDecompressionPostStep::clbkPrePostStep(simt, simdt, mjd)`. -/
def AirlockDecompressionPostStep.clbkPrePostStep (i : AirlockInput) (s : AirlockState) :
    AirlockState × List AirlockCall :=
  let doorsOpen : Bool := s.olock_proc > 0.20 ∧ s.olock_proc > 0.20
  let r1 : AirlockState × List AirlockCall :=
    if doorsOpen = true ∧ s.m_cabinO2Level > 0 ∧ i.GetAtmPressure < 50000 ∧ i.IsDocked = false then
      -- decompression!
      ({ s with m_decompressionStream := i.newStream, m_ventTime := i.simt },
       [AirlockCall.GetDockHandle 0, AirlockCall.GetDockParams, AirlockCall.AddParticleStream,
        AirlockCall.DecompressCabin])
    else (s, [])
  -- halt the stream if time expired
  match r1.1.m_decompressionStream with
  | some h =>
      if i.simt > r1.1.m_ventTime + 4 then
        ({ r1.1 with m_decompressionStream := none }, r1.2 ++ [AirlockCall.DelExhaustStream h])
      else r1
  | none => r1

/-! ## ComputeAccPostStep -/

/-- Scale of the acceleration gauge (`AccScale`). -/
inductive AccScale where
  | NONE
  | TwoG
  | FourG
  | EightG
  deriving DecidableEq, Repr

/-- The fields that `ComputeAccPostStep::clbkPrePostStep` reads or writes: the
vessel's `m_acceleration`, `m_F`, `m_W`, `m_maxGaugeAcc`, `m_accScale`, and the
members of the PostStep. -/
structure AccState where
  m_acceleration : VECTOR3
  m_F : VECTOR3
  m_W : VECTOR3
  m_maxGaugeAcc : ℚ
  m_accScale : AccScale
  m_gaugeScaleExpiration : ℚ
  m_peakAccOnCurrentGaugeScale : ℚ
  m_activeGaugeScale : AccScale
  deriving DecidableEq, Repr

/-- Answers of the host in one step of `ComputeAccPostStep`: the force and
weight vectors, the mass, `IsDocked()` and `GroundContact()`. -/
structure AccInput where
  simt : ℚ
  F : VECTOR3
  W : VECTOR3
  GetMass : ℚ
  IsDocked : Bool
  GroundContact : Bool
  deriving DecidableEq, Repr

/-- The members as the `ComputeAccPostStep` constructor leaves them; the gauge
fields of the vessel are given. -/
def ComputeAccPostStep.init (maxGaugeAcc : ℚ) (accScale : AccScale) : AccState :=
  { m_acceleration := ⟨0, 0, 0⟩
    m_F := ⟨0, 0, 0⟩
    m_W := ⟨0, 0, 0⟩
    m_maxGaugeAcc := maxGaugeAcc
    m_accScale := accScale
    m_gaugeScaleExpiration := -1
    m_peakAccOnCurrentGaugeScale := 0
    m_activeGaugeScale := AccScale.NONE }

/-- The value `maxAcc` computed by `ComputeAccPostStep::clbkPrePostStep`: the
largest absolute acceleration along an axis, in units of `G` (a constant of the
host, taken as a parameter). -/
def ComputeAccPostStep.maxAcc (G : ℚ) (i : AccInput) : ℚ :=
  let acc : VECTOR3 :=
    if i.IsDocked then ⟨0, 0, 0⟩
    else ⟨(i.F.x - i.W.x) / i.GetMass, (i.F.y - i.W.y) / i.GetMass, (i.F.z - i.W.z) / i.GetMass⟩
  |max |acc.x| (max |acc.y| |acc.z|)| / G

/-- `ComputeAccPostStep::clbkPrePostStep(simt, simdt, mjd)`. -/
def ComputeAccPostStep.clbkPrePostStep (G : ℚ) (i : AccInput) (s : AccState) : AccState :=
  let s0 : AccState :=
    { s with m_F := i.F, m_W := i.W,
             m_acceleration :=
               if i.IsDocked then s.m_acceleration
               else ⟨(i.F.x - i.W.x) / i.GetMass, (i.F.y - i.W.y) / i.GetMass,
                     (i.F.z - i.W.z) / i.GetMass⟩ }
  let maxAcc := ComputeAccPostStep.maxAcc G i
  let s1 : AccState :=
    if i.GroundContact = true ∨ maxAcc > s0.m_maxGaugeAcc * (105 / 100) ∨
        i.simt ≥ s0.m_gaugeScaleExpiration then
      -- rescale the panel based on the highest G received on the current gauge
      { s0 with
          m_maxGaugeAcc :=
            if s0.m_peakAccOnCurrentGaugeScale ≤ 21 / 10 then 2
            else if s0.m_peakAccOnCurrentGaugeScale ≤ 42 / 10 then 4
            else 8,
          m_accScale :=
            if s0.m_peakAccOnCurrentGaugeScale ≤ 21 / 10 then AccScale.TwoG
            else if s0.m_peakAccOnCurrentGaugeScale ≤ 42 / 10 then AccScale.FourG
            else AccScale.EightG,
          m_gaugeScaleExpiration := i.simt + 3,
          m_peakAccOnCurrentGaugeScale := -1 }
    else s0
  -- update peak Acc for this gauge scale
  if maxAcc > s1.m_peakAccOnCurrentGaugeScale then
    { s1 with m_peakAccOnCurrentGaugeScale := maxAcc }
  else s1

/-- Consecutive steps of `ComputeAccPostStep::clbkPrePostStep`: the state after
the last one. -/
def ComputeAccPostStep.run (G : ℚ) (s : AccState) : List AccInput → AccState
  | [] => s
  | i :: rest => ComputeAccPostStep.run G (ComputeAccPostStep.clbkPrePostStep G i s) rest

/-! ## DoorSoundsPostStep over several steps -/

/-- The `DoorSound` of a door after `PlayDoorSound` was called for it in the
given consecutive steps. -/
def DoorSoundsPostStep.runState (doorSound : DoorSound) : List DoorStep → DoorSound
  | [] => doorSound
  | i :: rest =>
      DoorSoundsPostStep.runState
        (DoorSoundsPostStep.PlayDoorSound i.ds i.apuOnline i.isPlaying doorSound).1 rest

/-- Whether step `k` of a run plays the abrupt-stop thump: the step has no
hydraulic pressure and loads `Door Opened Thump.wav` on the door's slot. -/
def abruptThumpAt (doorSound : DoorSound) (steps : List DoorStep) (k : Nat) : Bool :=
  match steps[k]?, (DoorSoundsPostStep.run doorSound steps)[k]? with
  | some x, some log => !x.apuOnline && decide (0 < thumpCount doorSound log)
  | _, _ => false

/-- Whether in step `j` hydraulic pressure is available and the door is
`DOOR_OPENING` or `DOOR_CLOSING`. -/
def pressureInMotionAt (steps : List DoorStep) (j : Nat) : Bool :=
  match steps[j]? with
  | some x =>
      x.apuOnline && decide (x.ds = DoorStatus.DOOR_OPENING ∨ x.ds = DoorStatus.DOOR_CLOSING)
  | none => false

/-- Whether a call is a `ShowInfo`. -/
def isShowInfo : Call → Bool
  | Call.ShowInfo _ _ _ => true
  | _ => false

/-! ## SetSlopePostStep -/

/-- Modelled from the spec: the class `RollingArray` is not among the sources.
It is a "fixed-capacity sample buffer (FIFO of doubles) supporting `AddSample`,
`GetSum`, `GetAverage`"; `samples` holds the samples oldest first. -/
structure RollingArray where
  capacity : Nat
  samples : List ℚ
  deriving DecidableEq, Repr

/-- Modelled from the spec: `RollingArray::AddSample` appends the sample and,
the buffer being of fixed capacity, drops the oldest one when it is exceeded. -/
def RollingArray.AddSample (r : RollingArray) (x : ℚ) : RollingArray :=
  if (r.samples ++ [x]).length > r.capacity then { r with samples := (r.samples ++ [x]).tail }
  else { r with samples := r.samples ++ [x] }

/-- Modelled from the spec: `RollingArray::GetSum` is the sum of the samples in
the buffer. -/
def RollingArray.GetSum (r : RollingArray) : ℚ :=
  r.samples.sum

/-- The members of `SetSlopePostStep` and the vessel's `m_slope`. -/
structure SlopeState where
  m_slope : ℚ
  m_lastUpdateTime : ℚ
  m_lastUpdateAltitude : ℚ
  m_refreshRate : ℚ
  m_nextUpdateTime : ℚ
  m_isNextUpdateTimeValid : Bool
  m_pAltitudeDeltaRollingArray : RollingArray
  m_pDistanceRollingArray : RollingArray
  deriving DecidableEq, Repr

/-- Answers of the host in one step of `SetSlopePostStep`. -/
structure SlopeInput where
  simt : ℚ
  altitude : ℚ
  GroundContact : Bool
  GetGroundspeed : ℚ
  deriving DecidableEq, Repr

/-- The C library functions used by `SetSlopePostStep`. -/
structure SlopeEnv where
  sqrt : ℚ → ℚ
  atan : ℚ → ℚ

/-- The members as the `SetSlopePostStep` constructor leaves them. -/
def SetSlopePostStep.init (slope : ℚ) : SlopeState :=
  { m_slope := slope
    m_lastUpdateTime := 0
    m_lastUpdateAltitude := 0
    m_refreshRate := 167 / 10000
    m_nextUpdateTime := 0
    m_isNextUpdateTimeValid := false
    m_pAltitudeDeltaRollingArray := { capacity := 30, samples := [] }
    m_pDistanceRollingArray := { capacity := 30, samples := [] } }

/-- Whether a step of `SetSlopePostStep` recomputes `m_slope`: the ship is
airborne, the next update time is valid, not more than a second ahead, and
reached. -/
def SetSlopePostStep.recomputes (i : SlopeInput) (s : SlopeState) : Bool :=
  !i.GroundContact && s.m_isNextUpdateTimeValid &&
    !decide (s.m_nextUpdateTime - i.simt > 1) && decide (i.simt ≥ s.m_nextUpdateTime)

/-- The sums `a` (altitude deltas) and `c` (distances) over the rolling windows
after the samples of this step were added. -/
def SetSlopePostStep.legs (i : SlopeInput) (s : SlopeState) : ℚ × ℚ :=
  ((s.m_pAltitudeDeltaRollingArray.AddSample (i.altitude - s.m_lastUpdateAltitude)).GetSum,
   (s.m_pDistanceRollingArray.AddSample
     (i.GetGroundspeed * (i.simt - s.m_lastUpdateTime))).GetSum)

/-- `SetSlopePostStep::clbkPrePostStep(simt, simdt, mjd)`. -/
def SetSlopePostStep.clbkPrePostStep (env : SlopeEnv) (i : SlopeInput) (s : SlopeState) :
    SlopeState :=
  if i.GroundContact then
    { s with m_isNextUpdateTimeValid := false, m_slope := 0 }
  else
    let s1 : SlopeState :=
      if s.m_isNextUpdateTimeValid then
        if ¬ (s.m_isNextUpdateTimeValid = true ∧ s.m_nextUpdateTime - i.simt > 1) then
          if s.m_isNextUpdateTimeValid = true ∧ i.simt ≥ s.m_nextUpdateTime then
            let groundspeed := i.GetGroundspeed
            let timeDeltaSinceLastUpdate := i.simt - s.m_lastUpdateTime
            let altArray :=
              s.m_pAltitudeDeltaRollingArray.AddSample (i.altitude - s.m_lastUpdateAltitude)
            let distArray :=
              s.m_pDistanceRollingArray.AddSample (groundspeed * timeDeltaSinceLastUpdate)
            let a := altArray.GetSum
            let c := distArray.GetSum
            let b := env.sqrt (c * c - a * a)
            { s with m_pAltitudeDeltaRollingArray := altArray,
                     m_pDistanceRollingArray := distArray,
                     m_slope := env.atan (a / b) }
          else s
        else s
      else s
    { s1 with m_nextUpdateTime := i.simt + s.m_refreshRate,
              m_lastUpdateTime := i.simt,
              m_lastUpdateAltitude := i.altitude,
              m_isNextUpdateTimeValid := true }

/-! ## XRVCScriptThread status mailbox -/

/-- The mailbox members of `XRVCScriptThread`; a `CString` is the list of its
characters. -/
structure XRVCScriptThread where
  m_csExecuteScriptStatus : List Char
  m_csExecuteScriptCommandList : List (List Char)
  m_csScriptToExecute : List Char
  deriving DecidableEq, Repr

/-- The value of `*pMsg` for a C string: its first character, or the
terminating NUL when the string is empty. -/
def derefChar (pMsg : List Char) : Char :=
  pMsg.headD (Char.ofNat 0)

/-- The assignment of a single character to a `CString` (`operator=(char)`),
which leaves the one-character string, or the empty string for NUL. -/
def CString.ofChar (ch : Char) : List Char :=
  if ch = Char.ofNat 0 then [] else [ch]

/-- `XRVCScriptThread::ST_SendStatusMessage(singleton, pMsg)`, inside its
critical section: `singleton.m_csExecuteScriptStatus = *pMsg`.  `assign` is the
`CString` assignment from a `char`. -/
def XRVCScriptThread.ST_SendStatusMessage (assign : Char → List Char)
    (singleton : XRVCScriptThread) (pMsg : List Char) : XRVCScriptThread :=
  { singleton with m_csExecuteScriptStatus := assign (derefChar pMsg) }

/-- `XRVCScriptThread::GetStatusMessage(csOut)`, inside its critical section:
the flag returned, the string left in `csOut`, and the object afterwards. -/
def XRVCScriptThread.GetStatusMessage (t : XRVCScriptThread) :
    Bool × List Char × XRVCScriptThread :=
  let csOut := t.m_csExecuteScriptStatus
  (!csOut.isEmpty, csOut, { t with m_csExecuteScriptStatus := [] })

/-! ## Concrete inputs used to exercise the theorems -/

/-- A radiator that is closed, opens over two steps and then stays open, with
hydraulic pressure throughout. -/
def radiatorOpening : List DoorStep :=
  [ { ds := DoorStatus.DOOR_CLOSED, apuOnline := true, isPlaying := false },
    { ds := DoorStatus.DOOR_OPENING, apuOnline := true, isPlaying := false },
    { ds := DoorStatus.DOOR_OPENING, apuOnline := true, isPlaying := true },
    { ds := DoorStatus.DOOR_OPEN, apuOnline := true, isPlaying := true },
    { ds := DoorStatus.DOOR_OPEN, apuOnline := true, isPlaying := false } ]

/-- An XR5 with both new doors open and no warning light on. -/
def xr5DoorsOpen : XR5Vanguard :=
  { crewElevator_status := DoorStatus.DOOR_OPEN
    bay_status := DoorStatus.DOOR_OPEN
    baseDoor_status := DoorStatus.DOOR_CLOSED
    wl5Elev := false
    wl5Bay := false
    crewElevator_proc := 1
    bay_proc := 1
    m_noseconeTemp := 900
    m_topHullTemp := 700
    log := [] }

/-- An environment in which a door fails when the temperature exceeds its
limit and warns above three quarters of it; the base class reports no failure
and changes nothing. -/
def xr5ThresholdEnv : XR5Env :=
  { IS_DOOR_FAILURE := fun temp limit doorProc => decide (0 < doorProc ∧ limit < temp)
    IS_DOOR_WARNING := fun temp limit doorProc => decide (0 < doorProc ∧ limit * (3 / 4) < temp)
    ELEVATOR_LIMIT := 1000
    BAY_LIMIT := 600
    FailDoor := fun doorProc => doorProc
    baseCheckDoorFailure := fun _ s => (false, s) }

/-- Answers of a landed, crewed, undamaged vessel to the startup check. -/
def nominalStartup : StartupQueries :=
  { crewIsDead := false
    GetCrewMembersCount := 2
    IsCrewIncapacitated := false
    IsPilotOnBoard := true
    IsDamagePresent := false
    IsWarningPresent := false
    ParseFailed := false
    IsLanded := true
    IsDocked := false
    m_parkingBrakesEngaged := true
    WELCOME_ABOARD_ALL_SYSTEMS_NOMINAL_WAV := "Welcome Aboard All Systems Nominal.wav"
    WELCOME_MSG := "Welcome aboard, Commander!&All systems nominal."
    ALL_SYSTEMS_NOMINAL_WAV := "All Systems Nominal.wav"
    ALL_SYSTEMS_NOMINAL_MSG := "All systems nominal." }

/-- A warning state in which the coolant warning has been played, its sound
was playing in the previous step, and the same wav is queued again (forced or
not). -/
def coolantWarningRepeated (force : Bool) : WarningState :=
  { m_isCrashed := false
    m_warningWavFilename := "Warning Coolant Temperature.wav"
    m_warningWaveSoundType := SoundType.ST_WarningCallout
    m_forceWarning := force
    m_MWSActive := true
    m_lastWarningWavFilename := "Warning Coolant Temperature.wav"
    m_minimumRepeatSimt := 0
    m_warningSoundPlayingPreviousStep := true
    m_performedStartupCheck := true }

/-- A non-forced request for the coolant warning. -/
def coolantWarningRequest : WarningRequest :=
  { wav := "Warning Coolant Temperature.wav"
    soundType := SoundType.ST_WarningCallout
    force := false }

/-- Sample constants of the coolant model (degrees C, degrees per second). -/
def sampleCoolantConsts : CoolantConsts :=
  { COOLANT_HEATING_RATE := fun i => if i = 0 then 1 / 100 else if i = 1 then 2 / 100 else 0
    MAX_COOLANT_TEMP := 117
    NOMINAL_COOLANT_TEMP := 312 / 10
    WARN_COOLANT_TEMP := 80
    CRITICAL_COOLANT_TEMP := 90
    COOLANT_COOLING_RATE_FRAC := 1 / 1000
    COOLANT_COOLING_RATE_MIN := 1 / 100 }

/-- A vessel whose coolant is at the given temperature, APU running, radiator
stowed, no external cooling, systems not failed. -/
def coolantAt (temp : ℚ) : CoolantState :=
  { m_isCrashed := false
    m_coolantTemp := temp
    CoolantHeatingRate := 0
    apu_status := DoorStatus.DOOR_OPEN
    radiator_status := DoorStatus.DOOR_CLOSED
    m_isExternalCoolantFlowing := false
    m_internalSystemsFailure := false
    m_MWSActive := false
    wlCool := false
    m_prevCoolantTemp := temp }

/-- Sample constants for the centering handlers; the three C library functions
are replaced by stand-ins, which the aborted path never calls. -/
def sampleCenteringEnv : CenteringEnv :=
  { HOVER_BALANCE_SPEED := 2 / 5
    MAX_HOVER_IMBALANCE := 1 / 20
    MAX_HOVER_THRUST := fun _ => 250000
    SCRAM_GIMBAL_SPEED := 1 / 50
    SCRAM_DEFAULT_DIR := 0
    MAIN_PGIMBAL_SPEED := 1 / 100
    atan2 := fun y _ => y
    sin := fun phi => phi
    cos := fun _ => 1 }

/-- A vessel with all three centering modes active and off-centre settings. -/
def offCentre : CenteringState :=
  { m_hoverCenteringMode := true
    m_scramCenteringMode := true
    m_mainPitchCenteringMode := true
    m_hoverBalance := 1 / 50
    HoverEngineThrust := 0
    th_hover_max0_0 := 255000
    th_hover_max0_1 := 245000
    th_scram_dir_0 := ⟨0, 1 / 10, 1⟩
    th_scram_dir_1 := ⟨0, 1 / 10, 1⟩
    th_main_dir_0 := ⟨0, 1 / 20, 1⟩
    th_main_dir_1 := ⟨0, 1 / 20, 1⟩ }

/-- A step in which the APU is offline. -/
def apuOfflineStep : CenteringInput :=
  { hydraulicPressure := false, simStep := 1 / 60, fracIntegrityFore := 1, fracIntegrityAft := 1 }

/-- Hull state with the hatch open and the other doors closed. -/
def hatchOpenHull : HullState :=
  { rcover_status := DoorStatus.DOOR_CLOSED
    crewElevator_status := DoorStatus.DOOR_CLOSED
    hatch_status := DoorStatus.DOOR_OPEN
    nose_status := DoorStatus.DOOR_CLOSED
    m_noseconeTemp := 900
    m_cockpitTemp := 1500
    m_topHullTemp := 1000
    limit_noseCone := 2840
    limit_cockpit := 1490
    limit_topHull := 1210 }

/-- Reports of the temperature checks with a breach at the cockpit only. -/
def cockpitBreachOnly : HullAnswers :=
  { IS_DOOR_OPEN := fun st => decide (st ≠ DoorStatus.DOOR_CLOSED)
    baseNewDamage := false
    noseconeElevator := 0
    noseconeRetro := 0
    cockpit := 1
    topHull := 0 }

/-- An environment in which the absent damage methods change nothing. -/
def inertDamageEnv : XR5DamageEnv :=
  { UpdateDoorDamage := fun status proc _ => (status, proc)
    IsDamagePresent := fun t =>
      decide (t.bay_status = DoorStatus.DOOR_FAILED ∨
        t.crewElevator_status = DoorStatus.DOOR_FAILED)
    ApplyDamage := fun t => t
    baseSetDamageStatus := fun _ t => t
    baseGetDamageStatus := fun _ =>
      { fracIntegrity := 1, label := "", shortLabel := "", onlineOffline := true } }

/-- An undamaged XR5 with both doors closed. -/
def undamagedXR5 : XR5Damage :=
  { bay_status := DoorStatus.DOOR_CLOSED
    bay_proc := 0
    crewElevator_status := DoorStatus.DOOR_CLOSED
    crewElevator_proc := 0
    wl5Elev := false
    wl5Bay := false
    m_MWSActive := false }

/-- Three lines of text. -/
def threeLines : List TextLine :=
  [ { text := "one".toList, color := TEXTCOLOR.Normal },
    { text := "two".toList, color := TEXTCOLOR.Highlighted },
    { text := "three".toList, color := TEXTCOLOR.Normal } ]

/-- A step of the acceleration PostStep at the given time in which the vessel
of unit mass feels the given force along the vertical axis, with `G = 10`. -/
def accStep (simt : ℚ) (force : ℚ) (ground : Bool) : AccInput :=
  { simt := simt, F := ⟨0, force, 0⟩, W := ⟨0, 0, 0⟩, GetMass := 1, IsDocked := false,
    GroundContact := ground }

/-- The stand-ins used for the C library functions of the slope computation. -/
def sampleSlopeEnv : SlopeEnv :=
  { sqrt := fun x => x, atan := fun x => x }

/-- A step of the slope PostStep of an airborne ship. -/
def airborneStep (simt altitude groundspeed : ℚ) : SlopeInput :=
  { simt := simt, altitude := altitude, GroundContact := false, GetGroundspeed := groundspeed }


/-- The slope PostStep after its first step, taken airborne at time 10. -/
def slopeAfterFirstStep (altitude groundspeed : ℚ) : SlopeState :=
  SetSlopePostStep.clbkPrePostStep sampleSlopeEnv (airborneStep 10 altitude groundspeed)
    (SetSlopePostStep.init 0)

/-- A door that closes and starts opening with hydraulic pressure, then loses
pressure while it is still opening. -/
def pressureLostWhileOpening : List DoorStep :=
  [ { ds := DoorStatus.DOOR_CLOSED, apuOnline := true, isPlaying := false },
    { ds := DoorStatus.DOOR_OPENING, apuOnline := true, isPlaying := false },
    { ds := DoorStatus.DOOR_OPENING, apuOnline := false, isPlaying := true },
    { ds := DoorStatus.DOOR_OPENING, apuOnline := false, isPlaying := false } ]

/-- The radiator's `DoorSound` once it has been seen opening with pressure. -/
def radiatorSeenOpening : DoorSound :=
  DoorSoundsPostStep.runState (INIT_DOORSOUND Sound.dRadiator "Radiator")
    [ { ds := DoorStatus.DOOR_CLOSED, apuOnline := true, isPlaying := false },
      { ds := DoorStatus.DOOR_OPENING, apuOnline := true, isPlaying := false } ]

/-- The step in which the radiator is found open while there is no hydraulic
pressure. -/
def openWithoutPressure : DoorStep :=
  { ds := DoorStatus.DOOR_OPEN, apuOnline := false, isPlaying := false }

/-- Two further steps with the radiator open, pressure being back. -/
def openWithPressure : List DoorStep :=
  [ { ds := DoorStatus.DOOR_OPEN, apuOnline := true, isPlaying := false },
    { ds := DoorStatus.DOOR_OPEN, apuOnline := true, isPlaying := false } ]
/-! ### Facts about `PlayDoorSound` -/

theorem PlayDoorSound_prev (ds : DoorStatus) (apu p : Bool) (d : DoorSound) :
    (DoorSoundsPostStep.PlayDoorSound ds apu p d).1.prevDoorStatus = ds := rfl

theorem PlayDoorSound_soundID (ds : DoorStatus) (apu p : Bool) (d : DoorSound) :
    (DoorSoundsPostStep.PlayDoorSound ds apu p d).1.soundID = d.soundID := by
  unfold DoorSoundsPostStep.PlayDoorSound
  simp only
  split_ifs <;> rfl


theorem label_action (l a : String) : l ++ " " ++ a ++ "." = l ++ (" " ++ a ++ ".") := by
  simp [String.append_assoc]

theorem label_ne_of_suffix_ne (l a b : String) (h : a.data ≠ b.data) : l ++ a ≠ l ++ b := by
  intro e
  have h2 := congrArg String.data e
  simp only [String.data_append, List.append_cancel_left_eq] at h2
  exact h h2

/-- One step with hydraulic pressure: the thump and the completion message are
each emitted once when the recorded previous status differs from the current
one and the current one is open or closed, and otherwise not at all (both
statuses being real statuses, not the `NOT_SET` sentinel). -/
theorem PlayDoorSound_completion (ds : DoorStatus) (p : Bool) (d : DoorSound)
    (h : d.prevDoorStatus ≠ DoorStatus.NOT_SET) (hds : ds ≠ DoorStatus.NOT_SET) :
    thumpCount d (DoorSoundsPostStep.PlayDoorSound ds true p d).2 =
      (if ds ≠ d.prevDoorStatus ∧ (ds = DoorStatus.DOOR_OPEN ∨ ds = DoorStatus.DOOR_CLOSED)
       then 1 else 0) ∧
    doneMsgCount d (DoorSoundsPostStep.PlayDoorSound ds true p d).2 =
      (if ds ≠ d.prevDoorStatus ∧ (ds = DoorStatus.DOOR_OPEN ∨ ds = DoorStatus.DOOR_CLOSED)
       then 1 else 0) := by
  obtain ⟨prev, id, armed, label⟩ := d
  have e1 : label ++ " opening." ≠ label ++ " open." := label_ne_of_suffix_ne _ _ _ (by decide)
  have e2 : label ++ " opening." ≠ label ++ " closed." := label_ne_of_suffix_ne _ _ _ (by decide)
  have e3 : label ++ " closing." ≠ label ++ " open." := label_ne_of_suffix_ne _ _ _ (by decide)
  have e4 : label ++ " closing." ≠ label ++ " closed." := label_ne_of_suffix_ne _ _ _ (by decide)
  have e5 : label ++ " open." ≠ label ++ " closed." := label_ne_of_suffix_ne _ _ _ (by decide)
  have e6 : label ++ " closed." ≠ label ++ " open." := label_ne_of_suffix_ne _ _ _ (by decide)
  have a1 : label ++ " " ++ "opening" ++ "." = label ++ " opening." := by
    rw [label_action]; rfl
  have a2 : label ++ " " ++ "closing" ++ "." = label ++ " closing." := by
    rw [label_action]; rfl
  have a3 : label ++ " " ++ "open" ++ "." = label ++ " open." := by
    rw [label_action]; rfl
  have a4 : label ++ " " ++ "closed" ++ "." = label ++ " closed." := by
    rw [label_action]; rfl
  simp only at h
  cases prev <;> cases ds <;> cases p <;>
    simp [DoorSoundsPostStep.PlayDoorSound, DoorSoundsPostStep.ShowDoorInfoMsg, thumpCount,
      doneMsgCount, List.count_cons, a1, a2, a3, a4, e1, e2, e3, e4, e5, e6] at h hds ⊢


theorem PlayDoorSound_pLabel (ds : DoorStatus) (apu p : Bool) (d : DoorSound) :
    (DoorSoundsPostStep.PlayDoorSound ds apu p d).1.pLabel = d.pLabel := by
  unfold DoorSoundsPostStep.PlayDoorSound
  simp only
  split_ifs <;> rfl

theorem thumpCount_congr (d e : DoorSound) (h : d.soundID = e.soundID) (log : List Call) :
    thumpCount d log = thumpCount e log := by
  simp [thumpCount, h]

theorem doneMsgCount_congr (d e : DoorSound) (h : d.pLabel = e.pLabel) (log : List Call) :
    doneMsgCount d log = doneMsgCount e log := by
  simp [doneMsgCount, h]

/-- C1. `DoorSoundsPostStep::PlayDoorSound` is edge-triggered.  For every door,
every earlier state and every sequence of steps, take two consecutive steps
`x`, `y` of the sequence in which the door has a real status (not the `NOT_SET`
sentinel), hydraulic pressure being available in step `y`.  Then step `y` loads
the completion thump exactly once and shows the `<label> open.` /
`<label> closed.` message exactly once if the status differs from the status of
step `x` and is `DOOR_OPEN` or `DOOR_CLOSED`, and emits neither otherwise, in
particular in no later step while the status stays unchanged. -/
theorem C1_PlayDoorSound_edge_triggered (d : DoorSound) (steps : List DoorStep) (n : Nat)
    (x y : DoorStep) (hx : steps[n]? = some x) (hy : steps[n + 1]? = some y)
    (hxs : x.ds ≠ DoorStatus.NOT_SET) (hys : y.ds ≠ DoorStatus.NOT_SET)
    (hapu : y.apuOnline = true) :
    ∃ log, (DoorSoundsPostStep.run d steps)[n + 1]? = some log ∧
      thumpCount d log =
        (if y.ds ≠ x.ds ∧ (y.ds = DoorStatus.DOOR_OPEN ∨ y.ds = DoorStatus.DOOR_CLOSED)
         then 1 else 0) ∧
      doneMsgCount d log =
        (if y.ds ≠ x.ds ∧ (y.ds = DoorStatus.DOOR_OPEN ∨ y.ds = DoorStatus.DOOR_CLOSED)
         then 1 else 0) := by
  induction steps generalizing d n with
  | nil => simp at hx
  | cons i rest ih =>
    cases n with
    | zero =>
      cases rest with
      | nil => simp at hy
      | cons j rest2 =>
        simp only [List.getElem?_cons_zero, Option.some.injEq, zero_add,
          List.getElem?_cons_succ] at hx hy
        subst hx hy
        refine ⟨(DoorSoundsPostStep.PlayDoorSound j.ds j.apuOnline j.isPlaying
          (DoorSoundsPostStep.PlayDoorSound i.ds i.apuOnline i.isPlaying d).1).2, ?_, ?_⟩
        · simp [DoorSoundsPostStep.run]
        · have key := PlayDoorSound_completion j.ds j.isPlaying
            (DoorSoundsPostStep.PlayDoorSound i.ds i.apuOnline i.isPlaying d).1
            (by rw [PlayDoorSound_prev]; exact hxs) hys
          rw [PlayDoorSound_prev] at key
          rw [hapu]
          rw [thumpCount_congr d _ (PlayDoorSound_soundID i.ds i.apuOnline i.isPlaying d).symm,
            doneMsgCount_congr d _ (PlayDoorSound_pLabel i.ds i.apuOnline i.isPlaying d).symm]
          exact key
    | succ m =>
      simp only [List.getElem?_cons_succ] at hx hy
      obtain ⟨log, h1, h2, h3⟩ := ih
        (DoorSoundsPostStep.PlayDoorSound i.ds i.apuOnline i.isPlaying d).1 m hx hy
      refine ⟨log, ?_, ?_, ?_⟩
      · simpa [DoorSoundsPostStep.run] using h1
      · rw [thumpCount_congr d _ (PlayDoorSound_soundID i.ds i.apuOnline i.isPlaying d).symm]
        exact h2
      · rw [doneMsgCount_congr d _ (PlayDoorSound_pLabel i.ds i.apuOnline i.isPlaying d).symm]
        exact h3

/-! ### XR5 door failure -/

/-- C2. `DOOR_FAILED` is a sink in `XR5Vanguard::CheckDoorFailure`.  For the
bay doors and the crew elevator, whatever the temperatures, limits and the
results of the failure and warning tests: the status after the call is the
status on entry or `DOOR_FAILED`; on entry with `DOOR_FAILED` the XR5 code does
nothing but delegate to the base class, so the status stays `DOOR_FAILED`
(the base-class call leaving this door untouched); on entry with `DOOR_CLOSED`
the status stays `DOOR_CLOSED`. -/
theorem C2_CheckDoorFailure_failed_sink (env : XR5Env) (door : DoorRef) (s : XR5Vanguard)
    (hdoor : door = DoorRef.bay ∨ door = DoorRef.crewElevator)
    (hbase : ∀ t : XR5Vanguard, (env.baseCheckDoorFailure door t).2.deref door = t.deref door) :
    ((XR5Vanguard.CheckDoorFailure env door s).2.deref door = s.deref door ∨
      (XR5Vanguard.CheckDoorFailure env door s).2.deref door = DoorStatus.DOOR_FAILED) ∧
    (s.deref door = DoorStatus.DOOR_FAILED →
      XR5Vanguard.CheckDoorFailure env door s = env.baseCheckDoorFailure door s ∧
      (XR5Vanguard.CheckDoorFailure env door s).2.deref door = DoorStatus.DOOR_FAILED) ∧
    (s.deref door = DoorStatus.DOOR_CLOSED →
      (XR5Vanguard.CheckDoorFailure env door s).2.deref door = DoorStatus.DOOR_CLOSED) := by
  have hb := hbase s
  rcases hdoor with rfl | rfl
  · refine ⟨?_, ?_, ?_⟩
    · unfold XR5Vanguard.CheckDoorFailure
      simp only [IS_DOOR_FAILED]
      split_ifs <;> simp_all [XR5Vanguard.deref, XR5Vanguard.assign]
    · intro h
      have e : XR5Vanguard.CheckDoorFailure env DoorRef.bay s =
          env.baseCheckDoorFailure DoorRef.bay s := by
        simp [XR5Vanguard.CheckDoorFailure, IS_DOOR_FAILED, h]
      exact ⟨e, by rw [e, hb]; exact h⟩
    · intro h
      simp only [XR5Vanguard.deref] at h
      simp [XR5Vanguard.CheckDoorFailure, IS_DOOR_FAILED, XR5Vanguard.deref, h]
  · refine ⟨?_, ?_, ?_⟩
    · unfold XR5Vanguard.CheckDoorFailure
      simp only [IS_DOOR_FAILED]
      split_ifs <;> simp_all [XR5Vanguard.deref, XR5Vanguard.assign]
    · intro h
      have e : XR5Vanguard.CheckDoorFailure env DoorRef.crewElevator s =
          env.baseCheckDoorFailure DoorRef.crewElevator s := by
        simp [XR5Vanguard.CheckDoorFailure, IS_DOOR_FAILED, h]
      exact ⟨e, by rw [e, hb]; exact h⟩
    · intro h
      simp only [XR5Vanguard.deref] at h
      simp [XR5Vanguard.CheckDoorFailure, IS_DOOR_FAILED, XR5Vanguard.deref, h]

/-- C3. `XR5Vanguard::CheckDoorFailure` returns the new-failure flag.  For the
bay doors and the crew elevator with a status on entry other than
`DOOR_FAILED`: it returns true exactly when the status after the call is
`DOOR_FAILED`; for a `DOOR_CLOSED` door it returns false, leaves the status
`DOOR_CLOSED` and clears the warning light of that door; and when the failure
test is false and the warning test is true for an open door it returns false
and leaves the status unchanged (the warning light of the door being set). -/
theorem C3_CheckDoorFailure_new_failure_flag (env : XR5Env) (door : DoorRef) (s : XR5Vanguard)
    (hdoor : door = DoorRef.bay ∨ door = DoorRef.crewElevator)
    (hs : s.deref door ≠ DoorStatus.DOOR_FAILED) :
    ((XR5Vanguard.CheckDoorFailure env door s).1 = true ↔
      (XR5Vanguard.CheckDoorFailure env door s).2.deref door = DoorStatus.DOOR_FAILED) ∧
    (s.deref door = DoorStatus.DOOR_CLOSED →
      (XR5Vanguard.CheckDoorFailure env door s).1 = false ∧
      (XR5Vanguard.CheckDoorFailure env door s).2.deref door = DoorStatus.DOOR_CLOSED ∧
      (XR5Vanguard.CheckDoorFailure env door s).2.warningLight door = false) ∧
    (s.deref door ≠ DoorStatus.DOOR_CLOSED → env.failureExceeded s door = false →
      env.warningExceeded s door = true →
      (XR5Vanguard.CheckDoorFailure env door s).1 = false ∧
      (XR5Vanguard.CheckDoorFailure env door s).2.deref door = s.deref door ∧
      (XR5Vanguard.CheckDoorFailure env door s).2.warningLight door = true) := by
  rcases hdoor with rfl | rfl
  · simp only [XR5Vanguard.deref] at hs
    refine ⟨?_, ?_, ?_⟩
    · unfold XR5Vanguard.CheckDoorFailure
      simp only [IS_DOOR_FAILED]
      split_ifs <;> simp_all [XR5Vanguard.deref, XR5Vanguard.assign]
    · intro h
      simp only [XR5Vanguard.deref] at h
      simp [XR5Vanguard.CheckDoorFailure, IS_DOOR_FAILED, XR5Vanguard.deref,
        XR5Vanguard.warningLight, h]
    · intro h hf hw
      simp only [XR5Vanguard.deref] at h
      simp only [XR5Env.failureExceeded] at hf
      simp only [XR5Env.warningExceeded] at hw
      simp [XR5Vanguard.CheckDoorFailure, IS_DOOR_FAILED, XR5Vanguard.deref,
        XR5Vanguard.warningLight, h, hs, hf, hw]
  · simp only [XR5Vanguard.deref] at hs
    refine ⟨?_, ?_, ?_⟩
    · unfold XR5Vanguard.CheckDoorFailure
      simp only [IS_DOOR_FAILED]
      split_ifs <;> simp_all [XR5Vanguard.deref, XR5Vanguard.assign]
    · intro h
      simp only [XR5Vanguard.deref] at h
      simp [XR5Vanguard.CheckDoorFailure, IS_DOOR_FAILED, XR5Vanguard.deref,
        XR5Vanguard.warningLight, h]
    · intro h hf hw
      simp only [XR5Vanguard.deref] at h
      simp only [XR5Env.failureExceeded] at hf
      simp only [XR5Env.warningExceeded] at hw
      simp [XR5Vanguard.CheckDoorFailure, IS_DOOR_FAILED, XR5Vanguard.deref,
        XR5Vanguard.warningLight, h, hs, hf, hw]

/-! ### Warning queue -/

theorem warningSoundCalls_startupCheck (simt : ℚ) (q : StartupQueries) (s : WarningState) :
    warningSoundCalls (ShowWarningPostStep.startupCheck simt q s).2 = [] := by
  unfold ShowWarningPostStep.startupCheck
  simp only
  split_ifs <;> rfl

theorem warningSoundCalls_warningBlock (simt : ℚ) (playing : Bool) (s : WarningState) :
    warningSoundCalls (ShowWarningPostStep.warningBlock simt playing s).2 =
      (ShowWarningPostStep.warningBlock simt playing s).2 := by
  unfold ShowWarningPostStep.warningBlock
  simp only
  split_ifs <;> rfl

theorem warningSoundCalls_clbkPrePostStep (simt : ℚ) (playing : Bool) (q : StartupQueries)
    (s : WarningState) :
    warningSoundCalls (ShowWarningPostStep.clbkPrePostStep simt playing q s).2 =
      if s.m_isCrashed then [] else (ShowWarningPostStep.warningBlock simt playing s).2 := by
  unfold ShowWarningPostStep.clbkPrePostStep
  split_ifs
  · rfl
  · have h1 := warningSoundCalls_startupCheck simt q
      (ShowWarningPostStep.warningBlock simt playing s).1
    have h2 := warningSoundCalls_warningBlock simt playing s
    simp only [warningSoundCalls, List.filter_append] at h1 h2 ⊢
    rw [h1, h2, List.append_nil]

/-- C4. A forced warning is never deferred.  In every step of
`ShowWarningPostStep` in which the vessel is not crashed, a warning wav is
queued and `m_forceWarning` is true, the queued wav is loaded and played in the
`Warning` slot in that step (these are the only sound calls of the step on that
slot), whether or not a warning sound is playing and whatever
`m_minimumRepeatSimt` and the last played wav are; after the warning part of
the step the queue is empty, the force flag is false and the wav is remembered
as the last one played. -/
theorem C4_forced_warning_played (simt : ℚ) (playing : Bool) (q : StartupQueries)
    (s : WarningState) (hcrash : s.m_isCrashed = false)
    (hq : s.m_warningWavFilename ≠ "") (hforce : s.m_forceWarning = true) :
    warningSoundCalls (ShowWarningPostStep.clbkPrePostStep simt playing q s).2 =
      [Call.LoadXR1Sound Sound.Warning s.m_warningWavFilename PlaybackType.Radio,
       Call.PlaySound Sound.Warning SoundType.ST_WarningCallout
         (PlayArg.soundType s.m_warningWaveSoundType)] ∧
    (ShowWarningPostStep.warningBlock simt playing s).1.m_warningWavFilename = "" ∧
    (ShowWarningPostStep.warningBlock simt playing s).1.m_forceWarning = false ∧
    (ShowWarningPostStep.warningBlock simt playing s).1.m_lastWarningWavFilename =
      s.m_warningWavFilename := by
  rw [warningSoundCalls_clbkPrePostStep, hcrash]
  simp only [ShowWarningPostStep.warningBlock, hq, hforce, ne_eq, not_false_eq_true, true_or,
    if_true, Bool.false_eq_true, if_false]
  split_ifs <;> simp

/-- C5. A playing warning is not interrupted by a non-forced one.  In every
step of `ShowWarningPostStep` in which a warning sound is playing and the force
flag is not set, no sound is loaded or played in the `Warning` slot; and if the
queued wav differs from the last played one, it is still queued, with its sound
type, after the warning part of the step. -/
theorem C5_playing_warning_not_interrupted (simt : ℚ) (q : StartupQueries) (s : WarningState)
    (hforce : s.m_forceWarning = false) :
    warningSoundCalls (ShowWarningPostStep.clbkPrePostStep simt true q s).2 = [] ∧
    (s.m_warningWavFilename ≠ s.m_lastWarningWavFilename →
      (ShowWarningPostStep.warningBlock simt true s).1.m_warningWavFilename =
        s.m_warningWavFilename ∧
      (ShowWarningPostStep.warningBlock simt true s).1.m_warningWaveSoundType =
        s.m_warningWaveSoundType) := by
  rw [warningSoundCalls_clbkPrePostStep]
  unfold ShowWarningPostStep.warningBlock
  simp only
  split_ifs <;> simp_all

/-- C7. A different message is never deferred by the repeat cooldown.  In
every step of `ShowWarningPostStep` in which the vessel is not crashed, no
warning sound is playing and a wav is queued whose filename differs from the
last played one, the queued wav is loaded and played in that step, whatever
`m_minimumRepeatSimt` is, and it becomes the remembered last played wav. -/
theorem C7_different_warning_not_deferred (simt : ℚ) (q : StartupQueries) (s : WarningState)
    (hcrash : s.m_isCrashed = false) (hq : s.m_warningWavFilename ≠ "")
    (hdiff : s.m_warningWavFilename ≠ s.m_lastWarningWavFilename) :
    warningSoundCalls (ShowWarningPostStep.clbkPrePostStep simt false q s).2 =
      [Call.LoadXR1Sound Sound.Warning s.m_warningWavFilename PlaybackType.Radio,
       Call.PlaySound Sound.Warning SoundType.ST_WarningCallout
         (PlayArg.soundType s.m_warningWaveSoundType)] ∧
    (ShowWarningPostStep.warningBlock simt false s).1.m_lastWarningWavFilename =
      s.m_warningWavFilename ∧
    (ShowWarningPostStep.warningBlock simt false s).1.m_warningWavFilename = "" := by
  rw [warningSoundCalls_clbkPrePostStep, hcrash]
  unfold ShowWarningPostStep.warningBlock
  simp only
  split_ifs <;> simp_all

theorem startupCheck_fields (simt : ℚ) (q : StartupQueries) (s : WarningState) :
    (ShowWarningPostStep.startupCheck simt q s).1.m_isCrashed = s.m_isCrashed ∧
    (ShowWarningPostStep.startupCheck simt q s).1.m_warningWavFilename = s.m_warningWavFilename ∧
    (ShowWarningPostStep.startupCheck simt q s).1.m_forceWarning = s.m_forceWarning ∧
    (ShowWarningPostStep.startupCheck simt q s).1.m_lastWarningWavFilename =
      s.m_lastWarningWavFilename ∧
    (ShowWarningPostStep.startupCheck simt q s).1.m_minimumRepeatSimt = s.m_minimumRepeatSimt := by
  unfold ShowWarningPostStep.startupCheck
  simp only
  split_ifs <;> simp

/-- A non-forced repeat of the last played wav is not played while the sim
time has not passed `m_minimumRepeatSimt`, and the cooldown stays armed. -/
theorem warningBlock_repeat_quiet (W : String) (t simt : ℚ) (now : Bool) (s : WarningState)
    (hf : s.m_forceWarning = false) (hw : s.m_warningWavFilename = "" ∨ s.m_warningWavFilename = W)
    (hl : s.m_lastWarningWavFilename = W) (hm : t + 3 ≤ s.m_minimumRepeatSimt)
    (h1 : t ≤ simt) (h2 : simt ≤ t + 3) :
    (ShowWarningPostStep.warningBlock simt now s).2 = [] ∧
    (ShowWarningPostStep.warningBlock simt now s).1.m_isCrashed = s.m_isCrashed ∧
    (ShowWarningPostStep.warningBlock simt now s).1.m_forceWarning = false ∧
    (ShowWarningPostStep.warningBlock simt now s).1.m_warningWavFilename = "" ∧
    (ShowWarningPostStep.warningBlock simt now s).1.m_lastWarningWavFilename = W ∧
    t + 3 ≤ (ShowWarningPostStep.warningBlock simt now s).1.m_minimumRepeatSimt := by
  obtain ⟨crashed, wav, ty, force, mws, last, min, prev, startup⟩ := s
  simp only at hf hw hl hm
  subst hf
  subst hl
  unfold ShowWarningPostStep.warningBlock
  simp only
  rcases hw with rfl | rfl
  · simp [hm]
  · by_cases hW : wav = ""
    · subst hW
      simp [hm]
    · have hlt : ¬ (min < simt) := by linarith
      have hlt2 : ¬ (simt + 3 < simt) := by linarith
      simp only [ne_eq, hW, not_false_eq_true, if_true, Bool.false_eq_true, false_or,
        decide_True, decide_eq_true_eq, gt_iff_lt]
      split_ifs <;> simp_all <;> linarith

/-- When the stop of the warning sound is observed with a non-forced repeat
queued, the repeat is not played, it is dropped from the queue and the
cooldown is armed at `simt + 3`. -/
theorem warningBlock_stop_arms (t : ℚ) (s : WarningState)
    (hp : s.m_warningSoundPlayingPreviousStep = true) (hf : s.m_forceWarning = false)
    (hne : s.m_warningWavFilename ≠ "")
    (hl : s.m_lastWarningWavFilename = s.m_warningWavFilename) :
    (ShowWarningPostStep.warningBlock t false s).2 = [] ∧
    (ShowWarningPostStep.warningBlock t false s).1.m_isCrashed = s.m_isCrashed ∧
    (ShowWarningPostStep.warningBlock t false s).1.m_forceWarning = false ∧
    (ShowWarningPostStep.warningBlock t false s).1.m_warningWavFilename = "" ∧
    (ShowWarningPostStep.warningBlock t false s).1.m_lastWarningWavFilename =
      s.m_warningWavFilename ∧
    (ShowWarningPostStep.warningBlock t false s).1.m_minimumRepeatSimt = t + 3 := by
  obtain ⟨crashed, wav, ty, force, mws, last, min, prev, startup⟩ := s
  simp only at hp hf hne hl
  subst hp hf hl
  have hlt2 : ¬ (t + 3 < t) := by linarith
  simp [ShowWarningPostStep.warningBlock, hne, hlt2]

theorem run_quiet (W : String) (t : ℚ) (later : List WarningStep) (s : WarningState)
    (hinv : s.m_isCrashed = true ∨
      (s.m_forceWarning = false ∧ (s.m_warningWavFilename = "" ∨ s.m_warningWavFilename = W) ∧
        s.m_lastWarningWavFilename = W ∧ t + 3 ≤ s.m_minimumRepeatSimt))
    (hlater : ∀ i ∈ later, t ≤ i.simt ∧ i.simt ≤ t + 3 ∧
      (i.request = none ∨
        ∃ r, i.request = some r ∧ r.force = false ∧ (r.wav = "" ∨ r.wav = W))) :
    ∀ log ∈ ShowWarningPostStep.run s later, log = [] := by
  induction later generalizing s with
  | nil => intro log hlog; simp [ShowWarningPostStep.run] at hlog
  | cons i rest ih =>
    obtain ⟨h1, h2, hreq⟩ := hlater i (List.mem_cons_self _ _)
    have hrest : ∀ j ∈ rest, t ≤ j.simt ∧ j.simt ≤ t + 3 ∧
        (j.request = none ∨
          ∃ r, j.request = some r ∧ r.force = false ∧ (r.wav = "" ∨ r.wav = W)) :=
      fun j hj => hlater j (List.mem_cons_of_mem _ hj)
    -- the state after filing still satisfies the invariant
    have hfiled : (s.file i.request).m_isCrashed = true ∨
        ((s.file i.request).m_forceWarning = false ∧
          ((s.file i.request).m_warningWavFilename = "" ∨
            (s.file i.request).m_warningWavFilename = W) ∧
          (s.file i.request).m_lastWarningWavFilename = W ∧
          t + 3 ≤ (s.file i.request).m_minimumRepeatSimt) := by
      rcases hreq with hnone | ⟨r, hr, hrf, hrw⟩
      · rw [hnone]; exact hinv
      · rw [hr]
        rcases hinv with hc | ⟨_, _, hl, hm⟩
        · exact Or.inl hc
        · exact Or.inr ⟨hrf, hrw, hl, hm⟩
    intro log hlog
    simp only [ShowWarningPostStep.run, List.mem_cons] at hlog
    rcases hfiled with hc | ⟨hf, hw, hl, hm⟩
    · have hstep : ShowWarningPostStep.clbkPrePostStep i.simt i.warningWavPlayingNow i.startup
          (s.file i.request) = (s.file i.request, []) := by
        simp [ShowWarningPostStep.clbkPrePostStep, hc]
      rw [hstep] at hlog
      rcases hlog with rfl | hlog
      · rfl
      · exact ih _ (Or.inl hc) hrest log hlog
    · obtain ⟨b1, b2, b3, b4, b5, b6⟩ :=
        warningBlock_repeat_quiet W t i.simt i.warningWavPlayingNow (s.file i.request)
          hf hw hl hm h1 h2
      obtain ⟨c1, c2, c3, c4, c5⟩ := startupCheck_fields i.simt i.startup
        (ShowWarningPostStep.warningBlock i.simt i.warningWavPlayingNow (s.file i.request)).1
      rcases hlog with rfl | hlog
      · rw [warningSoundCalls_clbkPrePostStep, b1]
        split_ifs <;> rfl
      · refine ih _ ?_ hrest log hlog
        by_cases hcr : (s.file i.request).m_isCrashed = true
        · left
          simp [ShowWarningPostStep.clbkPrePostStep, hcr]
        · right
          simp only [ShowWarningPostStep.clbkPrePostStep, hcr, Bool.false_eq_true, if_false]
          rw [c2, c3, c4, c5]
          exact ⟨b3, Or.inl b4, b5, b6⟩

/-- C6 as stated fails.  The coolant warning is played at sim time 10, its
sound is heard playing at 11 and observed to have stopped at `t = 12`, no
request being queued in that step.  A non-forced request for the same wav
filed for the step at sim time 13, which is before `t + 3 = 15`, is played at
once in that step. -/
theorem C6_repeat_played_before_cooldown :
    ShowWarningPostStep.run ShowWarningPostStep.init
      [ { request := some coolantWarningRequest, simt := 10, warningWavPlayingNow := false,
          startup := nominalStartup },
        { request := none, simt := 11, warningWavPlayingNow := true,
          startup := nominalStartup },
        { request := none, simt := 12, warningWavPlayingNow := false,
          startup := nominalStartup },
        { request := some coolantWarningRequest, simt := 13, warningWavPlayingNow := false,
          startup := nominalStartup } ] =
      [ [Call.LoadXR1Sound Sound.Warning "Warning Coolant Temperature.wav" PlaybackType.Radio,
         Call.PlaySound Sound.Warning SoundType.ST_WarningCallout
           (PlayArg.soundType SoundType.ST_WarningCallout)],
        [],
        [],
        [Call.LoadXR1Sound Sound.Warning "Warning Coolant Temperature.wav" PlaybackType.Radio,
         Call.PlaySound Sound.Warning SoundType.ST_WarningCallout
           (PlayArg.soundType SoundType.ST_WarningCallout)] ] ∧
    (13 : ℚ) < 12 + 3 :=
  ⟨by decide, by norm_num⟩

/-- C6, as the code has it.  Suppose the stop of the warning sound is observed
at sim time `t` (it was playing in the previous step and is not playing now)
while a non-forced request for the wav that was played last is queued.  Then no
sound is loaded or played in the `Warning` slot in that step, nor in any later
step with `t ≤ simt ≤ t + 3` as long as the only requests filed are non-forced
requests for that same wav: the repeat is not played before `t + 3` has
passed. -/
theorem C6_repeat_cooldown_when_queued_at_stop (W : String) (t : ℚ) (q0 : StartupQueries)
    (later : List WarningStep) (s : WarningState)
    (hprev : s.m_warningSoundPlayingPreviousStep = true)
    (hW : s.m_warningWavFilename = W) (hne : W ≠ "")
    (hlast : s.m_lastWarningWavFilename = W) (hforce : s.m_forceWarning = false)
    (hlater : ∀ i ∈ later, t ≤ i.simt ∧ i.simt ≤ t + 3 ∧
      (i.request = none ∨
        ∃ r, i.request = some r ∧ r.force = false ∧ (r.wav = "" ∨ r.wav = W))) :
    ∀ log ∈ ShowWarningPostStep.run s
        ({ request := none, simt := t, warningWavPlayingNow := false, startup := q0 } :: later),
      log = [] := by
  intro log hlog
  simp only [ShowWarningPostStep.run, List.mem_cons, WarningState.file] at hlog
  obtain ⟨b1, b2, b3, b4, b5, b6⟩ := warningBlock_stop_arms t s hprev hforce (hW ▸ hne)
    (hlast.trans hW.symm)
  obtain ⟨c1, c2, c3, c4, c5⟩ := startupCheck_fields t q0
    (ShowWarningPostStep.warningBlock t false s).1
  rcases hlog with rfl | hlog
  · rw [warningSoundCalls_clbkPrePostStep, b1]
    split_ifs <;> rfl
  · refine run_quiet W t later _ ?_ hlater log hlog
    by_cases hcr : s.m_isCrashed = true
    · left
      simp [ShowWarningPostStep.clbkPrePostStep, hcr]
    · right
      simp only [ShowWarningPostStep.clbkPrePostStep, hcr, Bool.false_eq_true, if_false]
      rw [c2, c3, c4, c5]
      exact ⟨b3, Or.inl b4, b5.trans hW, by rw [b6]⟩

/-! ### Coolant model -/

theorem clbkPrePostStep_coolantTemp (k : CoolantConsts) (simdt dt rand : ℚ) (s : CoolantState)
    (hcrash : s.m_isCrashed = false) :
    (UpdateCoolantTempPostStep.clbkPrePostStep k simdt dt rand s).1.m_coolantTemp =
      UpdateCoolantTempPostStep.newCoolantTemp k simdt s := by
  simp [UpdateCoolantTempPostStep.clbkPrePostStep, hcrash]

/-- C8. Coolant temperature stays within its floor and ceiling.  For every
prior coolant temperature, every `simdt ≥ 0` and every radiator, external
cooling and APU state, with `NOMINAL_COOLANT_TEMP ≤ MAX_COOLANT_TEMP` and a
non-negative minimum cooling rate (whatever the heating rates and the
fractional cooling rate are), after one non-crashed step of
`UpdateCoolantTempPostStep` the stored `m_coolantTemp` lies between
`NOMINAL_COOLANT_TEMP` and `MAX_COOLANT_TEMP`. -/
theorem C8_coolantTemp_within_bounds (k : CoolantConsts) (simdt dt rand : ℚ) (s : CoolantState)
    (hcrash : s.m_isCrashed = false) (hsimdt : 0 ≤ simdt)
    (hnm : k.NOMINAL_COOLANT_TEMP ≤ k.MAX_COOLANT_TEMP)
    (hmin : 0 ≤ k.COOLANT_COOLING_RATE_MIN) :
    k.NOMINAL_COOLANT_TEMP ≤
      (UpdateCoolantTempPostStep.clbkPrePostStep k simdt dt rand s).1.m_coolantTemp ∧
    (UpdateCoolantTempPostStep.clbkPrePostStep k simdt dt rand s).1.m_coolantTemp ≤
      k.MAX_COOLANT_TEMP := by
  rw [clbkPrePostStep_coolantTemp k simdt dt rand s hcrash]
  have hcool : ∀ x : ℚ, 0 ≤ max x k.COOLANT_COOLING_RATE_MIN * simdt :=
    fun x => mul_nonneg (le_trans hmin (le_max_right _ _)) hsimdt
  have hfloor : ∀ c : ℚ, c ≤ k.MAX_COOLANT_TEMP →
      k.NOMINAL_COOLANT_TEMP ≤ (if c < k.NOMINAL_COOLANT_TEMP then k.NOMINAL_COOLANT_TEMP else c) ∧
      (if c < k.NOMINAL_COOLANT_TEMP then k.NOMINAL_COOLANT_TEMP else c) ≤ k.MAX_COOLANT_TEMP := by
    intro c hc
    split_ifs <;> constructor <;> linarith
  have hext : ∀ c : ℚ, c ≤ k.MAX_COOLANT_TEMP →
      (if s.m_isExternalCoolantFlowing = true then
        c - max ((k.COOLANT_COOLING_RATE_FRAC * (127 / 100)) * c) k.COOLANT_COOLING_RATE_MIN * simdt
       else c) ≤ k.MAX_COOLANT_TEMP := by
    intro c hc
    split_ifs
    · linarith [hcool ((k.COOLANT_COOLING_RATE_FRAC * (127 / 100)) * c)]
    · exact hc
  have hrad : ∀ c : ℚ, c ≤ k.MAX_COOLANT_TEMP →
      (if s.radiator_status = DoorStatus.DOOR_OPEN then
        c - max (k.COOLANT_COOLING_RATE_FRAC * c) k.COOLANT_COOLING_RATE_MIN * simdt
       else c) ≤ k.MAX_COOLANT_TEMP := by
    intro c hc
    split_ifs
    · linarith [hcool (k.COOLANT_COOLING_RATE_FRAC * c)]
    · exact hc
  have hcap : ∀ c : ℚ, (if c > k.MAX_COOLANT_TEMP then k.MAX_COOLANT_TEMP else c) ≤
      k.MAX_COOLANT_TEMP := by
    intro c
    split_ifs with h
    · exact le_refl _
    · exact not_lt.mp h
  unfold UpdateCoolantTempPostStep.newCoolantTemp
  exact hfloor _ (hext _ (hrad _ (hcap _)))

theorem newCoolantTemp_heating (k : CoolantConsts) (simdt : ℚ) (s : CoolantState)
    (hrad : s.radiator_status ≠ DoorStatus.DOOR_OPEN)
    (hext : s.m_isExternalCoolantFlowing = false)
    (hT : k.NOMINAL_COOLANT_TEMP ≤ s.m_coolantTemp)
    (hheat : 0 ≤ k.COOLANT_HEATING_RATE s.CoolantHeatingRate * simdt)
    (hnm : k.NOMINAL_COOLANT_TEMP ≤ k.MAX_COOLANT_TEMP) :
    UpdateCoolantTempPostStep.newCoolantTemp k simdt s =
      min (s.m_coolantTemp +
            k.COOLANT_HEATING_RATE s.CoolantHeatingRate * simdt * heatingModifier s.apu_status)
          k.MAX_COOLANT_TEMP := by
  have hmod : (if s.apu_status = DoorStatus.DOOR_OPEN ∨ s.apu_status = DoorStatus.DOOR_OPENING
      then (1 : ℚ) + 5 / 100 else 1) = heatingModifier s.apu_status := by
    unfold heatingModifier
    split_ifs <;> norm_num
  have hpos : (0 : ℚ) ≤ heatingModifier s.apu_status := by
    unfold heatingModifier
    split_ifs <;> norm_num
  have hadd : 0 ≤ k.COOLANT_HEATING_RATE s.CoolantHeatingRate * simdt *
      heatingModifier s.apu_status := mul_nonneg hheat hpos
  unfold UpdateCoolantTempPostStep.newCoolantTemp
  simp only [hrad, hext, if_false, Bool.false_eq_true, hmod]
  rcases le_or_lt (s.m_coolantTemp +
      k.COOLANT_HEATING_RATE s.CoolantHeatingRate * simdt * heatingModifier s.apu_status)
      k.MAX_COOLANT_TEMP with h | h
  · rw [min_eq_left h, if_neg (not_lt.mpr h), if_neg (by linarith)]
  · rw [min_eq_right h.le, if_pos h, if_neg (by linarith)]

/-- C9. Coolant heating step.  In a non-crashed step with the radiator not
`DOOR_OPEN` and no external coolant flowing, starting from a temperature `T`
at or above `NOMINAL_COOLANT_TEMP` (the configured heating rate `R` and `simdt`
being non-negative and `NOMINAL_COOLANT_TEMP ≤ MAX_COOLANT_TEMP`), the new
coolant temperature is `min (T + R * simdt * heatingModifier) MAX_COOLANT_TEMP`,
the modifier being 1.05 when the APU is open or opening and 1.0 otherwise.  So
with `simdt = 1` and `R > 0` the temperature rises by exactly
`R * heatingModifier`, strictly, as long as that does not exceed the maximum,
and is `MAX_COOLANT_TEMP` once it would reach or exceed it. -/
theorem C9_coolant_heating_step (k : CoolantConsts) (simdt dt rand : ℚ) (s : CoolantState)
    (hcrash : s.m_isCrashed = false)
    (hrad : s.radiator_status ≠ DoorStatus.DOOR_OPEN)
    (hext : s.m_isExternalCoolantFlowing = false)
    (hT : k.NOMINAL_COOLANT_TEMP ≤ s.m_coolantTemp)
    (hR : 0 ≤ k.COOLANT_HEATING_RATE s.CoolantHeatingRate) (hsimdt : 0 ≤ simdt)
    (hnm : k.NOMINAL_COOLANT_TEMP ≤ k.MAX_COOLANT_TEMP) :
    (UpdateCoolantTempPostStep.clbkPrePostStep k simdt dt rand s).1.m_coolantTemp =
      min (s.m_coolantTemp +
            k.COOLANT_HEATING_RATE s.CoolantHeatingRate * simdt * heatingModifier s.apu_status)
          k.MAX_COOLANT_TEMP ∧
    (simdt = 1 → 0 < k.COOLANT_HEATING_RATE s.CoolantHeatingRate →
      (s.m_coolantTemp + k.COOLANT_HEATING_RATE s.CoolantHeatingRate *
          heatingModifier s.apu_status ≤ k.MAX_COOLANT_TEMP →
        (UpdateCoolantTempPostStep.clbkPrePostStep k simdt dt rand s).1.m_coolantTemp =
          s.m_coolantTemp + k.COOLANT_HEATING_RATE s.CoolantHeatingRate *
            heatingModifier s.apu_status ∧
        s.m_coolantTemp <
          (UpdateCoolantTempPostStep.clbkPrePostStep k simdt dt rand s).1.m_coolantTemp) ∧
      (k.MAX_COOLANT_TEMP ≤ s.m_coolantTemp + k.COOLANT_HEATING_RATE s.CoolantHeatingRate *
          heatingModifier s.apu_status →
        (UpdateCoolantTempPostStep.clbkPrePostStep k simdt dt rand s).1.m_coolantTemp =
          k.MAX_COOLANT_TEMP)) := by
  have hmain := newCoolantTemp_heating k simdt s hrad hext hT (mul_nonneg hR hsimdt) hnm
  rw [clbkPrePostStep_coolantTemp k simdt dt rand s hcrash, hmain]
  refine ⟨rfl, ?_⟩
  intro h1 hpos
  subst h1
  have hmodpos : (0 : ℚ) < heatingModifier s.apu_status := by
    unfold heatingModifier
    split_ifs <;> norm_num
  have hinc : 0 < k.COOLANT_HEATING_RATE s.CoolantHeatingRate * heatingModifier s.apu_status :=
    mul_pos hpos hmodpos
  simp only [mul_one]
  constructor
  · intro hle
    rw [min_eq_left hle]
    exact ⟨rfl, by linarith⟩
  · intro hge
    rw [min_eq_right hge]

/-- C10. Probabilistic coolant failure.  In a non-crashed step in which the
updated coolant temperature `T` is at or above `CRITICAL_COOLANT_TEMP` and
internal systems have not failed yet, `m_internalSystemsFailure` is true after
the step exactly when the uniform draw `rand` satisfies
`rand ≤ (dt / 20) * (T / CRITICAL_COOLANT_TEMP) ^ 2`, `dt` being the length of
the step; and when it is true the forced systems-failure warning has been
requested. -/
theorem C10_probabilistic_coolant_failure (k : CoolantConsts) (simdt dt rand : ℚ)
    (s : CoolantState) (hcrash : s.m_isCrashed = false)
    (hfail : s.m_internalSystemsFailure = false)
    (hT : k.CRITICAL_COOLANT_TEMP ≤
      (UpdateCoolantTempPostStep.clbkPrePostStep k simdt dt rand s).1.m_coolantTemp) :
    ((UpdateCoolantTempPostStep.clbkPrePostStep k simdt dt rand s).1.m_internalSystemsFailure =
        true ↔
      rand ≤ (dt / 20) *
        ((UpdateCoolantTempPostStep.clbkPrePostStep k simdt dt rand s).1.m_coolantTemp /
          k.CRITICAL_COOLANT_TEMP) ^ 2) ∧
    ((UpdateCoolantTempPostStep.clbkPrePostStep k simdt dt rand s).1.m_internalSystemsFailure =
        true →
      Call.ShowWarning (some "Warning Systems Failure Oxygen Flow Offline.wav")
          SoundType.ST_WarningCallout
          "WARNING: SYSTEMS FAILURE!&Environmental systems offline;&DEPLOY THE RADIATOR!" true ∈
        (UpdateCoolantTempPostStep.clbkPrePostStep k simdt dt rand s).2) := by
  rw [clbkPrePostStep_coolantTemp k simdt dt rand s hcrash] at hT ⊢
  have hnlt : ¬ UpdateCoolantTempPostStep.newCoolantTemp k simdt s < k.CRITICAL_COOLANT_TEMP :=
    not_lt.mpr hT
  simp only [UpdateCoolantTempPostStep.clbkPrePostStep, hcrash, hfail, Bool.false_eq_true,
    if_false, ge_iff_le, hT, if_true, hnlt]
  split_ifs with h1 h2 <;> simp_all

/-! ### Centering handlers -/

/-- C11. Recentering is aborted without state change when hydraulics are down.
For each of `DoHoverCenter`, `DoScramCenter` and `DoMainPitchCenter`: if its
centering mode flag is set and `CheckHydraulicPressure` returns false, the step
clears that flag, triggers the redraw of its button (after the one call of
`CheckHydraulicPressure(true, true)`), and changes nothing else: `m_hoverBalance`,
the hover thruster maxima and the thruster directions are as they were. -/
theorem C11_recenter_aborted_without_pressure (env : CenteringEnv) (i : CenteringInput)
    (s : CenteringState) (hp : i.hydraulicPressure = false) :
    (s.m_hoverCenteringMode = true →
      AutoCenteringSimpleButtonAreasPostStep.DoHoverCenter env i s =
        ({ s with m_hoverCenteringMode := false },
         [CenterCall.CheckHydraulicPressure true true,
          CenterCall.TriggerRedrawArea AreaID.AID_HBALANCECENTER])) ∧
    (s.m_scramCenteringMode = true →
      AutoCenteringSimpleButtonAreasPostStep.DoScramCenter env i s =
        ({ s with m_scramCenteringMode := false },
         [CenterCall.CheckHydraulicPressure true true,
          CenterCall.TriggerRedrawArea AreaID.AID_GIMBALSCRAMCENTER])) ∧
    (s.m_mainPitchCenteringMode = true →
      AutoCenteringSimpleButtonAreasPostStep.DoMainPitchCenter env i s =
        ({ s with m_mainPitchCenteringMode := false },
         [CenterCall.CheckHydraulicPressure true true,
          CenterCall.TriggerRedrawArea AreaID.AID_PGIMBALMAINCENTER])) := by
  refine ⟨?_, ?_, ?_⟩
  · intro h
    simp [AutoCenteringSimpleButtonAreasPostStep.DoHoverCenter, h, hp]
  · intro h
    simp [AutoCenteringSimpleButtonAreasPostStep.DoScramCenter, h, hp]
  · intro h
    simp [AutoCenteringSimpleButtonAreasPostStep.DoMainPitchCenter, h, hp]

/-- C12. The APU idle timer is reset only while hydraulics are available.  In
every step `PlayDoorSound` calls `MarkAPUActive` for a door, exactly once, if
the door's previous status is not `NOT_SET`, `CheckHydraulicPressure` reports
pressure and the door status is `DOOR_OPENING` or `DOOR_CLOSING`, and not at
all otherwise; in particular never in a step without hydraulic pressure. -/
theorem C12_MarkAPUActive_iff (ds : DoorStatus) (apuOnline isPlaying : Bool) (d : DoorSound) :
    ((DoorSoundsPostStep.PlayDoorSound ds apuOnline isPlaying d).2.count Call.MarkAPUActive =
      if d.prevDoorStatus ≠ DoorStatus.NOT_SET ∧ apuOnline = true ∧
          (ds = DoorStatus.DOOR_OPENING ∨ ds = DoorStatus.DOOR_CLOSING)
      then 1 else 0) ∧
    (Call.MarkAPUActive ∈ (DoorSoundsPostStep.PlayDoorSound ds apuOnline isPlaying d).2 ↔
      d.prevDoorStatus ≠ DoorStatus.NOT_SET ∧ apuOnline = true ∧
        (ds = DoorStatus.DOOR_OPENING ∨ ds = DoorStatus.DOOR_CLOSING)) ∧
    (apuOnline = false →
      Call.MarkAPUActive ∉ (DoorSoundsPostStep.PlayDoorSound ds apuOnline isPlaying d).2) := by
  obtain ⟨prev, id, armed, label⟩ := d
  cases prev <;> cases ds <;> cases apuOnline <;> cases isPlaying <;> cases armed <;>
    simp [DoorSoundsPostStep.PlayDoorSound, DoorSoundsPostStep.ShowDoorInfoMsg, List.count_cons]

/-! ### Hull heating, validation, damage status, step registration -/

/-- C13 as stated fails.  With a breach reported by the cockpit check and also
by the top hull check (no breach at the nosecone), one invocation of
`CheckHullHeatingDamage` calls `DoCrash` twice; and with only the cockpit
breach reported, a second invocation with the same reports calls `DoCrash`
again. -/
theorem C13_DoCrash_called_twice :
    doCrashCount (XR5Vanguard.CheckHullHeatingDamage
      { IS_DOOR_OPEN := fun st => decide (st ≠ DoorStatus.DOOR_CLOSED)
        baseNewDamage := false, noseconeElevator := 0, noseconeRetro := 0
        cockpit := 1, topHull := 1 }
      { rcover_status := DoorStatus.DOOR_CLOSED
        crewElevator_status := DoorStatus.DOOR_CLOSED
        hatch_status := DoorStatus.DOOR_OPEN
        nose_status := DoorStatus.DOOR_OPEN
        m_noseconeTemp := 900, m_cockpitTemp := 1500, m_topHullTemp := 1600
        limit_noseCone := 2840, limit_cockpit := 1490, limit_topHull := 1210 }).2 = 2 ∧
    doCrashCount
      ((XR5Vanguard.CheckHullHeatingDamage
        { IS_DOOR_OPEN := fun st => decide (st ≠ DoorStatus.DOOR_CLOSED)
          baseNewDamage := false, noseconeElevator := 0, noseconeRetro := 0
          cockpit := 1, topHull := 0 }
        { rcover_status := DoorStatus.DOOR_CLOSED
          crewElevator_status := DoorStatus.DOOR_CLOSED
          hatch_status := DoorStatus.DOOR_OPEN
          nose_status := DoorStatus.DOOR_CLOSED
          m_noseconeTemp := 900, m_cockpitTemp := 1500, m_topHullTemp := 1000
          limit_noseCone := 2840, limit_cockpit := 1490, limit_topHull := 1210 }).2 ++
       (XR5Vanguard.CheckHullHeatingDamage
        { IS_DOOR_OPEN := fun st => decide (st ≠ DoorStatus.DOOR_CLOSED)
          baseNewDamage := false, noseconeElevator := 0, noseconeRetro := 0
          cockpit := 1, topHull := 0 }
        { rcover_status := DoorStatus.DOOR_CLOSED
          crewElevator_status := DoorStatus.DOOR_CLOSED
          hatch_status := DoorStatus.DOOR_OPEN
          nose_status := DoorStatus.DOOR_CLOSED
          m_noseconeTemp := 900, m_cockpitTemp := 1500, m_topHullTemp := 1000
          limit_noseCone := 2840, limit_cockpit := 1490, limit_topHull := 1210 }).2) = 2 := by
  constructor <;> decide

/-- C13, as the code has it.  When the cockpit temperature check reports a
breach, one invocation of `CheckHullHeatingDamage` calls `DoCrash` with the
cockpit message exactly once, and besides once more if a nosecone check reports
a breach and once more if the top hull check does: the XR5 code calls `DoCrash`
`1 + [lower hull breach] + [top hull breach]` times, hence exactly once when no
other surface checked here reports a breach. -/
theorem C13_DoCrash_once_per_breached_surface (a : HullAnswers) (s : HullState)
    (hc : a.cockpit ≠ 0) :
    (XR5Vanguard.CheckHullHeatingDamage a s).2.count
      (HullCall.DoCrash "COCKPIT BREACH at Mach %.1lf!" 0) = 1 ∧
    doCrashCount (XR5Vanguard.CheckHullHeatingDamage a s).2 =
      1 + (if a.noseconeElevator ≠ 0 ∨ a.noseconeRetro ≠ 0 then 1 else 0) +
        (if a.topHull ≠ 0 then 1 else 0) ∧
    (a.noseconeElevator = 0 → a.noseconeRetro = 0 → a.topHull = 0 →
      doCrashCount (XR5Vanguard.CheckHullHeatingDamage a s).2 = 1) := by
  refine ⟨?_, ?_, ?_⟩
  · unfold XR5Vanguard.CheckHullHeatingDamage
    simp only [hc, ne_eq, not_false_eq_true, if_true]
    split_ifs <;> simp [List.count_cons]
  · unfold XR5Vanguard.CheckHullHeatingDamage doCrashCount
    simp only [hc, ne_eq, not_false_eq_true, if_true]
    split_ifs <;> simp [List.countP_cons]
  · intro h1 h2 h3
    unfold XR5Vanguard.CheckHullHeatingDamage doCrashCount
    simp [hc, h1, h2, h3, List.countP_cons]

/-- C15. Damage survives the integrity round trip for the crew elevator.  For
every `fracIntegrity < 1`, after `SetDamageStatus(Elevator, fracIntegrity)` the
elevator status is `DOOR_FAILED`, the `wl5Elev` light is set and
`GetDamageStatus(Elevator).fracIntegrity` is 0 (`ApplyDamage`, whose body is not
in the sources, being taken to leave the elevator status and the light as they
are); and for `BayDoors` and `Elevator`, `GetDamageStatus` returns
`fracIntegrity` 0 when the door status is `DOOR_FAILED` and 1 otherwise. -/
theorem C15_elevator_damage_round_trip (env : XR5DamageEnv) (fracIntegrity : ℚ) (s : XR5Damage)
    (hf : fracIntegrity < 1)
    (hApply : ∀ t : XR5Damage,
      (env.ApplyDamage t).crewElevator_status = t.crewElevator_status ∧
      (env.ApplyDamage t).wl5Elev = t.wl5Elev) :
    ((XR5Vanguard.SetDamageStatus env DamageItem.Elevator fracIntegrity s).crewElevator_status =
        DoorStatus.DOOR_FAILED ∧
      (XR5Vanguard.SetDamageStatus env DamageItem.Elevator fracIntegrity s).wl5Elev = true ∧
      (XR5Vanguard.GetDamageStatus env DamageItem.Elevator
        (XR5Vanguard.SetDamageStatus env DamageItem.Elevator fracIntegrity s)).fracIntegrity =
          0) ∧
    (∀ t : XR5Damage,
      (XR5Vanguard.GetDamageStatus env DamageItem.BayDoors t).fracIntegrity =
        (if t.bay_status = DoorStatus.DOOR_FAILED then 0 else 1) ∧
      (XR5Vanguard.GetDamageStatus env DamageItem.Elevator t).fracIntegrity =
        (if t.crewElevator_status = DoorStatus.DOOR_FAILED then 0 else 1)) := by
  have h1 : (XR5Vanguard.SetDamageStatus env DamageItem.Elevator fracIntegrity
      s).crewElevator_status = DoorStatus.DOOR_FAILED := by
    simp only [XR5Vanguard.SetDamageStatus, hf, if_true]
    split_ifs
    · rw [(hApply _).1]
    · rfl
  have h2 : (XR5Vanguard.SetDamageStatus env DamageItem.Elevator fracIntegrity s).wl5Elev =
      true := by
    simp only [XR5Vanguard.SetDamageStatus, hf, if_true]
    split_ifs
    · rw [(hApply _).2]; simp
    · simp
  refine ⟨⟨h1, h2, ?_⟩, ?_⟩
  · simp [XR5Vanguard.GetDamageStatus, h1]
  · intro t
    exact ⟨rfl, rfl⟩

/-- C16. PreStep registration order of the XR2.  `clbkPostCreation` appends
seventeen PreSteps to the PreStep vector, `DrainBayFuelTanksPreStep` first and
`UpdatePreviousFieldsPreStep` last: whatever was registered before, the last
PreStep of the vector is `UpdatePreviousFieldsPreStep`, and starting from an
empty vector the first one is `DrainBayFuelTanksPreStep`. -/
theorem C16_XR2_PreStep_order (EnableBoilOffExhaustEffect debugBuild : Bool) (v : StepVectors) :
    (∃ middle : List PreStepClass, middle.length = 15 ∧
      (XR2Ravenstar.clbkPostCreation EnableBoilOffExhaustEffect debugBuild v).m_preStepVector =
        v.m_preStepVector ++ [PreStepClass.DrainBayFuelTanksPreStep] ++ middle ++
          [PreStepClass.UpdatePreviousFieldsPreStep]) ∧
    (XR2Ravenstar.clbkPostCreation EnableBoilOffExhaustEffect debugBuild v).m_preStepVector.getLast?
      = some PreStepClass.UpdatePreviousFieldsPreStep ∧
    (XR2Ravenstar.clbkPostCreation EnableBoilOffExhaustEffect debugBuild
      { m_preStepVector := [], m_postStepVector := [] }).m_preStepVector.head? =
        some PreStepClass.DrainBayFuelTanksPreStep := by
  have hpre : (XR2Ravenstar.clbkPostCreation EnableBoilOffExhaustEffect debugBuild
      v).m_preStepVector =
      v.m_preStepVector ++ [PreStepClass.DrainBayFuelTanksPreStep] ++
        [PreStepClass.RefreshSlotStatesPreStep, PreStepClass.AttitudeHoldPreStep,
         PreStepClass.DescentHoldPreStep, PreStepClass.AirspeedHoldPreStep,
         PreStepClass.ScramjetSoundPreStep, PreStepClass.MmuPreStep,
         PreStepClass.GearCalloutsPreStep, PreStepClass.MachCalloutsPreStep,
         PreStepClass.AltitudeCalloutsPreStep, PreStepClass.DockingCalloutsPreStep,
         PreStepClass.TakeoffAndLandingCalloutsAndCrashPreStep,
         PreStepClass.NosewheelSteeringPreStep, PreStepClass.UpdateVesselLightsPreStep,
         PreStepClass.ParkingBrakePreStep, PreStepClass.RotateWheelsPreStep] ++
        [PreStepClass.UpdatePreviousFieldsPreStep] := by
    cases EnableBoilOffExhaustEffect <;> cases debugBuild <;>
      simp [XR2Ravenstar.clbkPostCreation, AddPreStep, AddPostStep]
  refine ⟨⟨_, ?_, hpre⟩, ?_, ?_⟩
  · rfl
  · rw [hpre, List.getLast?_append]
    rfl
  · cases EnableBoilOffExhaustEffect <;> cases debugBuild <;> rfl

/-! ### TextLineGroup -/

theorem strchr_none {s : List Char} {c : Char} (h : strchr s c = none) : c ∉ s := by
  induction s with
  | nil => simp
  | cons x xs ih =>
    unfold strchr at h
    split_ifs at h with hx
    simp only [Option.map_eq_none'] at h
    simp only [List.mem_cons, not_or]
    exact ⟨fun e => hx e.symm, ih h⟩

theorem strchr_some {s : List Char} {c : Char} {k : Nat} (h : strchr s c = some k) :
    s = s.take k ++ c :: s.drop (k + 1) ∧ c ∉ s.take k := by
  induction s generalizing k with
  | nil => simp [strchr] at h
  | cons x xs ih =>
    unfold strchr at h
    split_ifs at h with hx
    · simp only [Option.some.injEq] at h
      subst h
      subst hx
      simp
    · simp only [Option.map_eq_some'] at h
      obtain ⟨j, hj, rfl⟩ := h
      obtain ⟨h1, h2⟩ := ih hj
      constructor
      · simp only [List.take_succ_cons, List.drop_succ_cons, List.cons_append, List.cons.injEq,
          true_and]
        exact h1
      · simp only [List.take_succ_cons, List.mem_cons, not_or]
        exact ⟨fun e => hx e.symm, h2⟩

/-- With enough iterations the loop of `AddLines` yields the pieces of the
string between the `&` characters. -/
theorem AddLines_loop_spec (color : TEXTCOLOR) (fuel : Nat) (s : List Char)
    (hfuel : s.length < fuel) :
    (TextLineGroup.AddLines.loop color fuel s).length = 1 + s.count '&' ∧
    ['&'].intercalate ((TextLineGroup.AddLines.loop color fuel s).map TextLine.text) = s ∧
    (∀ l ∈ TextLineGroup.AddLines.loop color fuel s, '&' ∉ l.text ∧ l.color = color) := by
  induction fuel generalizing s with
  | zero => omega
  | succ n ih =>
    unfold TextLineGroup.AddLines.loop
    cases hk : strchr s '&' with
    | none =>
      have hnot := strchr_none hk
      simp only [List.length_singleton, List.map_cons, List.map_nil, List.mem_singleton,
        forall_eq]
      refine ⟨?_, ?_, hnot, trivial⟩
      · rw [List.count_eq_zero_of_not_mem hnot]
      · simp [List.intercalate]
    | some k =>
      obtain ⟨hs, hnot⟩ := strchr_some hk
      have hklen : k < s.length := by
        have := congrArg List.length hs
        simp only [List.length_append, List.length_take, List.length_cons,
          List.length_drop] at this
        omega
      have hlen : (s.drop (k + 1)).length < n := by
        simp only [List.length_drop]; omega
      obtain ⟨i1, i2, i3⟩ := ih (s.drop (k + 1)) hlen
      simp only [List.length_cons, List.map_cons, List.mem_cons, forall_eq_or_imp]
      refine ⟨?_, ?_, ⟨hnot, trivial⟩, i3⟩
      · rw [i1]
        conv_rhs => rw [hs]
        rw [List.count_append, List.count_cons_self, List.count_eq_zero_of_not_mem hnot]
        omega
      · cases hL : TextLineGroup.AddLines.loop color n (s.drop (k + 1)) with
        | nil => rw [hL] at i1; simp at i1; omega
        | cons a rest =>
          rw [hL] at i2
          conv_rhs => rw [hs, ← i2]
          simp [List.intercalate, List.intersperse]

theorem AddLine_counts (g : TextLineGroup) (l : TextLine) :
    (g.AddLine l).m_addLinesCount = g.m_addLinesCount ∧ (g.AddLine l).m_maxLines = g.m_maxLines := by
  unfold TextLineGroup.AddLine
  simp only
  split_ifs <;> exact ⟨rfl, rfl⟩

theorem foldl_AddLine_counts (ls : List TextLine) (g : TextLineGroup) :
    (ls.foldl TextLineGroup.AddLine g).m_addLinesCount = g.m_addLinesCount ∧
    (ls.foldl TextLineGroup.AddLine g).m_maxLines = g.m_maxLines := by
  induction ls generalizing g with
  | nil => exact ⟨rfl, rfl⟩
  | cons l rest ih =>
    simp only [List.foldl_cons]
    obtain ⟨h1, h2⟩ := ih (g.AddLine l)
    obtain ⟨h3, h4⟩ := AddLine_counts g l
    exact ⟨h1.trans h3, h2.trans h4⟩

/-- C17. `TextLineGroup::AddLines` splits on `&`.  For every message `s` that
fits the working buffer and every flag `h`, `AddLines(s, h)` succeeds and
passes to `AddLine`, in order, exactly `1 + (number of '&' in s)` lines: the
pieces of `s` between its `&` characters (empty pieces included), that is
`s.splitOn '&'`; none of them contains `&`, joining them with `&` gives back
`s`, each is coloured `Highlighted` exactly when `h` is set; and
`GetAddLinesCount` is larger by exactly 1 afterwards. -/
theorem C17_AddLines_splits_on_ampersand (MAX_MESSAGE_LENGTH : Nat) (g : TextLineGroup)
    (s : List Char) (h : Bool) (hfit : s.length + 1 ≤ MAX_MESSAGE_LENGTH) :
    (TextLineGroup.AddLines.submitted s h).length = 1 + s.count '&' ∧
    (TextLineGroup.AddLines.submitted s h).map TextLine.text = s.splitOn '&' ∧
    ['&'].intercalate ((TextLineGroup.AddLines.submitted s h).map TextLine.text) = s ∧
    (∀ l ∈ TextLineGroup.AddLines.submitted s h,
      '&' ∉ l.text ∧ (l.color = TEXTCOLOR.Highlighted ↔ h = true)) ∧
    ∃ g2, TextLineGroup.AddLines MAX_MESSAGE_LENGTH g s h = some g2 ∧
      g2 = (TextLineGroup.AddLines.submitted s h).foldl TextLineGroup.AddLine
        { g with m_addLinesCount := g.m_addLinesCount + 1 } ∧
      g2.GetAddLinesCount = g.GetAddLinesCount + 1 := by
  obtain ⟨h1, h2, h3⟩ := AddLines_loop_spec
    (if h then TEXTCOLOR.Highlighted else TEXTCOLOR.Normal) (s.length + 1) s (Nat.lt_succ_self _)
  have hne : (TextLineGroup.AddLines.submitted s h).map TextLine.text ≠ [] := by
    intro e
    have := congrArg List.length e
    simp only [List.length_map, List.length_nil] at this
    unfold TextLineGroup.AddLines.submitted at this
    omega
  refine ⟨h1, ?_, h2, ?_, ?_⟩
  · have hfree : ∀ l ∈ (TextLineGroup.AddLines.submitted s h).map TextLine.text, '&' ∉ l := by
      intro l hl
      simp only [List.mem_map] at hl
      obtain ⟨t, ht, rfl⟩ := hl
      exact (h3 t ht).1
    have hsplit : (['&'].intercalate
        ((TextLineGroup.AddLines.submitted s h).map TextLine.text)).splitOn '&' =
        (TextLineGroup.AddLines.submitted s h).map TextLine.text :=
      List.splitOn_intercalate _ '&' hfree hne
    unfold TextLineGroup.AddLines.submitted at hsplit ⊢
    rw [h2] at hsplit
    exact hsplit.symm
  · intro l hl
    obtain ⟨a, b⟩ := h3 l hl
    refine ⟨a, ?_⟩
    rw [b]
    cases h <;> simp
  · refine ⟨_, ?_, rfl, ?_⟩
    · simp [TextLineGroup.AddLines, hfit]
    · unfold TextLineGroup.GetAddLinesCount
      rw [(foldl_AddLine_counts _ _).1]

theorem AddLine_lines_nat (m : Nat) (g : TextLineGroup) (l : TextLine)
    (hm : g.m_maxLines = (m : Int)) :
    (g.AddLine l).m_lines =
      if (g.m_lines ++ [l]).length > m then (g.m_lines ++ [l]).tail else g.m_lines ++ [l] := by
  unfold TextLineGroup.AddLine TextLineGroup.GetLineCount
  simp only [hm, gt_iff_lt, Nat.cast_lt]
  split_ifs <;> rfl

/-- C18. `TextLineGroup` is a bounded FIFO.  For every `maxLines ≥ 0` and every
sequence of `AddLine` calls on a group created empty, after the calls
`GetLineCount() ≤ maxLines` and the buffer holds exactly the last
`min n maxLines` of the `n` lines added, in insertion order, oldest first; and
`AddLine` on a full group discards the oldest line (the front of the buffer
after the new line was pushed). -/
theorem C18_TextLineGroup_bounded_fifo (maxLines : Int) (hmax : 0 ≤ maxLines)
    (added : List TextLine) :
    (added.foldl TextLineGroup.AddLine (TextLineGroup.new maxLines)).GetLineCount ≤ maxLines ∧
    (added.foldl TextLineGroup.AddLine (TextLineGroup.new maxLines)).m_lines =
      added.drop (added.length - maxLines.toNat) ∧
    (added.foldl TextLineGroup.AddLine (TextLineGroup.new maxLines)).m_lines.length =
      min added.length maxLines.toNat ∧
    (∀ (g : TextLineGroup) (l : TextLine), g.m_maxLines = maxLines →
      g.GetLineCount = maxLines → (g.AddLine l).m_lines = (g.m_lines ++ [l]).tail) := by
  obtain ⟨m, rfl⟩ := Int.eq_ofNat_of_zero_le hmax
  simp only [Int.toNat_ofNat]
  have hmain : (added.foldl TextLineGroup.AddLine (TextLineGroup.new (m : Int))).m_lines =
      added.drop (added.length - m) := by
    induction added using List.reverseRecOn with
    | nil => simp [TextLineGroup.new]
    | append_singleton init l ih =>
      rw [List.foldl_append, List.foldl_cons, List.foldl_nil]
      rw [AddLine_lines_nat m _ l ((foldl_AddLine_counts init _).2), ih]
      simp only [List.length_append, List.length_drop, List.length_singleton]
      by_cases hlt : init.length < m
      · have h0 : init.length - m = 0 := by omega
        have h1 : init.length + 1 - m = 0 := by omega
        rw [h0, h1, if_neg (by omega)]
        simp
      · have hge : m ≤ init.length := by omega
        rw [if_pos (by omega)]
        rw [← List.drop_one, ← List.drop_append_of_le_length (by omega), List.drop_drop]
        congr 1
        omega
  refine ⟨?_, hmain, ?_, ?_⟩
  · unfold TextLineGroup.GetLineCount
    rw [hmain]
    simp only [List.length_drop, Nat.cast_le]
    omega
  · rw [hmain]
    simp only [List.length_drop]
    omega
  · intro g l hg hfull
    unfold TextLineGroup.GetLineCount at hfull
    rw [AddLine_lines_nat m g l hg, if_pos]
    simp only [List.length_append, List.length_singleton]
    have : g.m_lines.length = m := by exact_mod_cast hfull
    omega

/-! ### CountOneBits -/

theorem ediv_two_ediv (v k : Int) (hk : 0 < k) : v / 2 / k = v / (k * 2) := by
  have h1 := Int.ediv_add_emod (v / 2) k
  have h2 := Int.ediv_add_emod v 2
  have h3 := Int.emod_nonneg (v / 2) (ne_of_gt hk)
  have h4 := Int.emod_lt_of_pos (v / 2) hk
  have h5 := Int.emod_nonneg v (by norm_num : (2 : Int) ≠ 0)
  have h6 := Int.emod_lt_of_pos v (by norm_num : (0 : Int) < 2)
  have key := (Int.ediv_emod_unique (a := v) (b := k * 2) (q := v / 2 / k)
    (r := 2 * (v / 2 % k) + v % 2) (by omega)).mpr
    ⟨by linear_combination 2 * h1 + h2, by omega, by omega⟩
  exact key.1.symm

theorem CountOneBits_loop_sum (n : Nat) (v acc : Int) :
    VESSEL3_EXT.CountOneBits.loop n v acc =
      acc + ((List.range n).map fun i => (v / 2 ^ i) % 2).sum := by
  induction n generalizing v acc with
  | zero => simp [VESSEL3_EXT.CountOneBits.loop]
  | succ n ih =>
    rw [VESSEL3_EXT.CountOneBits.loop, ih, List.range_succ_eq_map]
    simp only [List.map_cons, List.map_map, List.sum_cons, pow_zero, Int.ediv_one]
    have hfun : ((fun i => v / 2 ^ i % 2) ∘ Nat.succ) = fun i => v / 2 / 2 ^ i % 2 := by
      funext i
      simp only [Function.comp_apply, Nat.succ_eq_add_one]
      rw [ediv_two_ediv v (2 ^ i) (by positivity), pow_succ]
    rw [hfun]
    ring

theorem bit_of_mod_two_pow (v : Int) (i : Nat) (hi : i < 32) :
    (v / 2 ^ i) % 2 = if Nat.testBit (v % 2 ^ 32).toNat i then 1 else 0 := by
  have hu0 : 0 ≤ v % 2 ^ 32 := Int.emod_nonneg _ (by norm_num)
  obtain ⟨u, hu⟩ := Int.eq_ofNat_of_zero_le hu0
  have hv : v = (u : Int) + 2 ^ i * (2 * (2 ^ (31 - i) * (v / 2 ^ 32))) := by
    have h1 := Int.ediv_add_emod v (2 ^ 32)
    have h2 : (2 : Int) ^ 32 = 2 ^ i * (2 * 2 ^ (31 - i)) := by
      rw [← pow_succ', ← pow_add]
      congr 1
      omega
    rw [hu] at h1
    rw [h2] at h1
    rw [← h2] at h1
    calc v = 2 ^ 32 * (v / 2 ^ 32) + (u : Int) := h1.symm
      _ = (u : Int) + 2 ^ i * (2 * (2 ^ (31 - i) * (v / 2 ^ 32))) := by rw [h2]; ring
  have hdiv : v / 2 ^ i = (u : Int) / 2 ^ i + 2 * (2 ^ (31 - i) * (v / 2 ^ 32)) := by
    conv_lhs => rw [hv]
    exact Int.add_mul_ediv_left _ _ (by positivity)
  rw [hdiv, Int.add_mul_emod_self_left, hu, Int.toNat_ofNat, Nat.testBit_to_div_mod]
  have hcast : ((u : Int) / 2 ^ i) % 2 = ((u / 2 ^ i % 2 : Nat) : Int) := by
    push_cast
    rfl
  rw [hcast]
  rcases Nat.mod_two_eq_zero_or_one (u / 2 ^ i) with h | h <;> simp [h]

theorem countP_cast_sum (p : Nat → Bool) (l : List Nat) :
    ((l.countP p : Nat) : Int) = (l.map fun i => if p i then (1 : Int) else 0).sum := by
  induction l with
  | nil => rfl
  | cons a rest ih =>
    rw [List.countP_cons, List.map_cons, List.sum_cons, ← ih]
    cases p a <;> simp
    ring

/-- C19. `VESSEL3_EXT::CountOneBits` is population count.  For every integer
`v`, in particular every 32-bit signed one, negative values included,
`CountOneBits(v)` is the number of 1 bits in the 32-bit two's-complement
representation of `v`; so the result lies between 0 and 32,
`CountOneBits(0) = 0` and `CountOneBits(-1) = 32`. -/
theorem C19_CountOneBits_popcount (v : Int) :
    VESSEL3_EXT.CountOneBits v = (popCount32 v : Int) ∧
    0 ≤ VESSEL3_EXT.CountOneBits v ∧ VESSEL3_EXT.CountOneBits v ≤ 32 ∧
    VESSEL3_EXT.CountOneBits 0 = 0 ∧ VESSEL3_EXT.CountOneBits (-1) = 32 := by
  have hmain : VESSEL3_EXT.CountOneBits v = (popCount32 v : Int) := by
    unfold VESSEL3_EXT.CountOneBits popCount32
    rw [CountOneBits_loop_sum, countP_cast_sum, zero_add]
    congr 1
    apply List.map_congr_left
    intro i hi
    exact bit_of_mod_two_pow v i (List.mem_range.mp hi)
  have hle : popCount32 v ≤ 32 := by
    unfold popCount32
    exact le_trans (List.countP_le_length _) (by simp)
  refine ⟨hmain, ?_, ?_, by decide, by decide⟩
  · rw [hmain]; exact Int.natCast_nonneg _
  · rw [hmain]; exact_mod_cast hle

/-! ### Airlock decompression -/

/-- C20 fails on the code.  The step decompresses the cabin exactly when
`olock_proc > 0.20`, the cabin O2 level is positive, the atmospheric pressure
is below 50e3 and the ship is not docked: `ilock_proc` is never read (the test
of `olock_proc` is written twice).  With the outer door fully open and the
inner door fully closed (`olock_proc = 1`, `ilock_proc = 0`) in vacuum,
undocked, with O2 in the cabin, `DecompressCabin` is called. -/
theorem C20_decompresses_with_inner_door_closed :
    AirlockCall.DecompressCabin ∈
      (AirlockDecompressionPostStep.clbkPrePostStep
        { simt := 100, GetAtmPressure := 0, IsDocked := false, newStream := some 7 }
        { olock_proc := 1, ilock_proc := 0, m_cabinO2Level := 209 / 1000,
          m_decompressionStream := none, m_ventTime := -1 }).2 ∧
    ∀ (i : AirlockInput) (s : AirlockState),
      (AirlockCall.DecompressCabin ∈ (AirlockDecompressionPostStep.clbkPrePostStep i s).2 ↔
        s.olock_proc > 0.20 ∧ s.m_cabinO2Level > 0 ∧ i.GetAtmPressure < 50000 ∧
          i.IsDocked = false) := by
  have hgen : ∀ (i : AirlockInput) (s : AirlockState),
      (AirlockCall.DecompressCabin ∈ (AirlockDecompressionPostStep.clbkPrePostStep i s).2 ↔
        s.olock_proc > 0.20 ∧ s.m_cabinO2Level > 0 ∧ i.GetAtmPressure < 50000 ∧
          i.IsDocked = false) := by
    intro i s
    unfold AirlockDecompressionPostStep.clbkPrePostStep
    simp only [and_self, decide_eq_true_eq]
    by_cases h : s.olock_proc > 0.20 ∧ s.m_cabinO2Level > 0 ∧ i.GetAtmPressure < 50000 ∧
        i.IsDocked = false
    · rw [if_pos h]
      simp only [h, and_self, iff_true]
      cases i.newStream with
      | none => simp
      | some hdl =>
        simp only
        split_ifs <;> simp
    · rw [if_neg h]
      simp only [h, iff_false]
      cases hs : s.m_decompressionStream with
      | none => simp
      | some hdl =>
        simp only
        split_ifs <;> simp
  refine ⟨?_, hgen⟩
  rw [hgen]
  norm_num

/-! ### Acceleration gauge -/

theorem accStep_maxAcc (simt force : ℚ) (ground : Bool) (h : 0 ≤ force) :
    ComputeAccPostStep.maxAcc 10 (accStep simt force ground) = force / 10 := by
  simp only [ComputeAccPostStep.maxAcc, accStep, Bool.false_eq_true, if_false, sub_zero,
    zero_div, div_one, abs_zero]
  rw [abs_of_nonneg h, max_eq_left h, max_eq_right h, abs_of_nonneg h]

/-- C21 fails on the code.  In two consecutive steps with ground contact, the
first measuring 3 G and the second 1 G, the second step leaves `m_accScale` at
`FourG` and `m_maxGaugeAcc` at 4.0: on ground contact the gauge is rescaled from
the peak of the earlier steps, not set to 2 G.  In general a step with ground
contact leaves 2 G exactly when that peak is at most 2.1. -/
theorem C21_ground_contact_rescales_from_peak :
    ((ComputeAccPostStep.run 10 (ComputeAccPostStep.init 2 AccScale.TwoG)
        [accStep 0 30 true, accStep 1 10 true]).m_accScale = AccScale.FourG ∧
      (ComputeAccPostStep.run 10 (ComputeAccPostStep.init 2 AccScale.TwoG)
        [accStep 0 30 true, accStep 1 10 true]).m_maxGaugeAcc = 4) ∧
    ∀ (G : ℚ) (i : AccInput) (s : AccState), i.GroundContact = true →
      ((ComputeAccPostStep.clbkPrePostStep G i s).m_accScale = AccScale.TwoG ↔
        s.m_peakAccOnCurrentGaugeScale ≤ 21 / 10) := by
  have h30 := accStep_maxAcc 0 30 true (by norm_num)
  have h10 := accStep_maxAcc 1 10 true (by norm_num)
  refine ⟨?_, ?_⟩
  · simp only [ComputeAccPostStep.run, ComputeAccPostStep.clbkPrePostStep, h30, h10]
    norm_num [accStep, ComputeAccPostStep.init]
  · intro G i s hg
    simp only [ComputeAccPostStep.clbkPrePostStep, hg, true_or, if_true]
    split_ifs <;> simp_all

/-- C22 fails on the code.  An airborne vessel measures 3 G at time 0, 1 G at
time 3 (the gauge goes to 4 G, expiring at 6) and 5 G at time 4.  The step at
time 4 is airborne and before the expiration, yet it lowers `m_maxGaugeAcc`
from 4.0 to 2.0: the rescale triggered by the excess picks the scale from the
peak recorded before this step (1 G), the new value entering the peak only
afterwards. -/
theorem C22_gauge_lowered_before_timeout :
    (ComputeAccPostStep.run 10 (ComputeAccPostStep.init 2 AccScale.TwoG)
      [accStep 0 30 false, accStep 3 10 false]).m_maxGaugeAcc = 4 ∧
    (ComputeAccPostStep.run 10 (ComputeAccPostStep.init 2 AccScale.TwoG)
      [accStep 0 30 false, accStep 3 10 false]).m_gaugeScaleExpiration = 6 ∧
    (accStep 4 50 false).GroundContact = false ∧
    (accStep 4 50 false).simt < 6 ∧
    (ComputeAccPostStep.clbkPrePostStep 10 (accStep 4 50 false)
      (ComputeAccPostStep.run 10 (ComputeAccPostStep.init 2 AccScale.TwoG)
        [accStep 0 30 false, accStep 3 10 false])).m_maxGaugeAcc = 2 := by
  have h30 := accStep_maxAcc 0 30 false (by norm_num)
  have h10 := accStep_maxAcc 3 10 false (by norm_num)
  have h50 := accStep_maxAcc 4 50 false (by norm_num)
  refine ⟨?_, ?_, rfl, ?_, ?_⟩
  · simp only [ComputeAccPostStep.run, ComputeAccPostStep.clbkPrePostStep, h30, h10]
    norm_num [accStep, ComputeAccPostStep.init]
  · simp only [ComputeAccPostStep.run, ComputeAccPostStep.clbkPrePostStep, h30, h10]
    norm_num [accStep, ComputeAccPostStep.init]
  · norm_num [accStep]
  · simp only [ComputeAccPostStep.run, ComputeAccPostStep.clbkPrePostStep, h30, h10, h50]
    norm_num [accStep, ComputeAccPostStep.init]

/-! ### Coolant failure flag -/

/-- C26. Internal systems failure implies critical temperature.  After every
non-crashed step of `UpdateCoolantTempPostStep`, if `m_internalSystemsFailure`
is true then the stored `m_coolantTemp` is at least `CRITICAL_COOLANT_TEMP`;
and a step whose updated temperature is below `CRITICAL_COOLANT_TEMP` leaves
the flag false, whatever it was before. -/
theorem C26_failure_implies_critical (k : CoolantConsts) (simdt dt rand : ℚ) (s : CoolantState)
    (hcrash : s.m_isCrashed = false) :
    ((UpdateCoolantTempPostStep.clbkPrePostStep k simdt dt rand s).1.m_internalSystemsFailure =
        true →
      k.CRITICAL_COOLANT_TEMP ≤
        (UpdateCoolantTempPostStep.clbkPrePostStep k simdt dt rand s).1.m_coolantTemp) ∧
    ((UpdateCoolantTempPostStep.clbkPrePostStep k simdt dt rand s).1.m_coolantTemp <
        k.CRITICAL_COOLANT_TEMP →
      (UpdateCoolantTempPostStep.clbkPrePostStep k simdt dt rand s).1.m_internalSystemsFailure =
        false) := by
  have hclear : (UpdateCoolantTempPostStep.clbkPrePostStep k simdt dt rand s).1.m_coolantTemp <
        k.CRITICAL_COOLANT_TEMP →
      (UpdateCoolantTempPostStep.clbkPrePostStep k simdt dt rand s).1.m_internalSystemsFailure =
        false := by
    have htemp : (UpdateCoolantTempPostStep.clbkPrePostStep k simdt dt rand s).1.m_coolantTemp =
        UpdateCoolantTempPostStep.newCoolantTemp k simdt s := by
      simp [UpdateCoolantTempPostStep.clbkPrePostStep, hcrash]
    rw [htemp]
    intro hlt
    simp [UpdateCoolantTempPostStep.clbkPrePostStep, hcrash, hlt]
  refine ⟨?_, hclear⟩
  intro hfail
  by_contra hnot
  have := hclear (not_le.mp hnot)
  rw [this] at hfail
  exact Bool.false_ne_true hfail

/-! ### Script thread mailbox -/

/-- C24 fails on the code.  `ST_SendStatusMessage` stores `*pMsg`, the first
character of the message, not the message: after sending
`Parsing script [a.xrvc]` the next `GetStatusMessage` returns true with the
string `P`.  Whatever the assignment of a `char` to a `CString` does, the
string read back depends on the first character alone, so of the two messages
`ab` and `ac` at most one can be read back unchanged. -/
theorem C24_status_message_truncated :
    (XRVCScriptThread.GetStatusMessage
      (XRVCScriptThread.ST_SendStatusMessage CString.ofChar
        { m_csExecuteScriptStatus := [], m_csExecuteScriptCommandList := [],
          m_csScriptToExecute := [] }
        "Parsing script [a.xrvc]".toList)).1 = true ∧
    (XRVCScriptThread.GetStatusMessage
      (XRVCScriptThread.ST_SendStatusMessage CString.ofChar
        { m_csExecuteScriptStatus := [], m_csExecuteScriptCommandList := [],
          m_csScriptToExecute := [] }
        "Parsing script [a.xrvc]".toList)).2.1 = "P".toList ∧
    ∀ (assign : Char → List Char) (t : XRVCScriptThread),
      ¬ ((XRVCScriptThread.GetStatusMessage
            (XRVCScriptThread.ST_SendStatusMessage assign t "ab".toList)).2.1 = "ab".toList ∧
         (XRVCScriptThread.GetStatusMessage
            (XRVCScriptThread.ST_SendStatusMessage assign t "ac".toList)).2.1 = "ac".toList) := by
  refine ⟨by decide, by decide, ?_⟩
  intro assign t h
  obtain ⟨h1, h2⟩ := h
  simp only [XRVCScriptThread.GetStatusMessage, XRVCScriptThread.ST_SendStatusMessage,
    derefChar] at h1 h2
  have h3 : assign ("ab".toList.headD (Char.ofNat 0)) = assign ("ac".toList.headD (Char.ofNat 0)) :=
    rfl
  rw [h1, h2] at h3
  exact absurd h3 (by decide)


/-! ### Abrupt-stop thump and the APU transition flag -/

theorem PlayDoorSound_abrupt_thump (ds : DoorStatus) (p : Bool) (d : DoorSound)
    (h : 0 < thumpCount d (DoorSoundsPostStep.PlayDoorSound ds false p d).2) :
    d.processAPUTransitionState = true ∧
    (DoorSoundsPostStep.PlayDoorSound ds false p d).1.processAPUTransitionState = false ∧
    (ds = DoorStatus.DOOR_OPENING ∨ ds = DoorStatus.DOOR_CLOSING) := by
  obtain ⟨prev, sid, flag, lbl⟩ := d
  cases ds <;> cases prev <;> cases flag <;>
    simp_all [DoorSoundsPostStep.PlayDoorSound, thumpCount]

theorem PlayDoorSound_arms (ds : DoorStatus) (apu p : Bool) (d : DoorSound)
    (h0 : d.processAPUTransitionState = false)
    (h1 : (DoorSoundsPostStep.PlayDoorSound ds apu p d).1.processAPUTransitionState = true) :
    apu = true ∧ (ds = DoorStatus.DOOR_OPENING ∨ ds = DoorStatus.DOOR_CLOSING) := by
  obtain ⟨prev, sid, flag, lbl⟩ := d
  cases ds <;> cases prev <;> cases apu <;>
    simp_all [DoorSoundsPostStep.PlayDoorSound]

theorem abruptThumpAt_zero (d : DoorSound) (x : DoorStep) (rest : List DoorStep)
    (h : abruptThumpAt d (x :: rest) 0 = true) :
    d.processAPUTransitionState = true ∧
    (DoorSoundsPostStep.PlayDoorSound x.ds x.apuOnline x.isPlaying d).1.processAPUTransitionState
      = false := by
  simp only [abruptThumpAt, DoorSoundsPostStep.run, List.getElem?_cons_zero, Bool.and_eq_true,
    Bool.not_eq_true', decide_eq_true_eq] at h
  obtain ⟨hapu, hth⟩ := h
  rw [hapu] at hth ⊢
  have := PlayDoorSound_abrupt_thump x.ds x.isPlaying d hth
  exact ⟨this.1, this.2.1⟩

theorem abruptThumpAt_succ (d : DoorSound) (x : DoorStep) (rest : List DoorStep) (k : Nat) :
    abruptThumpAt d (x :: rest) (k + 1) =
      abruptThumpAt (DoorSoundsPostStep.PlayDoorSound x.ds x.apuOnline x.isPlaying d).1 rest k := by
  have hc : thumpCount d =
      thumpCount (DoorSoundsPostStep.PlayDoorSound x.ds x.apuOnline x.isPlaying d).1 :=
    funext (thumpCount_congr _ _ (PlayDoorSound_soundID _ _ _ _).symm)
  simp only [abruptThumpAt, DoorSoundsPostStep.run, List.getElem?_cons_succ, hc]

theorem pressureInMotionAt_succ (x : DoorStep) (rest : List DoorStep) (j : Nat) :
    pressureInMotionAt (x :: rest) (j + 1) = pressureInMotionAt rest j := by
  simp only [pressureInMotionAt, List.getElem?_cons_succ]

theorem abruptThumpAt_needs_pressure (steps : List DoorStep) :
    ∀ (d : DoorSound) (k : Nat), d.processAPUTransitionState = false →
      abruptThumpAt d steps k = true → ∃ j, j < k ∧ pressureInMotionAt steps j = true := by
  induction steps with
  | nil => intro d k _ h; simp [abruptThumpAt] at h
  | cons x rest ih =>
    intro d k h0 h
    cases k with
    | zero =>
      have := (abruptThumpAt_zero d x rest h).1
      rw [h0] at this
      exact absurd this (by decide)
    | succ k =>
      rw [abruptThumpAt_succ] at h
      by_cases hf : (DoorSoundsPostStep.PlayDoorSound x.ds x.apuOnline x.isPlaying
          d).1.processAPUTransitionState = true
      · have ha := PlayDoorSound_arms x.ds x.apuOnline x.isPlaying d h0 hf
        refine ⟨0, Nat.succ_pos k, ?_⟩
        simp [pressureInMotionAt, ha.1, ha.2]
      · obtain ⟨j, hj, hp⟩ := ih _ k (by simpa using hf) h
        exact ⟨j + 1, Nat.succ_lt_succ hj, by rw [pressureInMotionAt_succ]; exact hp⟩

theorem abruptThumpAt_between (steps : List DoorStep) :
    ∀ (d : DoorSound) (k1 k2 : Nat), k1 < k2 →
      abruptThumpAt d steps k1 = true → abruptThumpAt d steps k2 = true →
      ∃ j, k1 < j ∧ j < k2 ∧ pressureInMotionAt steps j = true := by
  induction steps with
  | nil => intro d k1 k2 _ h; simp [abruptThumpAt] at h
  | cons x rest ih =>
    intro d k1 k2 hlt h1 h2
    cases k2 with
    | zero => exact absurd hlt (Nat.not_lt_zero _)
    | succ k2 =>
      rw [abruptThumpAt_succ] at h2
      cases k1 with
      | zero =>
        obtain ⟨j, hj, hp⟩ :=
          abruptThumpAt_needs_pressure rest _ k2 (abruptThumpAt_zero d x rest h1).2 h2
        exact ⟨j + 1, Nat.succ_pos j, Nat.succ_lt_succ hj,
          by rw [pressureInMotionAt_succ]; exact hp⟩
      | succ k1 =>
        rw [abruptThumpAt_succ] at h1
        obtain ⟨j, hj1, hj2, hp⟩ := ih _ k1 k2 (Nat.lt_of_succ_lt_succ hlt) h1 h2
        exact ⟨j + 1, Nat.succ_lt_succ hj1, Nat.succ_lt_succ hj2,
          by rw [pressureInMotionAt_succ]; exact hp⟩

/-- C23: the abrupt-stop thump is debounced.  For a door set up by
`INIT_DOORSOUND` and any sequence of steps, if step `k` plays the thump of a
door that is opening or closing without hydraulic pressure, then some earlier
step had hydraulic pressure with the door opening or closing (so no such thump
comes before the first such step), and between any earlier such thump and this
one there is a step with hydraulic pressure and the door opening or closing. -/
theorem C23_abrupt_thump_debounced (xr1SoundID : Sound) (label : String)
    (steps : List DoorStep) (k : Nat)
    (h : abruptThumpAt (INIT_DOORSOUND xr1SoundID label) steps k = true) :
    (∃ j, j < k ∧ pressureInMotionAt steps j = true) ∧
    (∀ k1, k1 < k → abruptThumpAt (INIT_DOORSOUND xr1SoundID label) steps k1 = true →
      ∃ j, k1 < j ∧ j < k ∧ pressureInMotionAt steps j = true) :=
  ⟨abruptThumpAt_needs_pressure steps _ k rfl h,
   fun k1 hlt h1 => abruptThumpAt_between steps _ k1 k hlt h1 h⟩

/-! ### Status changes without hydraulic pressure -/

theorem PlayDoorSound_no_announce (ds : DoorStatus) (apu p : Bool) (d : DoorSound)
    (h : apu = false ∨ d.prevDoorStatus = ds) :
    (∀ c ∈ (DoorSoundsPostStep.PlayDoorSound ds apu p d).2,
      isShowInfo c = false ∧ c ≠ Call.StopSound d.soundID) ∧
    (0 < thumpCount d (DoorSoundsPostStep.PlayDoorSound ds apu p d).2 →
      apu = false ∧ (ds = DoorStatus.DOOR_OPENING ∨ ds = DoorStatus.DOOR_CLOSING)) ∧
    (ds ≠ DoorStatus.DOOR_OPENING → ds ≠ DoorStatus.DOOR_CLOSING →
      (DoorSoundsPostStep.PlayDoorSound ds apu p d).2 = []) := by
  obtain ⟨prev, sid, flag, lbl⟩ := d
  rcases h with h | h
  · subst h
    cases ds <;> cases prev <;> cases flag <;>
      simp [DoorSoundsPostStep.PlayDoorSound, thumpCount, isShowInfo]
  · simp only at h
    subst h
    cases prev <;> cases apu <;> cases flag <;> cases p <;>
      simp [DoorSoundsPostStep.PlayDoorSound, thumpCount, isShowInfo]

theorem run_same_status_quiet (e : DoorSound) (v : DoorStatus) (later : List DoorStep) :
    ∀ d : DoorSound, d.soundID = e.soundID → d.prevDoorStatus = v →
      (∀ i ∈ later, i.ds = v) →
      ∀ p ∈ List.zip later (DoorSoundsPostStep.run d later),
        (∀ c ∈ p.2, isShowInfo c = false ∧ c ≠ Call.StopSound e.soundID) ∧
        (0 < thumpCount e p.2 →
          p.1.apuOnline = false ∧
          (p.1.ds = DoorStatus.DOOR_OPENING ∨ p.1.ds = DoorStatus.DOOR_CLOSING)) ∧
        (p.1.ds ≠ DoorStatus.DOOR_OPENING → p.1.ds ≠ DoorStatus.DOOR_CLOSING → p.2 = []) := by
  induction later with
  | nil => intro d _ _ _ p hp; simp [DoorSoundsPostStep.run] at hp
  | cons x rest ih =>
    intro d hid hprev hsame p hp
    simp only [DoorSoundsPostStep.run, List.zip_cons_cons, List.mem_cons] at hp
    rcases hp with hp | hp
    · subst hp
      have hx : x.ds = v := hsame x (List.mem_cons_self _ _)
      have := PlayDoorSound_no_announce x.ds x.apuOnline x.isPlaying d (Or.inr (hprev.trans hx.symm))
      rw [hid, thumpCount_congr d e hid] at this
      exact this
    · exact ih _ ((PlayDoorSound_soundID _ _ _ _).trans hid)
        (hsame x (List.mem_cons_self _ _))
        (fun i hi => hsame i (List.mem_cons_of_mem _ hi)) p hp

/-- C27: a door status change that happens while hydraulic pressure is
unavailable is silently consumed.  For a step `x` in which
`CheckHydraulicPressure` reports unavailable, followed by any steps `later` in
which the status stays what it is in `x`: the step records the status as
`prevDoorStatus`; and in that step and in every later one, whether or not
pressure has returned, `PlayDoorSound` shows no info message and does not stop
the door's sound, makes no call at all while the status is neither
`DOOR_OPENING` nor `DOOR_CLOSING`, and loads the thump only in a step without
pressure in which the door is opening or closing. -/
theorem C27_change_without_pressure_is_consumed (d : DoorSound) (x : DoorStep)
    (later : List DoorStep) (hapu : x.apuOnline = false) (hsame : ∀ i ∈ later, i.ds = x.ds) :
    (DoorSoundsPostStep.PlayDoorSound x.ds x.apuOnline x.isPlaying d).1.prevDoorStatus = x.ds ∧
    ∀ p ∈ List.zip (x :: later) (DoorSoundsPostStep.run d (x :: later)),
      (∀ c ∈ p.2, isShowInfo c = false ∧ c ≠ Call.StopSound d.soundID) ∧
      (0 < thumpCount d p.2 →
        p.1.apuOnline = false ∧
        (p.1.ds = DoorStatus.DOOR_OPENING ∨ p.1.ds = DoorStatus.DOOR_CLOSING)) ∧
      (p.1.ds ≠ DoorStatus.DOOR_OPENING → p.1.ds ≠ DoorStatus.DOOR_CLOSING → p.2 = []) := by
  refine ⟨rfl, ?_⟩
  intro p hp
  simp only [DoorSoundsPostStep.run, List.zip_cons_cons, List.mem_cons] at hp
  rcases hp with hp | hp
  · subst hp
    exact PlayDoorSound_no_announce x.ds x.apuOnline x.isPlaying d (Or.inl hapu)
  · exact run_same_status_quiet d x.ds later _ (PlayDoorSound_soundID _ _ _ _) rfl hsame p hp

/-! ### The slope computation -/

/-- C25 (as stated) fails: nothing in `SetSlopePostStep` keeps `c*c - a*a`
positive.  After a first airborne step at time 10, the step at time 10.02
recomputes the slope; for a ship hovering at constant altitude with no
groundspeed both sums are 0, so `c*c - a*a = 0` and `a / b` divides by zero;
for a ship that climbed 10 m at a groundspeed of 1 m/s the sums are `a = 10`
and `c = 1/50`, so `c*c - a*a` is negative. -/
theorem C25_radicand_not_positive :
    SetSlopePostStep.recomputes (airborneStep (1002 / 100) 1000 0)
        (slopeAfterFirstStep 1000 0) = true ∧
      SetSlopePostStep.legs (airborneStep (1002 / 100) 1000 0)
        (slopeAfterFirstStep 1000 0) = (0, 0) ∧
      ¬ ((0 : ℚ) * 0 - 0 * 0 > 0) ∧
    SetSlopePostStep.recomputes (airborneStep (1002 / 100) 1010 1)
        (slopeAfterFirstStep 1000 1) = true ∧
      SetSlopePostStep.legs (airborneStep (1002 / 100) 1010 1)
        (slopeAfterFirstStep 1000 1) = (10, 1 / 50) ∧
      ((1 : ℚ) / 50) * (1 / 50) - 10 * 10 < 0 := by
  refine ⟨?_, ?_, ?_, ?_, ?_, ?_⟩ <;>
    norm_num [SetSlopePostStep.recomputes, SetSlopePostStep.legs, slopeAfterFirstStep,
      SetSlopePostStep.clbkPrePostStep, SetSlopePostStep.init, airborneStep,
      RollingArray.AddSample, RollingArray.GetSum]

/-- C25 (amended): in every step in which `SetSlopePostStep` recomputes
`m_slope`, the new value is `atan (a / sqrt (c*c - a*a))` for the sums `a` and
`c` over the rolling windows after this step's samples were added, and
`c*c - a*a` is positive exactly when `|a| < |c|`, which the step does not
check. -/
theorem C25_slope_from_legs (env : SlopeEnv) (i : SlopeInput) (s : SlopeState)
    (h : SetSlopePostStep.recomputes i s = true) :
    (SetSlopePostStep.clbkPrePostStep env i s).m_slope =
      env.atan ((SetSlopePostStep.legs i s).1 /
        env.sqrt ((SetSlopePostStep.legs i s).2 * (SetSlopePostStep.legs i s).2 -
          (SetSlopePostStep.legs i s).1 * (SetSlopePostStep.legs i s).1)) ∧
    ((SetSlopePostStep.legs i s).2 * (SetSlopePostStep.legs i s).2 -
        (SetSlopePostStep.legs i s).1 * (SetSlopePostStep.legs i s).1 > 0 ↔
      |(SetSlopePostStep.legs i s).1| < |(SetSlopePostStep.legs i s).2|) := by
  constructor
  · simp only [SetSlopePostStep.recomputes, Bool.and_eq_true, Bool.not_eq_true',
      decide_eq_false_iff_not, decide_eq_true_eq] at h
    obtain ⟨⟨⟨hg, hv⟩, hback⟩, hreach⟩ := h
    simp [SetSlopePostStep.clbkPrePostStep, SetSlopePostStep.legs, hg, hv, hback, hreach]
  · rw [← sq_lt_sq, gt_iff_lt, sub_pos, pow_two, pow_two]
/-! ### The theorems at concrete inputs -/

/-- The radiator reaching `DOOR_OPEN` in the fourth step of `radiatorOpening`. -/
theorem C1_PlayDoorSound_edge_triggered_witness :
    radiatorOpening[2]? =
      some { ds := DoorStatus.DOOR_OPENING, apuOnline := true, isPlaying := true } ∧
    radiatorOpening[2 + 1]? =
      some { ds := DoorStatus.DOOR_OPEN, apuOnline := true, isPlaying := true } ∧
    ∃ log, (DoorSoundsPostStep.run (INIT_DOORSOUND Sound.dRadiator "Radiator")
        radiatorOpening)[2 + 1]? = some log ∧
      thumpCount (INIT_DOORSOUND Sound.dRadiator "Radiator") log =
        (if DoorStatus.DOOR_OPEN ≠ DoorStatus.DOOR_OPENING ∧
            (DoorStatus.DOOR_OPEN = DoorStatus.DOOR_OPEN ∨
              DoorStatus.DOOR_OPEN = DoorStatus.DOOR_CLOSED) then 1 else 0) ∧
      doneMsgCount (INIT_DOORSOUND Sound.dRadiator "Radiator") log =
        (if DoorStatus.DOOR_OPEN ≠ DoorStatus.DOOR_OPENING ∧
            (DoorStatus.DOOR_OPEN = DoorStatus.DOOR_OPEN ∨
              DoorStatus.DOOR_OPEN = DoorStatus.DOOR_CLOSED) then 1 else 0) :=
  ⟨rfl, rfl,
    C1_PlayDoorSound_edge_triggered (INIT_DOORSOUND Sound.dRadiator "Radiator") radiatorOpening 2
      { ds := DoorStatus.DOOR_OPENING, apuOnline := true, isPlaying := true }
      { ds := DoorStatus.DOOR_OPEN, apuOnline := true, isPlaying := true }
      rfl rfl (by decide) (by decide) rfl⟩

/-- Bay doors that failed in one check stay failed in the next one. -/
theorem C2_CheckDoorFailure_failed_sink_witness :
    (XR5Vanguard.CheckDoorFailure xr5ThresholdEnv DoorRef.bay xr5DoorsOpen).2.bay_status =
      DoorStatus.DOOR_FAILED ∧
    (XR5Vanguard.CheckDoorFailure xr5ThresholdEnv DoorRef.bay
      (XR5Vanguard.CheckDoorFailure xr5ThresholdEnv DoorRef.bay xr5DoorsOpen).2).2.deref
        DoorRef.bay = DoorStatus.DOOR_FAILED :=
  ⟨by decide,
    ((C2_CheckDoorFailure_failed_sink xr5ThresholdEnv DoorRef.bay
      (XR5Vanguard.CheckDoorFailure xr5ThresholdEnv DoorRef.bay xr5DoorsOpen).2
      (Or.inl rfl) (fun _ => rfl)).2.1 (by decide)).2⟩

/-- The deployed crew elevator between the warning and the failure threshold. -/
theorem C3_CheckDoorFailure_new_failure_flag_witness :
    xr5DoorsOpen.deref DoorRef.crewElevator ≠ DoorStatus.DOOR_FAILED ∧
    xr5ThresholdEnv.failureExceeded xr5DoorsOpen DoorRef.crewElevator = false ∧
    xr5ThresholdEnv.warningExceeded xr5DoorsOpen DoorRef.crewElevator = true ∧
    (XR5Vanguard.CheckDoorFailure xr5ThresholdEnv DoorRef.crewElevator xr5DoorsOpen).1 = false ∧
    (XR5Vanguard.CheckDoorFailure xr5ThresholdEnv DoorRef.crewElevator xr5DoorsOpen).2.deref
      DoorRef.crewElevator = xr5DoorsOpen.deref DoorRef.crewElevator ∧
    (XR5Vanguard.CheckDoorFailure xr5ThresholdEnv DoorRef.crewElevator
      xr5DoorsOpen).2.warningLight DoorRef.crewElevator = true :=
  ⟨by decide,
    by norm_num [XR5Env.failureExceeded, xr5ThresholdEnv, xr5DoorsOpen],
    by norm_num [XR5Env.warningExceeded, xr5ThresholdEnv, xr5DoorsOpen],
    (C3_CheckDoorFailure_new_failure_flag xr5ThresholdEnv DoorRef.crewElevator xr5DoorsOpen
      (Or.inr rfl) (by decide)).2.2 (by decide)
      (by norm_num [XR5Env.failureExceeded, xr5ThresholdEnv, xr5DoorsOpen])
      (by norm_num [XR5Env.warningExceeded, xr5ThresholdEnv, xr5DoorsOpen])⟩

/-- A forced repeat of the coolant warning while its sound is still playing. -/
theorem C4_forced_warning_played_witness :
    (coolantWarningRepeated true).m_isCrashed = false ∧
    (coolantWarningRepeated true).m_warningWavFilename ≠ "" ∧
    (coolantWarningRepeated true).m_forceWarning = true ∧
    warningSoundCalls (ShowWarningPostStep.clbkPrePostStep 12 true nominalStartup
        (coolantWarningRepeated true)).2 =
      [Call.LoadXR1Sound Sound.Warning "Warning Coolant Temperature.wav" PlaybackType.Radio,
       Call.PlaySound Sound.Warning SoundType.ST_WarningCallout
         (PlayArg.soundType SoundType.ST_WarningCallout)] :=
  ⟨rfl, by decide, rfl,
    (C4_forced_warning_played 12 true nominalStartup (coolantWarningRepeated true) rfl
      (by decide) rfl).1⟩

/-- A non-forced repeat of the coolant warning while its sound is still playing. -/
theorem C5_playing_warning_not_interrupted_witness :
    (coolantWarningRepeated false).m_forceWarning = false ∧
    warningSoundCalls (ShowWarningPostStep.clbkPrePostStep 12 true nominalStartup
        (coolantWarningRepeated false)).2 = [] :=
  ⟨rfl, (C5_playing_warning_not_interrupted 12 nominalStartup (coolantWarningRepeated false)
    rfl).1⟩

/-- The coolant warning stops at 12 with its repeat queued; the repeat filed for 13 is not played. -/
theorem C6_repeat_cooldown_when_queued_at_stop_witness :
    (coolantWarningRepeated false).m_warningSoundPlayingPreviousStep = true ∧
    (coolantWarningRepeated false).m_warningWavFilename = "Warning Coolant Temperature.wav" ∧
    (coolantWarningRepeated false).m_lastWarningWavFilename =
      "Warning Coolant Temperature.wav" ∧
    (coolantWarningRepeated false).m_forceWarning = false ∧
    warningSoundCalls (ShowWarningPostStep.clbkPrePostStep 13 false nominalStartup
      ((ShowWarningPostStep.clbkPrePostStep 12 false nominalStartup
        ((coolantWarningRepeated false).file none)).1.file (some coolantWarningRequest))).2 = [] :=
  ⟨rfl, rfl, rfl, rfl,
    C6_repeat_cooldown_when_queued_at_stop "Warning Coolant Temperature.wav" 12 nominalStartup
      [{ request := some coolantWarningRequest, simt := 13, warningWavPlayingNow := false,
         startup := nominalStartup },
       { request := none, simt := 15, warningWavPlayingNow := false, startup := nominalStartup }]
      (coolantWarningRepeated false) rfl rfl (by decide) rfl rfl
      (by
        intro i hi
        simp only [List.mem_cons, List.mem_singleton, List.not_mem_nil, or_false] at hi
        rcases hi with rfl | rfl
        · exact ⟨by norm_num, by norm_num, Or.inr ⟨coolantWarningRequest, rfl, rfl, Or.inr rfl⟩⟩
        · exact ⟨by norm_num, by norm_num, Or.inl rfl⟩)
      _ (List.mem_cons_of_mem _ (List.mem_cons_self _ _))⟩

/-- The first coolant warning after start-up is played at once. -/
theorem C7_different_warning_not_deferred_witness :
    warningSoundCalls (ShowWarningPostStep.clbkPrePostStep 2 false nominalStartup
        (ShowWarningPostStep.init.file (some coolantWarningRequest))).2 =
      [Call.LoadXR1Sound Sound.Warning "Warning Coolant Temperature.wav" PlaybackType.Radio,
       Call.PlaySound Sound.Warning SoundType.ST_WarningCallout
         (PlayArg.soundType SoundType.ST_WarningCallout)] ∧
    (ShowWarningPostStep.warningBlock 2 false
        (ShowWarningPostStep.init.file (some coolantWarningRequest))).1.m_lastWarningWavFilename =
      "Warning Coolant Temperature.wav" :=
  ⟨(C7_different_warning_not_deferred 2 nominalStartup
      (ShowWarningPostStep.init.file (some coolantWarningRequest)) rfl (by decide)
      (by decide)).1,
   (C7_different_warning_not_deferred 2 nominalStartup
      (ShowWarningPostStep.init.file (some coolantWarningRequest)) rfl (by decide)
      (by decide)).2.1⟩

/-- A stored temperature far above the maximum is brought back into range by one step. -/
theorem C8_coolantTemp_within_bounds_witness :
    sampleCoolantConsts.NOMINAL_COOLANT_TEMP ≤
      (UpdateCoolantTempPostStep.clbkPrePostStep sampleCoolantConsts 1 1 (1 / 2)
        (coolantAt 500)).1.m_coolantTemp ∧
    (UpdateCoolantTempPostStep.clbkPrePostStep sampleCoolantConsts 1 1 (1 / 2)
        (coolantAt 500)).1.m_coolantTemp ≤ sampleCoolantConsts.MAX_COOLANT_TEMP :=
  C8_coolantTemp_within_bounds sampleCoolantConsts 1 1 (1 / 2) (coolantAt 500) rfl
    (by norm_num) (by norm_num [sampleCoolantConsts]) (by norm_num [sampleCoolantConsts])

/-- One second of heating from 50 degrees with the APU running. -/
theorem C9_coolant_heating_step_witness :
    (UpdateCoolantTempPostStep.clbkPrePostStep sampleCoolantConsts 1 1 (1 / 2)
        (coolantAt 50)).1.m_coolantTemp =
      min ((coolantAt 50).m_coolantTemp +
            sampleCoolantConsts.COOLANT_HEATING_RATE (coolantAt 50).CoolantHeatingRate * 1 *
              heatingModifier (coolantAt 50).apu_status)
          sampleCoolantConsts.MAX_COOLANT_TEMP :=
  (C9_coolant_heating_step sampleCoolantConsts 1 1 (1 / 2) (coolantAt 50) rfl (by decide) rfl
    (by norm_num [sampleCoolantConsts, coolantAt])
    (by norm_num [sampleCoolantConsts, coolantAt]) (by norm_num)
    (by norm_num [sampleCoolantConsts])).1

/-- One second at about 100 degrees with a draw of 0.01. -/
theorem C10_probabilistic_coolant_failure_witness :
    sampleCoolantConsts.CRITICAL_COOLANT_TEMP ≤
      (UpdateCoolantTempPostStep.clbkPrePostStep sampleCoolantConsts 1 1 (1 / 100)
        (coolantAt 100)).1.m_coolantTemp ∧
    ((UpdateCoolantTempPostStep.clbkPrePostStep sampleCoolantConsts 1 1 (1 / 100)
        (coolantAt 100)).1.m_internalSystemsFailure = true ↔
      (1 / 100 : ℚ) ≤ (1 / 20) *
        ((UpdateCoolantTempPostStep.clbkPrePostStep sampleCoolantConsts 1 1 (1 / 100)
          (coolantAt 100)).1.m_coolantTemp / sampleCoolantConsts.CRITICAL_COOLANT_TEMP) ^ 2) :=
  ⟨by
      rw [clbkPrePostStep_coolantTemp sampleCoolantConsts 1 1 (1 / 100) (coolantAt 100) rfl]
      simp only [UpdateCoolantTempPostStep.newCoolantTemp, sampleCoolantConsts, coolantAt,
        reduceCtorEq, if_false, if_true, true_or, Bool.false_eq_true]
      norm_num,
    (C10_probabilistic_coolant_failure sampleCoolantConsts 1 1 (1 / 100) (coolantAt 100) rfl rfl
      (by
        rw [clbkPrePostStep_coolantTemp sampleCoolantConsts 1 1 (1 / 100) (coolantAt 100) rfl]
        simp only [UpdateCoolantTempPostStep.newCoolantTemp, sampleCoolantConsts, coolantAt,
          reduceCtorEq, if_false, if_true, true_or, Bool.false_eq_true]
        norm_num)).1⟩

/-- The three handlers with all modes lit and the APU offline. -/
theorem C11_recenter_aborted_without_pressure_witness :
    apuOfflineStep.hydraulicPressure = false ∧
    offCentre.m_hoverCenteringMode = true ∧
    AutoCenteringSimpleButtonAreasPostStep.DoHoverCenter sampleCenteringEnv apuOfflineStep
        offCentre =
      ({ offCentre with m_hoverCenteringMode := false },
       [CenterCall.CheckHydraulicPressure true true,
        CenterCall.TriggerRedrawArea AreaID.AID_HBALANCECENTER]) :=
  ⟨rfl, rfl,
    (C11_recenter_aborted_without_pressure sampleCenteringEnv apuOfflineStep offCentre rfl).1
      rfl⟩

/-- A breach reported for the cockpit only: one `DoCrash`. -/
theorem C13_DoCrash_once_per_breached_surface_witness :
    cockpitBreachOnly.cockpit ≠ 0 ∧
    doCrashCount (XR5Vanguard.CheckHullHeatingDamage cockpitBreachOnly hatchOpenHull).2 = 1 :=
  ⟨by decide,
    (C13_DoCrash_once_per_breached_surface cockpitBreachOnly hatchOpenHull (by decide)).2.2
      rfl rfl rfl⟩

/-- Half integrity set on an undamaged elevator. -/
theorem C15_elevator_damage_round_trip_witness :
    ((1 / 2 : ℚ) < 1) ∧
    (XR5Vanguard.SetDamageStatus inertDamageEnv DamageItem.Elevator (1 / 2)
      undamagedXR5).crewElevator_status = DoorStatus.DOOR_FAILED ∧
    (XR5Vanguard.SetDamageStatus inertDamageEnv DamageItem.Elevator (1 / 2)
      undamagedXR5).wl5Elev = true ∧
    (XR5Vanguard.GetDamageStatus inertDamageEnv DamageItem.Elevator
      (XR5Vanguard.SetDamageStatus inertDamageEnv DamageItem.Elevator (1 / 2)
        undamagedXR5)).fracIntegrity = 0 :=
  ⟨by norm_num,
    (C15_elevator_damage_round_trip inertDamageEnv (1 / 2) undamagedXR5 (by norm_num)
      (fun _ => ⟨rfl, rfl⟩)).1⟩

/-- The start-up damage message, two lines. -/
theorem C17_AddLines_splits_on_ampersand_witness :
    "Ship damage detected!&Check MDA status screens.".toList.length + 1 ≤ 128 ∧
    (TextLineGroup.AddLines.submitted
      "Ship damage detected!&Check MDA status screens.".toList true).length =
      1 + "Ship damage detected!&Check MDA status screens.".toList.count '&' :=
  ⟨by decide,
    (C17_AddLines_splits_on_ampersand 128 (TextLineGroup.new 7)
      "Ship damage detected!&Check MDA status screens.".toList true (by decide)).1⟩

/-- Three lines added to a group that keeps two. -/
theorem C18_TextLineGroup_bounded_fifo_witness :
    (0 : Int) ≤ 2 ∧
    (threeLines.foldl TextLineGroup.AddLine (TextLineGroup.new 2)).m_lines =
      threeLines.drop (threeLines.length - (2 : Int).toNat) :=
  ⟨by decide, (C18_TextLineGroup_bounded_fifo 2 (by decide) threeLines).2.1⟩


/-- Pressure is lost in the third step of `pressureLostWhileOpening`, where the
thump is played; the radiator was opening with pressure in an earlier step. -/
theorem C23_abrupt_thump_debounced_witness :
    abruptThumpAt (INIT_DOORSOUND Sound.dRadiator "Radiator") pressureLostWhileOpening 2 = true ∧
    ∃ j, j < 2 ∧ pressureInMotionAt pressureLostWhileOpening j = true :=
  ⟨by decide,
   (C23_abrupt_thump_debounced Sound.dRadiator "Radiator" pressureLostWhileOpening 2
     (by decide)).1⟩

/-- A ship that climbed 1 m while covering 2 m: the second step recomputes the
slope from `a = 1` and `c = 2`. -/
theorem C25_slope_from_legs_witness :
    SetSlopePostStep.recomputes (airborneStep (1002 / 100) 1001 100)
        (slopeAfterFirstStep 1000 100) = true ∧
    SetSlopePostStep.legs (airborneStep (1002 / 100) 1001 100)
        (slopeAfterFirstStep 1000 100) = (1, 2) ∧
    (SetSlopePostStep.clbkPrePostStep sampleSlopeEnv (airborneStep (1002 / 100) 1001 100)
        (slopeAfterFirstStep 1000 100)).m_slope =
      sampleSlopeEnv.atan ((SetSlopePostStep.legs (airborneStep (1002 / 100) 1001 100)
          (slopeAfterFirstStep 1000 100)).1 /
        sampleSlopeEnv.sqrt
          ((SetSlopePostStep.legs (airborneStep (1002 / 100) 1001 100)
              (slopeAfterFirstStep 1000 100)).2 *
            (SetSlopePostStep.legs (airborneStep (1002 / 100) 1001 100)
              (slopeAfterFirstStep 1000 100)).2 -
          (SetSlopePostStep.legs (airborneStep (1002 / 100) 1001 100)
              (slopeAfterFirstStep 1000 100)).1 *
            (SetSlopePostStep.legs (airborneStep (1002 / 100) 1001 100)
              (slopeAfterFirstStep 1000 100)).1)) :=
  have h : SetSlopePostStep.recomputes (airborneStep (1002 / 100) 1001 100)
      (slopeAfterFirstStep 1000 100) = true := by
    norm_num [SetSlopePostStep.recomputes, slopeAfterFirstStep,
      SetSlopePostStep.clbkPrePostStep, SetSlopePostStep.init, airborneStep]
  ⟨h,
   by norm_num [SetSlopePostStep.legs, slopeAfterFirstStep, SetSlopePostStep.clbkPrePostStep,
        SetSlopePostStep.init, airborneStep, RollingArray.AddSample, RollingArray.GetSum],
   (C25_slope_from_legs sampleSlopeEnv (airborneStep (1002 / 100) 1001 100)
     (slopeAfterFirstStep 1000 100) h).1⟩

/-- Coolant at 95 degrees with a certain failure roll: the systems fail and the
stored temperature is critical. -/
theorem C26_failure_implies_critical_witness :
    (coolantAt 95).m_isCrashed = false ∧
    (UpdateCoolantTempPostStep.clbkPrePostStep sampleCoolantConsts 1 1 0
        (coolantAt 95)).1.m_internalSystemsFailure = true ∧
    sampleCoolantConsts.CRITICAL_COOLANT_TEMP ≤
      (UpdateCoolantTempPostStep.clbkPrePostStep sampleCoolantConsts 1 1 0
        (coolantAt 95)).1.m_coolantTemp :=
  have hfail : (UpdateCoolantTempPostStep.clbkPrePostStep sampleCoolantConsts 1 1 0
      (coolantAt 95)).1.m_internalSystemsFailure = true := by
    have ht : UpdateCoolantTempPostStep.newCoolantTemp sampleCoolantConsts 1 (coolantAt 95) =
        190021 / 2000 := by
      have hne : ¬ DoorStatus.DOOR_CLOSED = DoorStatus.DOOR_OPEN := by decide
      norm_num [UpdateCoolantTempPostStep.newCoolantTemp, sampleCoolantConsts, coolantAt, hne]
    simp only [UpdateCoolantTempPostStep.clbkPrePostStep, ht]
    norm_num [sampleCoolantConsts, coolantAt]
  ⟨rfl, hfail,
   (C26_failure_implies_critical sampleCoolantConsts 1 1 0 (coolantAt 95) rfl).1 hfail⟩

/-- The radiator is found open in a step without pressure and stays open in
two steps with pressure: nothing is announced in any of the three steps. -/
theorem C27_change_without_pressure_is_consumed_witness :
    openWithoutPressure.apuOnline = false ∧
    (∀ i ∈ openWithPressure, i.ds = openWithoutPressure.ds) ∧
    radiatorSeenOpening.prevDoorStatus ≠ openWithoutPressure.ds ∧
    DoorSoundsPostStep.run radiatorSeenOpening (openWithoutPressure :: openWithPressure) =
      [[], [], []] ∧
    (DoorSoundsPostStep.PlayDoorSound openWithoutPressure.ds openWithoutPressure.apuOnline
        openWithoutPressure.isPlaying radiatorSeenOpening).1.prevDoorStatus =
      openWithoutPressure.ds :=
  ⟨rfl, by decide, by decide, by decide,
   (C27_change_without_pressure_is_consumed radiatorSeenOpening openWithoutPressure
     openWithPressure rfl (by decide)).1⟩
end XRVessels
